import Mathlib

/-!
# ulibSD: the SD-card driver `sd_io.c` over the SPI adapter `spi_io.c`

A shallow embedding of the microcontroller build of the driver (the branch
`#else // uControllers`, with `SD_IO_WRITE` defined and
`SD_IO_WRITE_WAIT_BLOCKER`, `SD_IO_DBG_COUNT` undefined).

* Bytes, `WORD`s and `DWORD`s are natural numbers; every place where the C code
  truncates is an explicit `% 256`, `% 65536` or `% 2 ^ 32`.
* The hardware beneath `spi_io.c` (the SPI peripheral, the chip-select pin and
  the microsecond clock) is a state machine `Link σ`.
* `World σ` is the hardware state together with the static variable
  `spi_timer_expire` and a log of the calls made to the adapter, newest first.
* Loops whose iteration count depends on the link take a `fuel` bound and
  return `none` when it is used up; every call made on behalf of one driver
  operation receives the same `fuel`.
* `SD_PRINTF` and `printf` only write to the console and are left out.
-/

namespace UlibSD

/-! ## Hardware and adapter (`spi_io.c`) -/

/-- The SDK calls made by `spi_io.c`, as transitions on a hardware state. -/
structure Link (σ : Type) where
  /-- One full-duplex byte transfer: the byte shifted out gives the byte shifted in. -/
  spi_write_read_blocking : σ → Nat → Nat × σ
  /-- The clock reading in microseconds. -/
  get_absolute_time : σ → Nat × σ
  /-- Drive the chip-select pin. -/
  gpio_put : σ → Bool → σ
  /-- Change the SPI clock rate. -/
  spi_set_baudrate : σ → Nat → σ
  /-- Set up the SPI peripheral and its pins. -/
  spi_init : σ → σ

/-- One call to the adapter, as seen by an observer of the link. -/
inductive Ev where
  | init
  | cs (level : Bool)
  | freq (hz : Nat)
  | rw (tx rx : Nat)
  | timerOn (ms : Nat)
  | timerStatus (active : Bool)
  | timerOff
  deriving DecidableEq, Repr

/-- Hardware state, the static `spi_timer_expire`, and the log of adapter calls (newest first). -/
structure World (σ : Type) where
  hw : σ
  spi_timer_expire : Nat
  trace : List Ev

variable {σ : Type}

/-- Function `SPI_Init`: `spi_init`, pin set-up, chip select driven high. -/
def SPI_Init (L : Link σ) (w : World σ) : World σ :=
  { w with hw := L.gpio_put (L.spi_init w.hw) true, trace := Ev.init :: w.trace }

/-- Function `SPI_RW`: exchange one byte. -/
def SPI_RW (L : Link σ) (d : Nat) (w : World σ) : Nat × World σ :=
  let r := L.spi_write_read_blocking w.hw (d % 256)
  (r.1 % 256, { w with hw := r.2, trace := Ev.rw (d % 256) (r.1 % 256) :: w.trace })

/-- The loop `for (i = 0; i < n; i++) SPI_RW(0xFF);` -/
def SPI_RW_dummy (L : Link σ) : Nat → World σ → World σ
  | 0, w => w
  | n + 1, w => SPI_RW_dummy L n (SPI_RW L 0xFF w).2

/-- The loop `for (i = 0; i < n; i++) a[i] = SPI_RW(0xFF);` giving the bytes stored in `a`. -/
def SPI_RW_array (L : Link σ) : Nat → World σ → List Nat × World σ
  | 0, w => ([], w)
  | n + 1, w =>
    let r := SPI_RW L 0xFF w
    let rest := SPI_RW_array L n r.2
    (r.1 :: rest.1, rest.2)

/-- Function `SPI_Release`: ten dummy bytes. -/
def SPI_Release (L : Link σ) (w : World σ) : World σ :=
  SPI_RW_dummy L 10 w

/-- Function `SPI_CS_Low`. -/
def SPI_CS_Low (L : Link σ) (w : World σ) : World σ :=
  { w with hw := L.gpio_put w.hw false, trace := Ev.cs false :: w.trace }

/-- Function `SPI_CS_High`. -/
def SPI_CS_High (L : Link σ) (w : World σ) : World σ :=
  { w with hw := L.gpio_put w.hw true, trace := Ev.cs true :: w.trace }

/-- Function `SPI_Freq_High`. -/
def SPI_Freq_High (L : Link σ) (w : World σ) : World σ :=
  { w with hw := L.spi_set_baudrate w.hw (12 * 1000 * 1000),
           trace := Ev.freq (12 * 1000 * 1000) :: w.trace }

/-- Function `SPI_Freq_Low`. -/
def SPI_Freq_Low (L : Link σ) (w : World σ) : World σ :=
  { w with hw := L.spi_set_baudrate w.hw (400 * 1000), trace := Ev.freq (400 * 1000) :: w.trace }

/-- Function `SPI_Timer_On`: `spi_timer_expire = make_timeout_time_ms(ms)`, in microseconds. -/
def SPI_Timer_On (L : Link σ) (ms : Nat) (w : World σ) : World σ :=
  let r := L.get_absolute_time w.hw
  { hw := r.2, spi_timer_expire := r.1 + (ms % 65536) * 1000,
    trace := Ev.timerOn (ms % 65536) :: w.trace }

/-- Function `SPI_Timer_Status`:
`absolute_time_diff_us(get_absolute_time(), spi_timer_expire) < 0 ? 0 : 1`. -/
def SPI_Timer_Status (L : Link σ) (w : World σ) : Bool × World σ :=
  let r := L.get_absolute_time w.hw
  let b := decide (r.1 ≤ w.spi_timer_expire)
  (b, { w with hw := r.2, trace := Ev.timerStatus b :: w.trace })

/-- Function `SPI_Timer_Off`: `spi_timer_expire = get_absolute_time()`. -/
def SPI_Timer_Off (L : Link σ) (w : World σ) : World σ :=
  let r := L.get_absolute_time w.hw
  { hw := r.2, spi_timer_expire := r.1, trace := Ev.timerOff :: w.trace }

/-! ## Declarations of `sd_io.h` -/

/-- Modelled from the spec: `sd_io.h` is not among the sources. A command byte is the
fixed pattern `0x40` in the top two bits plus the command index. -/
def CMD0 : Nat := 0x40 + 0
/-- Modelled from the spec: the legacy "leave idle" command, index 1. -/
def CMD1 : Nat := 0x40 + 1
/-- Modelled from the spec: the voltage-check command, index 8. -/
def CMD8 : Nat := 0x40 + 8
/-- Modelled from the spec: read the CSD register, index 9. -/
def CMD9 : Nat := 0x40 + 9
/-- Modelled from the spec: set the block length, index 16. -/
def CMD16 : Nat := 0x40 + 16
/-- Modelled from the spec: read one block, index 17. -/
def CMD17 : Nat := 0x40 + 17
/-- Modelled from the spec: write one block, index 24. -/
def CMD24 : Nat := 0x40 + 24
/-- Modelled from the spec: the application-command escape, index 55. -/
def CMD55 : Nat := 0x40 + 55
/-- Modelled from the spec: read the OCR register, index 58. -/
def CMD58 : Nat := 0x40 + 58
/-- Modelled from the spec: switch CRC checking, index 59. -/
def CMD59 : Nat := 0x40 + 59
/-- Modelled from the spec: the application-specific "leave idle" command, index 41 with
the escape bit `0x80` that means "prefixed by CMD55". -/
def ACMD41 : Nat := 0xC0 + 41
/-- Modelled from the spec: the block size, 512 bytes. -/
def SD_BLK_SIZE : Nat := 512

/-- Modelled from the spec: the result codes of `sd_io.h` (section 7 of the spec and the
names used in `sd_io.c`). -/
inductive SDRESULTS where
  | SD_OK
  | SD_NOINIT
  | SD_ERROR
  | SD_PARERR
  | SD_BUSY
  | SD_REJECT
  | SD_NORESPONSE
  deriving DecidableEq, Repr

export SDRESULTS (SD_OK SD_NOINIT SD_ERROR SD_PARERR SD_BUSY SD_REJECT SD_NORESPONSE)

/-- Modelled from the spec: the device descriptor `SD_DEV` (card type, mount flag, last
sector), without the optional debug counters. -/
structure SD_DEV where
  mount : Bool
  cardtype : Nat
  last_sector : Nat
  deriving DecidableEq, Repr

/-- Constants of `sd_io.h` whose values neither the sources nor the spec fix: they are
parameters of the driver. -/
structure Cfg where
  SD_INIT_TRYS : Nat
  SD_IO_WRITE_TIMEOUT_WAIT : Nat
  SDCT_MMC : Nat
  SDCT_SD1 : Nat
  SDCT_SD2 : Nat
  SDCT_BLOCK : Nat
  deriving Repr

/-- The memory of the caller at `dat`: the byte at each offset. -/
abbrev Mem := Nat → Nat

/-! ## Private methods (`sd_io.c`) -/

/-- Function `__SD_Assert`. -/
def __SD_Assert (L : Link σ) (w : World σ) : World σ := SPI_CS_Low L w

/-- Function `__SD_Deassert`. -/
def __SD_Deassert (L : Link σ) (w : World σ) : World σ := SPI_CS_High L w

/-- Function `__SD_Speed_Transfer`: `throttle == HIGH` selects the high clock rate. -/
def __SD_Speed_Transfer (L : Link σ) (high : Bool) (w : World σ) : World σ :=
  if high then SPI_Freq_High L w else SPI_Freq_Low L w

/-- The response loop of `__SD_Send_Cmd`:
`do { res = SPI_RW(0xFF); } while ((res & 0x80) && (SPI_Timer_Status() == TRUE));` -/
def Send_Cmd_wait (L : Link σ) : Nat → World σ → Option (Nat × World σ)
  | 0, _ => none
  | n + 1, w =>
    let r := SPI_RW L 0xFF w
    if r.1 &&& 0x80 ≠ 0 then
      let t := SPI_Timer_Status L r.2
      if t.1 then Send_Cmd_wait L n t.2 else some (r.1, t.2)
    else some (r.1, r.2)

/-- The checksum byte chosen by `__SD_Send_Cmd` for the command byte it transmits. -/
def Send_Cmd_crc (cmd : Nat) : Nat :=
  let crc := 0x01
  let crc := if cmd = CMD0 then 0x95 else crc
  let crc := if cmd = CMD8 then 0x87 else crc
  let crc := if cmd = CMD55 then 0x65 else crc
  let crc := if cmd = ACMD41 then 0x77 else crc
  crc

/-- The part of `__SD_Send_Cmd` from "Select the card" up to the arming of the response
timer: select pulse, six-byte frame, `SPI_Timer_On(5)`. -/
def Send_Cmd_send (L : Link σ) (cmd arg : Nat) (w : World σ) : World σ :=
  let w := __SD_Deassert L w
  let w := (SPI_RW L 0xFF w).2
  let w := __SD_Assert L w
  let w := (SPI_RW L 0xFF w).2
  let w := (SPI_RW L cmd w).2
  let w := (SPI_RW L (arg >>> 24) w).2
  let w := (SPI_RW L (arg >>> 16) w).2
  let w := (SPI_RW L (arg >>> 8) w).2
  let w := (SPI_RW L (arg >>> 0) w).2
  let w := (SPI_RW L (Send_Cmd_crc cmd) w).2
  SPI_Timer_On L 5 w

/-- The part of `__SD_Send_Cmd` from "Select the card" to the end: the frame, the response loop under
the 5 ms timer, `SPI_Timer_Off`. -/
def Send_Cmd_frame (L : Link σ) (fuel : Nat) (cmd arg : Nat) (w : World σ) :
    Option (Nat × World σ) :=
  (Send_Cmd_wait L fuel (Send_Cmd_send L cmd arg w)).bind fun r =>
    some (r.1, SPI_Timer_Off L r.2)

/-- Function `__SD_Send_Cmd(cmd, arg)`; the recursion on the escape bit and the response loop are
bounded by the fuel. -/
def __SD_Send_Cmd (L : Link σ) : Nat → Nat → Nat → World σ → Option (Nat × World σ)
  | 0, _, _, _ => none
  | fuel + 1, cmd, arg, w =>
    if cmd &&& 0x80 ≠ 0 then
      (__SD_Send_Cmd L fuel CMD55 0 w).bind fun r =>
        if r.1 > 1 then some (r.1, r.2)
        else Send_Cmd_frame L fuel (cmd &&& 0x7F) arg r.2
    else Send_Cmd_frame L fuel cmd arg w

/-- The payload loop of `__SD_Write_Block`:
`for (idx = 0; idx != SD_BLK_SIZE; idx++) SPI_RW(*((BYTE*)dat + idx));`
with `n` iterations left. -/
def Write_Block_data (L : Link σ) (dat : Mem) : Nat → Nat → World σ → World σ
  | 0, _, w => w
  | n + 1, idx, w => Write_Block_data L dat n (idx + 1) (SPI_RW L (dat idx) w).2

/-- The busy loop of `__SD_Write_Block`:
`do { line = SPI_RW(0xFF); } while ((line == 0) && (SPI_Timer_Status() == TRUE));` -/
def Write_Block_wait (L : Link σ) : Nat → World σ → Option (Nat × World σ)
  | 0, _ => none
  | n + 1, w =>
    let r := SPI_RW L 0xFF w
    if r.1 = 0 then
      let t := SPI_Timer_Status L r.2
      if t.1 then Write_Block_wait L n t.2 else some (r.1, t.2)
    else some (r.1, r.2)

/-- The tail of `__SD_Write_Block` after the acceptance check (timeout build). -/
def Write_Block_finish (L : Link σ) (cfg : Cfg) (fuel : Nat) (w : World σ) :
    Option (SDRESULTS × World σ) :=
  let w := SPI_Timer_On L cfg.SD_IO_WRITE_TIMEOUT_WAIT w
  (Write_Block_wait L fuel w).bind fun r =>
    let w := SPI_Timer_Off L r.2
    if r.1 = 0 then some (SD_BUSY, w) else some (SD_OK, w)

/-- Function `__SD_Write_Block(dev, dat, token)`. -/
def __SD_Write_Block (L : Link σ) (cfg : Cfg) (fuel : Nat) (dat : Mem) (token : Nat)
    (w : World σ) : Option (SDRESULTS × World σ) :=
  let w := (SPI_RW L token w).2
  if token ≠ 0xFD then
    let w := Write_Block_data L dat SD_BLK_SIZE 0 w
    let w := (SPI_RW L 0xFF w).2
    let w := (SPI_RW L 0xFF w).2
    let r := SPI_RW L 0xFF w
    if r.1 &&& 0x1F ≠ 0x05 then some (SD_REJECT, r.2)
    else Write_Block_finish L cfg fuel r.2
  else Write_Block_finish L cfg fuel w

/-- The wait of `__SD_Sectors` for the data token: `while (SPI_RW(0xFF) == 0xFF);` -/
def Sectors_wait (L : Link σ) : Nat → World σ → Option (World σ)
  | 0, _ => none
  | n + 1, w =>
    let r := SPI_RW L 0xFF w
    if r.1 = 0xFF then Sectors_wait L n r.2 else some r.2

/-- The locals `ss`, `C_SIZE`, `C_SIZE_MULT`, `READ_BL_LEN` of `__SD_Sectors`. -/
structure SectorsVars where
  ss : Nat
  C_SIZE : Nat
  C_SIZE_MULT : Nat
  READ_BL_LEN : Nat
  deriving DecidableEq, Repr

/-- The field extraction of `__SD_Sectors` for the card type and the 16 CSD bytes, before
the final assignment to `ss`. `C_SIZE` is a `WORD`, `C_SIZE_MULT` and `READ_BL_LEN` are
`BYTE`s, `ss` is a `DWORD`. The shift `ss >>= (READ_BL_LEN - 9)` has a negative count when
`READ_BL_LEN < 9`, which C leaves undefined; it is taken as a shift by zero here, and its
result is overwritten by the caller. -/
def Sectors_fields (cfg : Cfg) (cardtype : Nat) (csd : List Nat) : SectorsVars :=
  let v : SectorsVars := { ss := 0, C_SIZE := 0, C_SIZE_MULT := 0, READ_BL_LEN := 0 }
  if cardtype &&& cfg.SDCT_SD1 ≠ 0 then
    let v := { v with ss := csd.getD 0 0 }
    let v := { v with READ_BL_LEN := csd.getD 5 0 &&& 0x0F }
    let v := { v with C_SIZE := csd.getD 6 0 &&& 0x03 }
    let v := { v with C_SIZE := (v.C_SIZE <<< 8) % 65536 }
    let v := { v with C_SIZE := v.C_SIZE ||| csd.getD 7 0 }
    let v := { v with C_SIZE := (v.C_SIZE <<< 2) % 65536 }
    let v := { v with C_SIZE := v.C_SIZE ||| ((csd.getD 8 0 >>> 6) &&& 0x03) }
    let v := { v with C_SIZE_MULT := csd.getD 9 0 &&& 0x03 }
    let v := { v with C_SIZE_MULT := (v.C_SIZE_MULT <<< 1) % 256 }
    let v := { v with C_SIZE_MULT := v.C_SIZE_MULT ||| ((csd.getD 10 0 >>> 7) &&& 0x01) }
    v
  else if cardtype &&& cfg.SDCT_SD2 ≠ 0 then
    let v := { v with C_SIZE :=
      ((((csd.getD 7 0 &&& 0x3F) <<< 16) % 2 ^ 32) ||| ((csd.getD 8 0 <<< 8) % 2 ^ 32)
        ||| csd.getD 9 0) % 65536 }
    if cardtype &&& cfg.SDCT_BLOCK ≠ 0 then
      { v with ss := v.C_SIZE + 1 }
    else
      let v := { v with C_SIZE_MULT :=
        (((csd.getD 9 0 &&& 0x03) <<< 1) ||| ((csd.getD 10 0 >>> 7) &&& 0x01)) % 256 }
      let v := { v with READ_BL_LEN := csd.getD 5 0 &&& 0x0F }
      let v := { v with ss := v.C_SIZE + 1 }
      let v := { v with ss := (v.ss <<< (v.C_SIZE_MULT + 2)) % 2 ^ 32 }
      let v := { v with ss := v.ss >>> (v.READ_BL_LEN - 9) }
      v
  else v

/-- Function `__SD_Sectors(dev)`: the number of sectors, zero when CMD9 is refused. -/
def __SD_Sectors (L : Link σ) (cfg : Cfg) (fuel : Nat) (dev : SD_DEV) (w : World σ) :
    Option (Nat × World σ) :=
  (__SD_Send_Cmd L fuel CMD9 0 w).bind fun r =>
    if r.1 = 0 then
      (Sectors_wait L fuel r.2).bind fun w =>
        let a := SPI_RW_array L 16 w
        let w := (SPI_RW L 0xFF a.2).2
        let w := (SPI_RW L 0xFF w).2
        let w := SPI_Release L w
        let v := Sectors_fields cfg dev.cardtype a.1
        let v := { v with ss := ((v.C_SIZE + 1) * 1024) % 2 ^ 32 }
        some (v.ss, w)
    else some (0, r.2)

/-! ## Public methods (`sd_io.c`) -/

/-- The reset loop of `SD_Init`:
`while ((r1 != 1) && (SPI_Timer_Status() == TRUE)) { r1 = __SD_Send_Cmd(CMD0, 0); }` -/
def Init_reset (L : Link σ) (fuel : Nat) : Nat → Nat → World σ → Option (World σ)
  | 0, _, _ => none
  | n + 1, r1, w =>
    if r1 ≠ 1 then
      let t := SPI_Timer_Status L w
      if t.1 then
        (__SD_Send_Cmd L fuel CMD0 0 t.2).bind fun r => Init_reset L fuel n r.1 r.2
      else some t.2
    else some w

/-- Each of the two SD v2 loops of `SD_Init`:
`while (SPI_Timer_Status() == TRUE) { r2 = __SD_Send_Cmd(ACMD41, 1UL << 30); if (r2 == 0) break; }` -/
def Init_v2_idle (L : Link σ) (fuel : Nat) : Nat → World σ → Option (World σ)
  | 0, _ => none
  | n + 1, w =>
    let t := SPI_Timer_Status L w
    if t.1 then
      (__SD_Send_Cmd L fuel ACMD41 (1 <<< 30) t.2).bind fun r =>
        if r.1 = 0 then some r.2 else Init_v2_idle L fuel n r.2
    else some t.2

/-- The legacy loop of `SD_Init`:
`while ((SPI_Timer_Status() == TRUE) && (__SD_Send_Cmd(cmd, 0)));` -/
def Init_v1_idle (L : Link σ) (fuel : Nat) (cmd : Nat) : Nat → World σ → Option (World σ)
  | 0, _ => none
  | n + 1, w =>
    let t := SPI_Timer_Status L w
    if t.1 then
      (__SD_Send_Cmd L fuel cmd 0 t.2).bind fun r =>
        if r.1 ≠ 0 then Init_v1_idle L fuel cmd n r.2 else some r.2
    else some t.2

/-- The SD v2 branch of one attempt of `SD_Init`, entered after CMD8 answered 1. -/
def Init_v2 (L : Link σ) (cfg : Cfg) (fuel : Nat) (ct : Nat) (w : World σ) :
    Option (Nat × World σ) :=
  let ocr := SPI_RW_array L 4 w
  if ocr.1.getD 2 0 = 0x01 ∧ ocr.1.getD 3 0 = 0xAA then
    let w := SPI_Timer_On L 1000 ocr.2
    (Init_v2_idle L fuel fuel w).bind fun w =>
      let w := SPI_Timer_Off L w
      let w := SPI_Timer_On L 1000 w
      (Init_v2_idle L fuel fuel w).bind fun w =>
        let w := SPI_Timer_Off L w
        (__SD_Send_Cmd L fuel CMD58 0 w).bind fun r3 =>
          if r3.1 = 0 then
            let ocr := SPI_RW_array L 4 r3.2
            let ct :=
              if ocr.1.getD 0 0 &&& 0x40 ≠ 0 then (cfg.SDCT_SD2 ||| cfg.SDCT_BLOCK) % 256
              else cfg.SDCT_SD2 % 256
            some (ct, ocr.2)
          else some (ct, r3.2)
  else some (ct, ocr.2)

/-- The legacy (SD v1 or MMC) branch of one attempt of `SD_Init`. -/
def Init_v1 (L : Link σ) (cfg : Cfg) (fuel : Nat) (w : World σ) : Option (Nat × World σ) :=
  (__SD_Send_Cmd L fuel ACMD41 0 w).bind fun p =>
    let ct := if p.1 ≤ 1 then cfg.SDCT_SD1 % 256 else cfg.SDCT_MMC % 256
    let cmd := if p.1 ≤ 1 then ACMD41 else CMD1
    let w := SPI_Timer_On L 250 p.2
    (Init_v1_idle L fuel cmd fuel w).bind fun w =>
      let w := SPI_Timer_Off L w
      let t := SPI_Timer_Status L w
      let ct := if t.1 = false then 0 else ct
      (__SD_Send_Cmd L fuel CMD59 0 t.2).bind fun a =>
        let ct := if a.1 ≠ 0 then 0 else ct
        (__SD_Send_Cmd L fuel CMD16 512 a.2).bind fun b =>
          let ct := if b.1 ≠ 0 then 0 else ct
          some (ct, b.2)

/-- The body of the attempt loop of `SD_Init`: power on, software reset, version probe. -/
def Init_attempt (L : Link σ) (cfg : Cfg) (fuel : Nat) (ct : Nat) (dev : SD_DEV)
    (w : World σ) : Option (Nat × SD_DEV × World σ) :=
  let w := SPI_Init L w
  let w := SPI_CS_High L w
  let w := SPI_Freq_Low L w
  let w := SPI_RW_dummy L 10 w
  let w := SPI_RW_dummy L 10 w
  let dev := { dev with mount := false }
  let w := SPI_Timer_On L 500 w
  (Init_reset L fuel fuel 0 w).bind fun w =>
    let w := SPI_Timer_Off L w
    (__SD_Send_Cmd L fuel CMD0 0 w).bind fun r =>
      if r.1 = 1 then
        (__SD_Send_Cmd L fuel CMD8 0x1AA r.2).bind fun r =>
          if r.1 = 1 then
            (Init_v2 L cfg fuel ct r.2).bind fun c => some (c.1, dev, c.2)
          else
            (Init_v1 L cfg fuel r.2).bind fun c => some (c.1, dev, c.2)
      else some (ct, dev, r.2)

/-- The attempt loop of `SD_Init`:
`for (init_trys = 0; ((init_trys != SD_INIT_TRYS) && (!ct)); init_trys++)`, with the `BYTE`
counter `init_trys`. -/
def Init_loop (L : Link σ) (cfg : Cfg) (fuel : Nat) :
    Nat → Nat → Nat → SD_DEV → World σ → Option (Nat × SD_DEV × World σ)
  | 0, _, _, _, _ => none
  | n + 1, init_trys, ct, dev, w =>
    if init_trys ≠ cfg.SD_INIT_TRYS ∧ ct = 0 then
      (Init_attempt L cfg fuel ct dev w).bind fun a =>
        Init_loop L cfg fuel n ((init_trys + 1) % 256) a.1 a.2.1 a.2.2
    else some (ct, dev, w)

/-- Function `SD_Init(dev)`. -/
def SD_Init (L : Link σ) (cfg : Cfg) (fuel : Nat) (dev : SD_DEV) (w : World σ) :
    Option (SDRESULTS × SD_DEV × World σ) :=
  (Init_loop L cfg fuel fuel 0 0 dev w).bind fun a =>
    if a.1 ≠ 0 then
      let dev := { a.2.1 with cardtype := a.1 }
      let dev := { dev with mount := true }
      (__SD_Sectors L cfg fuel dev a.2.2).bind fun s =>
        let dev := { dev with last_sector := (s.1 + 2 ^ 32 - 1) % 2 ^ 32 }
        (__SD_Send_Cmd L fuel CMD58 0 s.2).bind fun r3 =>
          let w := if r3.1 = 0 then (SPI_RW_array L 4 r3.2).2 else r3.2
          let w := __SD_Speed_Transfer L true w
          let w := SPI_Release L w
          some (SD_OK, dev, w)
    else some (SD_NOINIT, a.2.1, SPI_Release L a.2.2)

/-- The token loop of `SD_Read`:
`do { tkn = SPI_RW(0xFF); } while ((tkn == 0xFF) && (SPI_Timer_Status() == TRUE));` -/
def Read_token (L : Link σ) : Nat → World σ → Option (Nat × World σ)
  | 0, _ => none
  | n + 1, w =>
    let r := SPI_RW L 0xFF w
    if r.1 = 0xFF then
      let t := SPI_Timer_Status L r.2
      if t.1 then Read_token L n t.2 else some (r.1, t.2)
    else some (r.1, r.2)

/-- The skip loops of `SD_Read`, `do { SPI_RW(0xFF); } while (--k);` on a `WORD` `k`. -/
def Read_skip (L : Link σ) : Nat → Nat → World σ → Option (World σ)
  | 0, _, _ => none
  | n + 1, k, w =>
    let w := (SPI_RW L 0xFF w).2
    let k := (k + 65535) % 65536
    if k ≠ 0 then Read_skip L n k w else some w

/-- The copy loop of `SD_Read`,
`do { *(BYTE*)dat = SPI_RW(0xFF); dat++; } while (--cnt);`
where `pos` is the distance `dat` has advanced. -/
def Read_copy (L : Link σ) : Nat → Nat → Mem → Nat → World σ → Option (Mem × World σ)
  | 0, _, _, _, _ => none
  | n + 1, cnt, dat, pos, w =>
    let r := SPI_RW L 0xFF w
    let dat := Function.update dat pos r.1
    let cnt := (cnt + 65535) % 65536
    if cnt ≠ 0 then Read_copy L n cnt dat (pos + 1) r.2 else some (dat, r.2)

/-- Function `SD_Read(dev, dat, sector, ofs, cnt)`: the result, the caller memory and the link. -/
def SD_Read (L : Link σ) (fuel : Nat) (dev : SD_DEV) (dat : Mem) (sector ofs cnt : Nat)
    (w : World σ) : Option (SDRESULTS × Mem × World σ) :=
  if sector > dev.last_sector ∨ cnt = 0 then some (SD_PARERR, dat, w)
  else
    (__SD_Send_Cmd L fuel CMD17 ((sector * SD_BLK_SIZE) % 2 ^ 32) w).bind fun c =>
      if c.1 = 0 then
        let w := SPI_Timer_On L 100 c.2
        (Read_token L fuel w).bind fun t =>
          let w := SPI_Timer_Off L t.2
          if t.1 = 0xFE then
            let remaining := (((SD_BLK_SIZE : Int) + 2 - ofs - cnt) % 65536).toNat
            (if ofs ≠ 0 then Read_skip L fuel ofs w else some w).bind fun w =>
              (Read_copy L fuel cnt dat 0 w).bind fun m =>
                (Read_skip L fuel remaining m.2).bind fun w =>
                  some (SD_OK, m.1, SPI_Release L w)
          else some (SD_ERROR, dat, SPI_Release L w)
      else some (SD_ERROR, dat, SPI_Release L c.2)

/-- Function `SD_Write(dev, dat, sector)`. -/
def SD_Write (L : Link σ) (cfg : Cfg) (fuel : Nat) (dev : SD_DEV) (dat : Mem) (sector : Nat)
    (w : World σ) : Option (SDRESULTS × World σ) :=
  if sector > dev.last_sector then some (SD_PARERR, w)
  else
    (__SD_Send_Cmd L fuel CMD24 ((sector * SD_BLK_SIZE) % 2 ^ 32) w).bind fun c =>
      if c.1 = 0 then __SD_Write_Block L cfg fuel dat 0xFE c.2
      else some (SD_ERROR, c.2)

/-- Function `SD_Status(dev)`. -/
def SD_Status (L : Link σ) (fuel : Nat) (w : World σ) : Option (SDRESULTS × World σ) :=
  (__SD_Send_Cmd L fuel CMD0 0 w).bind fun r =>
    some (if r.1 ≠ 0 then SD_OK else SD_NORESPONSE, r.2)

/-! ## Scripted link

A link whose received bytes and clock readings are two given streams: the `n`-th exchange
receives `miso n` whatever is sent, the `n`-th clock reading is `clock n`. Every run of the
driver against any deterministic hardware is a run against some script. -/

/-- The streams still to come. -/
structure Script where
  miso : Nat → Nat
  clock : Nat → Nat

/-- The stream that delivers the list `l` and then continues as `s`. -/
def pre : List Nat → (Nat → Nat) → Nat → Nat
  | [], s, n => s n
  | a :: _, _, 0 => a
  | _ :: l, s, n + 1 => pre l s n

/-- The scripted hardware. -/
def scriptLink : Link Script where
  spi_write_read_blocking s _ := (s.miso 0, { s with miso := fun n => s.miso (n + 1) })
  get_absolute_time s := (s.clock 0, { s with clock := fun n => s.clock (n + 1) })
  gpio_put s _ := s
  spi_set_baudrate s _ := s
  spi_init s := s

/-- A world on the scripted link. -/
def Script.world (miso clock : Nat → Nat) : World Script :=
  { hw := { miso := miso, clock := clock }, spi_timer_expire := 0, trace := [] }

/-- The upstream values of the configurable constants of `sd_io.h`. -/
def stdCfg : Cfg :=
  { SD_INIT_TRYS := 3, SD_IO_WRITE_TIMEOUT_WAIT := 250,
    SDCT_MMC := 0x01, SDCT_SD1 := 0x02, SDCT_SD2 := 0x04, SDCT_BLOCK := 0x08 }

/-- The adapter calls a response loop may make: an exchange that sends `0xFF`, or a timer query. -/
def Ev.isPoll : Ev → Prop
  | Ev.rw tx _ => tx = 0xFF
  | Ev.timerStatus _ => True
  | _ => False

/-- The caller memory after the bytes of `l` are stored at offsets `pos`, `pos + 1`, ... -/
def store : Mem → Nat → List Nat → Mem
  | dat, _, [] => dat
  | dat, pos, b :: l => store (Function.update dat pos b) (pos + 1) l

/-- The log of `n` rounds of a polling loop, newest first: each round exchanged `0xFF`,
received `b` and then found the timer still active. -/
def pollEvents (b : Nat) : Nat → List Ev
  | 0 => []
  | n + 1 => Ev.timerStatus true :: Ev.rw 0xFF b :: pollEvents b n

/-- The log of the exchanges that sent `0xFF` and received the bytes of `l` in turn, newest first. -/
def rxEvents (l : List Nat) : List Ev := (l.map (Ev.rw 0xFF)).reverse

/-- The scripted world `w` after the bytes `l` have been received by exchanges that sent
`0xFF`, with the stream `s` still to come. -/
def Script.eat (l : List Nat) (s : Nat → Nat) (w : World Script) : World Script :=
  { hw := { miso := s, clock := w.hw.clock }, spi_timer_expire := w.spi_timer_expire,
    trace := rxEvents l ++ w.trace }

/-- A 512-byte pattern: byte `i` is `i % 251`. -/
def demoBlock : List Nat := (List.range 512).map (fun i => i % 251)

/-- A scripted link for one block read: the nine bytes received during the command frame
(the last one being the response 0), two fill bytes, the token, `demoBlock`, two checksum
bytes, then `0xFF` for ever; the clock advances by ten microseconds per reading. -/
def demoReadWorld : World Script :=
  Script.world
    (pre ([0xFF, 0xFF, 0xFF, 0xFF, 0xFF, 0xFF, 0xFF, 0xFF, 0x00]
      ++ (List.replicate 2 0xFF ++ 0xFE :: (demoBlock ++ [0x12, 0x34]))) (fun _ => 0xFF))
    (pre [0, 10, 20, 30, 40] (fun n => 10 * (n + 5)))

/-- The log of the exchanges that sent the bytes of `txs` and received the bytes of `rxs`
in turn, newest first. -/
def txEvents (txs rxs : List Nat) : List Ev := (List.zipWith Ev.rw txs rxs).reverse

/-- The log of a command frame for sector 3 (`arg = 0x600`) that was answered 0 by the
first byte polled, newest first. -/
def demoFrameLog (cmd : Nat) : List Ev :=
  [Ev.timerOff, Ev.rw 0xFF 0, Ev.timerOn 5, Ev.rw 1 0xFF, Ev.rw 0 0xFF, Ev.rw 6 0xFF,
    Ev.rw 0 0xFF, Ev.rw 0 0xFF, Ev.rw cmd 0xFF, Ev.rw 0xFF 0xFF, Ev.cs false,
    Ev.rw 0xFF 0xFF, Ev.cs true]

/-- A scripted link for one block write that is refused: the nine bytes received during
the command frame (the last one being the response 0), 515 bytes `0xFF` during the token,
the payload and the checksum, then the data response `0x0B`. -/
def demoRejectWorld : World Script :=
  Script.world
    (pre ([0xFF, 0xFF, 0xFF, 0xFF, 0xFF, 0xFF, 0xFF, 0xFF, 0x00]
      ++ (0xFF :: List.replicate 512 0xFF ++ [0xFF, 0xFF, 0x0B])) (fun _ => 0xFF))
    (pre [0, 10] (fun n => 10 * (n + 2)))

/-- A scripted link at the start of `__SD_Write_Block`: 515 bytes `0xFF`, the data
response `0xE5` (accepted), two zero bytes and then the byte `b`, then zeros for ever. The
clock reads 0, 100 and 200 microseconds and then jumps to 300 milliseconds. -/
def demoBusyWorld (b : Nat) : World Script :=
  Script.world
    (pre ((0xFF :: List.replicate 512 0xFF ++ [0xFF, 0xFF, 0xE5]) ++ (List.replicate 2 0 ++ [b]))
      (fun _ => 0))
    (pre (0 :: [100, 200] ++ [300000]) (fun n => 300000 + n))

/-! ## Mock card

A link that reacts to what is sent: it parses command frames, answers them from a table,
records the payload of a block write under the address argument of CMD24 and replays it
when CMD17 is sent with the same argument. Driving chip select high aborts whatever the
card was doing. Its clock advances by `tick` microseconds per reading. -/

/-- State of the mock card: the clock, the bytes of the frame collected so far, the bytes
queued for the next exchanges, a block write in progress (its address and, once the token
has been seen, the bytes collected) and the recorded blocks. -/
structure Card where
  now : Nat
  frame : List Nat
  out : List Nat
  wr : Option (Nat × Option (List Nat))
  blocks : Nat → List Nat

/-- The 32-bit argument carried by a six-byte frame. -/
def Card.arg (f : List Nat) : Nat :=
  (f.getD 1 0 <<< 24) ||| (f.getD 2 0 <<< 16) ||| (f.getD 3 0 <<< 8) ||| f.getD 4 0

/-- The card after a complete frame `f`: CMD17 queues the response 0, the token and the
recorded block with two checksum bytes; CMD24 queues the response 0 and waits for a block;
every other command queues `reply cmd arg`. -/
def Card.accept (reply : Nat → Nat → List Nat) (s : Card) (f : List Nat) : Card :=
  if f.getD 0 0 = CMD17 then
    { s with frame := [], out := [0, 0xFE] ++ s.blocks (Card.arg f) ++ [0xFF, 0xFF] }
  else if f.getD 0 0 = CMD24 then
    { s with frame := [], out := [0], wr := some (Card.arg f, none) }
  else { s with frame := [], out := reply (f.getD 0 0) (Card.arg f) }

/-- One byte exchange with the card. -/
def Card.exchange (reply : Nat → Nat → List Nat) (s : Card) (tx : Nat) : Nat × Card :=
  match s.out with
  | b :: rest => (b, { s with out := rest })
  | [] =>
    match s.wr with
    | some (addr, none) =>
      (0xFF, if tx = 0xFE then { s with wr := some (addr, some []) } else s)
    | some (addr, some acc) =>
      if acc.length + 1 = SD_BLK_SIZE + 2 then
        (0xFF, { s with wr := none, out := [0xE5, 0xFF],
                        blocks := Function.update s.blocks addr ((acc ++ [tx]).take SD_BLK_SIZE) })
      else (0xFF, { s with wr := some (addr, some (acc ++ [tx])) })
    | none =>
      if s.frame = [] ∧ tx &&& 0xC0 ≠ 0x40 then (0xFF, s)
      else if s.frame.length + 1 = 6 then (0xFF, Card.accept reply s (s.frame ++ [tx]))
      else (0xFF, { s with frame := s.frame ++ [tx] })

/-- The mock card as hardware. -/
def cardLink (reply : Nat → Nat → List Nat) (tick : Nat) : Link Card where
  spi_write_read_blocking := Card.exchange reply
  get_absolute_time s := (s.now, { s with now := s.now + tick })
  gpio_put s level := if level then { s with frame := [], out := [], wr := none } else s
  spi_set_baudrate s _ := s
  spi_init s := s

/-- A world on the mock card, with every recorded block zero. -/
def Card.world : World Card :=
  { hw := { now := 0, frame := [], out := [], wr := none,
            blocks := fun _ => List.replicate 512 0 },
    spi_timer_expire := 0, trace := [] }

/-- The argument the mock card decodes from the frame `__SD_Send_Cmd` builds for `arg`. -/
def frameArg (arg : Nat) : Nat :=
  Card.arg [0, arg >>> 24 % 256, arg >>> 16 % 256, arg >>> 8 % 256, arg % 256, 0]

/-- What the missing header must satisfy for the driver to make sense: at least one
attempt, an attempt budget that the `BYTE` counter `init_trys` can reach, and card-type
flags that are non-zero bytes. -/
def Cfg.WellFormed (cfg : Cfg) : Prop :=
  1 ≤ cfg.SD_INIT_TRYS ∧ cfg.SD_INIT_TRYS < 256 ∧
  0 < cfg.SDCT_MMC ∧ cfg.SDCT_MMC < 256 ∧ 0 < cfg.SDCT_SD1 ∧ cfg.SDCT_SD1 < 256 ∧
  0 < cfg.SDCT_SD2 ∧ cfg.SDCT_SD2 < 256 ∧ 0 < cfg.SDCT_BLOCK ∧ cfg.SDCT_BLOCK < 256

instance (cfg : Cfg) : Decidable cfg.WellFormed := by
  unfold Cfg.WellFormed; infer_instance

/-- The answers of a block-addressed SD version 2 card: idle on CMD0, the echo
`0x01 0xAA` on CMD8, idle on CMD55, ready on ACMD41, an OCR with the capacity bit on CMD58,
a CSD after the token on CMD9, and `0x04` (illegal command) otherwise. -/
def v2Reply (cmd _arg : Nat) : List Nat :=
  if cmd = CMD0 then [0x01]
  else if cmd = CMD8 then [0x01, 0x00, 0x00, 0x01, 0xAA]
  else if cmd = CMD55 then [0x01]
  else if cmd = ACMD41 &&& 0x7F then [0x00]
  else if cmd = CMD58 then [0x00, 0xC0, 0xFF, 0x80, 0x00]
  else if cmd = CMD9 then
    [0x00, 0xFE, 0x40, 0x0E, 0x00, 0x32, 0x5B, 0x59, 0x00, 0x00, 0x3B, 0x37, 0x7F, 0x80,
      0x0A, 0x40, 0x00, 0x01, 0x12, 0x34]
  else [0x04]

/-- An adapter call that transmits no byte outside `allowed`. -/
def Ev.txIn (allowed : List Nat) : Ev → Prop
  | Ev.rw tx _ => tx ∈ allowed
  | _ => True

/-- From `w` to `w'` the log only grew, and every byte transmitted in between is in
`allowed`. -/
def Sent (allowed : List Nat) (w w' : World σ) : Prop :=
  ∃ new, w'.trace = new ++ w.trace ∧ ∀ e ∈ new, e.txIn allowed

/-- The bytes of the CMD0 frame and the dummy byte. -/
def resetBytes : List Nat := [0xFF, CMD0, 0x00, 0x95]

/-- The answers of a card that rejects every command with `0x04` (illegal command). -/
def deadReply (_cmd _arg : Nat) : List Nat := [0x04]

/-- The answers of a legacy SD version 1 card: idle on CMD0, illegal command on CMD8, idle
on CMD55, ready on ACMD41, ok on CMD59, `r16` on CMD16, an OCR on CMD58, a CSD after the
token on CMD9, and `0x04` (illegal command) otherwise. -/
def legacyReply (r16 : Nat) (cmd _arg : Nat) : List Nat :=
  if cmd = CMD0 then [0x01]
  else if cmd = CMD8 then [0x05]
  else if cmd = CMD55 then [0x01]
  else if cmd = ACMD41 &&& 0x7F then [0x00]
  else if cmd = CMD59 then [0x00]
  else if cmd = CMD16 then [r16]
  else if cmd = CMD58 then [0x00, 0x80, 0xFF, 0x80, 0x00]
  else if cmd = CMD9 then
    [0x00, 0xFE, 0x00, 0x26, 0x00, 0x32, 0x5F, 0x59, 0x83, 0xC8, 0xAD, 0xDB, 0xCF, 0xFF,
      0xD2, 0x40, 0x40, 0xA5, 0x12, 0x34]
  else [0x04]

/-- The log of one command frame, newest first: chip select driven high, an exchange of
`0xFF`, chip select driven low, an exchange of `0xFF`, the command byte, the four bytes of
`arg` from the top one down, the checksum byte `crc`, and the arming of the 5 ms timer. The
list `rx` holds the eight bytes received meanwhile, oldest first. -/
def frameLog (cmd arg crc : Nat) (rx : List Nat) : List Ev :=
  [Ev.timerOn 5, Ev.rw crc (rx.getD 7 0), Ev.rw (arg % 256) (rx.getD 6 0),
    Ev.rw (arg >>> 8 % 256) (rx.getD 5 0), Ev.rw (arg >>> 16 % 256) (rx.getD 4 0),
    Ev.rw (arg >>> 24 % 256) (rx.getD 3 0), Ev.rw cmd (rx.getD 2 0), Ev.rw 0xFF (rx.getD 1 0),
    Ev.cs false, Ev.rw 0xFF (rx.getD 0 0), Ev.cs true]

/-- The world after `k` rounds of a polling loop, each an exchange of `0xFF` followed by a
timer query. -/
def pollRounds (L : Link σ) : Nat → World σ → World σ
  | 0, w => w
  | k + 1, w => pollRounds L k (SPI_Timer_Status L (SPI_RW L 0xFF w).2).2

/-- The byte read in round `k` of a polling loop that starts in `w`. -/
def pollByte (L : Link σ) (k : Nat) (w : World σ) : Nat :=
  (SPI_RW L 0xFF (pollRounds L k w)).1

/-- The answer of the timer query made after the byte of round `k` was read. -/
def pollActive (L : Link σ) (k : Nat) (w : World σ) : Bool :=
  (SPI_Timer_Status L (SPI_RW L 0xFF (pollRounds L k w)).2).1

/-- A scripted link for one command whose response comes late: eight bytes `0xFF` during
the frame, then the bytes `0xFF` and `0x80` and the response `0x05`; the clock advances by
one millisecond per reading. -/
def demoLateWorld : World Script :=
  Script.world
    (pre [0xFF, 0xFF, 0xFF, 0xFF, 0xFF, 0xFF, 0xFF, 0xFF, 0xFF, 0x80, 0x05] (fun _ => 0xFF))
    (fun n => 1000 * n)

/-- A scripted link on which nothing answers: every byte read is `0xFF`, and the clock
advances by one millisecond per reading. -/
def demoSilentWorld : World Script :=
  Script.world (fun _ => 0xFF) (fun n => 1000 * n)

/-- A scripted link on which CMD0 is answered `0x00` by the first byte polled; the clock
advances by one millisecond per reading. -/
def demoZeroWorld : World Script :=
  Script.world
    (pre [0xFF, 0xFF, 0xFF, 0xFF, 0xFF, 0xFF, 0xFF, 0xFF, 0x00] (fun _ => 0xFF))
    (fun n => 1000 * n)

/-- The answers of the card `v2Reply`, except that CMD9 is answered 0 and nothing follows:
the data token of the CSD never comes and the line stays at `0xFF`. -/
def stuckReply (cmd arg : Nat) : List Nat :=
  if cmd = CMD9 then [0x00] else v2Reply cmd arg

/-- The answers of `base`, except that CMD9 is answered 0 followed by the data token, the
16 bytes `csd` and two checksum bytes. -/
def withCSD (csd : List Nat) (base : Nat → Nat → List Nat) (cmd arg : Nat) : List Nat :=
  if cmd = CMD9 then [0x00, 0xFE] ++ csd ++ [0x12, 0x34] else base cmd arg

/-- The CSD (version 2 layout) of a card sold as 64 GB: `C_SIZE` is `0x01DBD7`. -/
def sdxcCSD : List Nat :=
  [0x40, 0x0E, 0x00, 0x32, 0x5B, 0x59, 0x00, 0x01, 0xDB, 0xD7, 0x7F, 0x80, 0x0A, 0x40, 0x00,
    0x01]

/-- The sector count the specification gives for a block-addressed SD version 2 card:
`(C_SIZE + 1) * 1024` with the 22-bit field `C_SIZE` of bits 69 to 48 of the CSD. -/
def Sectors_v2_spec (csd : List Nat) : Nat :=
  ((((csd.getD 7 0 &&& 0x3F) <<< 16) ||| (csd.getD 8 0 <<< 8) ||| csd.getD 9 0) + 1) * 1024

/-- The CSD (version 1 layout) the card `legacyReply` sends: `READ_BL_LEN = 9`,
`C_SIZE = 3874`, `C_SIZE_MULT = 7`. -/
def legacyCSD : List Nat :=
  [0x00, 0x26, 0x00, 0x32, 0x5F, 0x59, 0x83, 0xC8, 0xAD, 0xDB, 0xCF, 0xFF, 0xD2, 0x40, 0x40,
    0xA5]

/-- The sector count the specification gives for an SD version 1 card:
`(C_SIZE + 1) * 2^(C_SIZE_MULT + 2) * 2^READ_BL_LEN / 512` with the three CSD fields. -/
def Sectors_v1_spec (csd : List Nat) : Nat :=
  let READ_BL_LEN := csd.getD 5 0 &&& 0x0F
  let C_SIZE := ((csd.getD 6 0 &&& 0x03) <<< 10) ||| (csd.getD 7 0 <<< 2) ||| (csd.getD 8 0 >>> 6)
  let C_SIZE_MULT := ((csd.getD 9 0 &&& 0x03) <<< 1) ||| (csd.getD 10 0 >>> 7)
  (C_SIZE + 1) * 2 ^ (C_SIZE_MULT + 2) * 2 ^ READ_BL_LEN / 512

/-- The number of byte exchanges in a log. -/
def rwCount : List Ev → Nat
  | [] => 0
  | Ev.rw _ _ :: t => rwCount t + 1
  | _ :: t => rwCount t

/-- A scripted link on which the command is refused: the response is `0x04` (illegal
command); the clock advances by 50 milliseconds per reading. -/
def demoRefusedWorld : World Script :=
  Script.world
    (pre [0xFF, 0xFF, 0xFF, 0xFF, 0xFF, 0xFF, 0xFF, 0xFF, 0x04] (fun _ => 0xFF))
    (fun n => 50000 * n)

/-- A scripted link on which the command is accepted and the data token never comes: after
the response 0 every byte is `0xFF`; the clock advances by 50 milliseconds per reading. -/
def demoNoTokenWorld : World Script :=
  Script.world
    (pre [0xFF, 0xFF, 0xFF, 0xFF, 0xFF, 0xFF, 0xFF, 0xFF, 0x00] (fun _ => 0xFF))
    (fun n => 50000 * n)

/-- A scripted link on which the command is accepted and, after one fill byte, the data
error token `0x0B` comes instead of the start token. -/
def demoErrorTokenWorld : World Script :=
  Script.world
    (pre [0xFF, 0xFF, 0xFF, 0xFF, 0xFF, 0xFF, 0xFF, 0xFF, 0x00, 0xFF, 0x0B] (fun _ => 0xFF))
    (fun n => 1000 * n)

/-- The answers of the card `v2Reply`, except that CMD9 is refused with `0x04` (illegal
command). -/
def noCSDReply (cmd arg : Nat) : List Nat :=
  if cmd = CMD9 then [0x04] else v2Reply cmd arg

/-- The answers of the card `v2Reply`, except that the application command 41 is always
answered `0x01`: the card never leaves the idle state. -/
def idleReply (cmd arg : Nat) : List Nat :=
  if cmd = ACMD41 &&& 0x7F then [0x01] else v2Reply cmd arg

/-! # Properties -/

/-! ## Parameter validation -/

/-- C1: a sector beyond `dev.last_sector` makes `SD_Read` and `SD_Write` return `SD_PARERR`,
and a zero count makes `SD_Read` return `SD_PARERR`; the world that comes back is the world
that went in (hardware state, timer and the log of adapter calls are untouched, so no byte
was exchanged, chip select was not driven and no timer was armed) and the caller memory is
the one passed in. -/
theorem SD_parameter_check (L : Link σ) (cfg : Cfg) (fuel : Nat) (dev : SD_DEV) (dat : Mem)
    (sector ofs cnt : Nat) (w : World σ) :
    (sector > dev.last_sector →
        SD_Read L fuel dev dat sector ofs cnt w = some (SD_PARERR, dat, w) ∧
        SD_Write L cfg fuel dev dat sector w = some (SD_PARERR, w)) ∧
    (cnt = 0 → SD_Read L fuel dev dat sector ofs cnt w = some (SD_PARERR, dat, w)) := by
  refine ⟨fun h => ⟨?_, ?_⟩, fun h => ?_⟩
  · simp [SD_Read, h]
  · simp [SD_Write, h]
  · simp [SD_Read, h]

/-- C1 at sector 8 of a card whose last sector is 7, and at a zero count. -/
theorem SD_parameter_check_witness :
    (SD_Read scriptLink 0 ⟨true, 4, 7⟩ (fun _ => 0) 8 0 1 (Script.world (fun _ => 0) (fun _ => 0))
        = some (SD_PARERR, (fun _ => 0), Script.world (fun _ => 0) (fun _ => 0)) ∧
      SD_Write scriptLink stdCfg 0 ⟨true, 4, 7⟩ (fun _ => 0) 8
          (Script.world (fun _ => 0) (fun _ => 0))
        = some (SD_PARERR, Script.world (fun _ => 0) (fun _ => 0))) ∧
    SD_Read scriptLink 0 ⟨true, 4, 7⟩ (fun _ => 0) 3 0 0 (Script.world (fun _ => 0) (fun _ => 0))
        = some (SD_PARERR, (fun _ => 0), Script.world (fun _ => 0) (fun _ => 0)) :=
  ⟨(SD_parameter_check scriptLink stdCfg 0 ⟨true, 4, 7⟩ (fun _ => 0) 8 0 1
      (Script.world (fun _ => 0) (fun _ => 0))).1 (by decide),
   (SD_parameter_check scriptLink stdCfg 0 ⟨true, 4, 7⟩ (fun _ => 0) 3 0 0
      (Script.world (fun _ => 0) (fun _ => 0))).2 rfl⟩

/-! ## Command frame -/

theorem SPI_RW_trace (L : Link σ) (d : Nat) (w : World σ) :
    (SPI_RW L d w).2.trace = Ev.rw (d % 256) (SPI_RW L d w).1 :: w.trace := rfl

theorem SPI_Timer_Status_trace (L : Link σ) (w : World σ) :
    (SPI_Timer_Status L w).2.trace = Ev.timerStatus (SPI_Timer_Status L w).1 :: w.trace := rfl

theorem Send_Cmd_wait_trace (L : Link σ) :
    ∀ (n : Nat) (w : World σ) (r : Nat) (w' : World σ), Send_Cmd_wait L n w = some (r, w') →
      ∃ poll, w'.trace = poll ++ w.trace ∧ ∀ e ∈ poll, e.isPoll := by
  intro n
  induction n with
  | zero => intro w r w' h; simp [Send_Cmd_wait] at h
  | succ n ih =>
    intro w r w' h
    simp only [Send_Cmd_wait] at h
    split at h
    · split at h
      · obtain ⟨poll, hp, hall⟩ := ih _ _ _ h
        refine ⟨poll ++ [Ev.timerStatus (SPI_Timer_Status L (SPI_RW L 0xFF w).2).1,
          Ev.rw 0xFF (SPI_RW L 0xFF w).1], ?_, ?_⟩
        · rw [hp, SPI_Timer_Status_trace, SPI_RW_trace]; simp
        · intro e he
          simp only [List.mem_append, List.mem_cons, List.mem_singleton] at he
          rcases he with he | he | he | he
          · exact hall e he
          · subst he; trivial
          · subst he; rfl
          · simp at he
      · simp only [Option.some.injEq, Prod.mk.injEq] at h
        obtain ⟨-, rfl⟩ := h
        refine ⟨[Ev.timerStatus (SPI_Timer_Status L (SPI_RW L 0xFF w).2).1,
          Ev.rw 0xFF (SPI_RW L 0xFF w).1], ?_, ?_⟩
        · rw [SPI_Timer_Status_trace, SPI_RW_trace]; simp
        · intro e he
          simp only [List.mem_cons, List.mem_singleton] at he
          rcases he with he | he | he
          · subst he; trivial
          · subst he; rfl
          · simp at he
    · simp only [Option.some.injEq, Prod.mk.injEq] at h
      obtain ⟨-, rfl⟩ := h
      refine ⟨[Ev.rw 0xFF (SPI_RW L 0xFF w).1], ?_, ?_⟩
      · rw [SPI_RW_trace]; simp
      · intro e he
        simp only [List.mem_singleton] at he
        subst he; rfl

/-- C10: for a command byte without the escape bit, `__SD_Send_Cmd` drives chip select
high, exchanges `0xFF`, drives chip select low, exchanges `0xFF`, transmits the six bytes
`cmd`, `arg >> 24`, `arg >> 16`, `arg >> 8`, `arg` (each masked to a byte) and the checksum
byte, arms the 5 ms timer, and then runs the response loop; whenever that loop returns,
everything it added to the log is an exchange that sent `0xFF` or a timer query, and the
call ends with the timer being switched off. -/
theorem Send_Cmd_frame_layout (L : Link σ) (fuel cmd arg : Nat) (w : World σ)
    (hcmd : cmd < 256) (hesc : cmd &&& 0x80 = 0) :
    ∃ (wf : World σ) (r0 r1 r2 r3 r4 r5 r6 r7 : Nat),
      wf.trace =
        [Ev.timerOn 5, Ev.rw (Send_Cmd_crc cmd) r7,
          Ev.rw (arg &&& 0xFF) r6, Ev.rw ((arg >>> 8) &&& 0xFF) r5,
          Ev.rw ((arg >>> 16) &&& 0xFF) r4, Ev.rw ((arg >>> 24) &&& 0xFF) r3,
          Ev.rw cmd r2, Ev.rw 0xFF r1, Ev.cs false, Ev.rw 0xFF r0, Ev.cs true] ++ w.trace ∧
      __SD_Send_Cmd L (fuel + 1) cmd arg w
        = (Send_Cmd_wait L fuel wf).bind (fun r => some (r.1, SPI_Timer_Off L r.2)) ∧
      ∀ (r : Nat) (w' : World σ), __SD_Send_Cmd L (fuel + 1) cmd arg w = some (r, w') →
        ∃ poll, w'.trace = Ev.timerOff :: (poll ++ wf.trace) ∧ ∀ e ∈ poll, e.isPoll := by
  have hcrc : Send_Cmd_crc cmd % 256 = Send_Cmd_crc cmd := by
    unfold Send_Cmd_crc; simp only []; split_ifs <;> rfl
  have h24 : arg >>> 24 % 256 = (arg >>> 24) &&& 0xFF :=
    (Nat.and_pow_two_sub_one_eq_mod _ 8).symm
  have h16 : arg >>> 16 % 256 = (arg >>> 16) &&& 0xFF :=
    (Nat.and_pow_two_sub_one_eq_mod _ 8).symm
  have h8 : arg >>> 8 % 256 = (arg >>> 8) &&& 0xFF :=
    (Nat.and_pow_two_sub_one_eq_mod _ 8).symm
  have h0 : arg % 256 = arg &&& 0xFF := (Nat.and_pow_two_sub_one_eq_mod _ 8).symm
  have hc : cmd % 256 = cmd := Nat.mod_eq_of_lt hcmd
  have key : __SD_Send_Cmd L (fuel + 1) cmd arg w = Send_Cmd_frame L fuel cmd arg w := by
    simp [__SD_Send_Cmd, hesc]
  let x0 := SPI_RW L 0xFF (__SD_Deassert L w)
  let x1 := SPI_RW L 0xFF (__SD_Assert L x0.2)
  let x2 := SPI_RW L cmd x1.2
  let x3 := SPI_RW L (arg >>> 24) x2.2
  let x4 := SPI_RW L (arg >>> 16) x3.2
  let x5 := SPI_RW L (arg >>> 8) x4.2
  let x6 := SPI_RW L (arg >>> 0) x5.2
  let x7 := SPI_RW L (Send_Cmd_crc cmd) x6.2
  have hwf : (SPI_Timer_On L 5 x7.2).trace =
      [Ev.timerOn 5, Ev.rw (Send_Cmd_crc cmd) x7.1,
          Ev.rw (arg &&& 0xFF) x6.1, Ev.rw ((arg >>> 8) &&& 0xFF) x5.1,
          Ev.rw ((arg >>> 16) &&& 0xFF) x4.1, Ev.rw ((arg >>> 24) &&& 0xFF) x3.1,
          Ev.rw cmd x2.1, Ev.rw 0xFF x1.1, Ev.cs false, Ev.rw 0xFF x0.1, Ev.cs true]
        ++ w.trace := by
    simp [x7, x6, x5, x4, x3, x2, x1, x0, SPI_Timer_On, SPI_RW, __SD_Assert, __SD_Deassert,
      SPI_CS_Low, SPI_CS_High, hcrc, h24, h16, h8, h0, hc]
  refine ⟨SPI_Timer_On L 5 x7.2, x0.1, x1.1, x2.1, x3.1, x4.1, x5.1, x6.1, x7.1, hwf, ?_, ?_⟩
  · rw [key]; rfl
  · intro r w' h
    rw [key] at h
    have h' : (Send_Cmd_wait L fuel (SPI_Timer_On L 5 x7.2)).bind
        (fun r => some (r.1, SPI_Timer_Off L r.2)) = some (r, w') := h
    simp only [Option.bind_eq_some] at h'
    obtain ⟨a, ha, hr⟩ := h'
    simp only [Option.some.injEq, Prod.mk.injEq] at hr
    obtain ⟨-, rfl⟩ := hr
    obtain ⟨poll, hp, hall⟩ := Send_Cmd_wait_trace L fuel _ a.1 a.2 ha
    exact ⟨poll, by simp [SPI_Timer_Off, hp], hall⟩


/-- C10 at CMD17 with argument `0x12345678` on a scripted link that answers 0 at once. -/
theorem Send_Cmd_frame_layout_witness :
    (CMD17 < 256 ∧ CMD17 &&& 0x80 = 0) ∧
    (∃ w', __SD_Send_Cmd scriptLink 3 CMD17 0x12345678
        (Script.world (fun _ => 0) (fun _ => 0)) = some (0, w')) ∧
    ∃ (wf : World Script) (r0 r1 r2 r3 r4 r5 r6 r7 : Nat),
      wf.trace =
        [Ev.timerOn 5, Ev.rw (Send_Cmd_crc CMD17) r7,
          Ev.rw (0x12345678 &&& 0xFF) r6, Ev.rw ((0x12345678 >>> 8) &&& 0xFF) r5,
          Ev.rw ((0x12345678 >>> 16) &&& 0xFF) r4, Ev.rw ((0x12345678 >>> 24) &&& 0xFF) r3,
          Ev.rw CMD17 r2, Ev.rw 0xFF r1, Ev.cs false, Ev.rw 0xFF r0, Ev.cs true] ++
          (Script.world (fun _ => 0) (fun _ => 0)).trace ∧
      __SD_Send_Cmd scriptLink (2 + 1) CMD17 0x12345678 (Script.world (fun _ => 0) (fun _ => 0))
        = (Send_Cmd_wait scriptLink 2 wf).bind (fun r => some (r.1, SPI_Timer_Off scriptLink r.2)) ∧
      ∀ (r : Nat) (w' : World Script),
        __SD_Send_Cmd scriptLink (2 + 1) CMD17 0x12345678
          (Script.world (fun _ => 0) (fun _ => 0)) = some (r, w') →
        ∃ poll, w'.trace = Ev.timerOff :: (poll ++ wf.trace) ∧ ∀ e ∈ poll, e.isPoll :=
  ⟨⟨by decide, by decide⟩, ⟨_, rfl⟩,
    Send_Cmd_frame_layout scriptLink 2 CMD17 0x12345678
      (Script.world (fun _ => 0) (fun _ => 0)) (by decide) (by decide)⟩

/-! ## Loops with a counter -/

theorem store_apply (l : List Nat) : ∀ (dat : Mem) (pos i : Nat),
    store dat pos l i = if pos ≤ i ∧ i < pos + l.length then l.getD (i - pos) 0 else dat i := by
  induction l with
  | nil =>
    intro dat pos i
    simp only [store, List.length_nil]
    rw [if_neg (by omega)]
  | cons b l ih =>
    intro dat pos i
    rw [store, ih]
    by_cases h1 : pos + 1 ≤ i
    · have h2 : i ≠ pos := by omega
      have h3 : i - pos = (i - (pos + 1)) + 1 := by omega
      simp only [List.length_cons, Function.update_noteq h2, h3, List.getD_cons_succ]
      by_cases h4 : i < pos + 1 + l.length
      · rw [if_pos ⟨h1, h4⟩, if_pos ⟨by omega, by omega⟩]
      · rw [if_neg (by omega), if_neg (by omega)]
    · rw [if_neg (by omega)]
      by_cases h2 : i = pos
      · subst h2; simp
      · rw [Function.update_noteq h2, if_neg (by omega)]

theorem SPI_RW_dummy_eq (L : Link σ) : ∀ (n : Nat) (w : World σ),
    SPI_RW_dummy L n w = (SPI_RW_array L n w).2 := by
  intro n
  induction n with
  | zero => intro w; rfl
  | succ n ih => intro w; simp [SPI_RW_dummy, SPI_RW_array, ih]

theorem Read_skip_eq (L : Link σ) : ∀ (fuel k : Nat) (w : World σ),
    1 ≤ k → k < 65536 → k ≤ fuel → Read_skip L fuel k w = some (SPI_RW_dummy L k w) := by
  intro fuel
  induction fuel with
  | zero => intro k w h1 _ h3; omega
  | succ n ih =>
    intro k w h1 h2 h3
    obtain ⟨j, rfl⟩ : ∃ j, k = j + 1 := ⟨k - 1, by omega⟩
    have hk : (j + 1 + 65535) % 65536 = j := by omega
    simp only [Read_skip, hk, SPI_RW_dummy]
    by_cases hj : j = 0
    · subst hj; simp [SPI_RW_dummy]
    · rw [if_pos hj]; exact ih j _ (by omega) (by omega) (by omega)

theorem Read_copy_eq (L : Link σ) : ∀ (fuel cnt : Nat) (dat : Mem) (pos : Nat) (w : World σ),
    1 ≤ cnt → cnt < 65536 → cnt ≤ fuel →
    Read_copy L fuel cnt dat pos w
      = some (store dat pos (SPI_RW_array L cnt w).1, (SPI_RW_array L cnt w).2) := by
  intro fuel
  induction fuel with
  | zero => intro k dat pos w h1 _ h3; omega
  | succ n ih =>
    intro k dat pos w h1 h2 h3
    obtain ⟨j, rfl⟩ : ∃ j, k = j + 1 := ⟨k - 1, by omega⟩
    have hk : (j + 1 + 65535) % 65536 = j := by omega
    simp only [Read_copy, hk, SPI_RW_array, store]
    by_cases hj : j = 0
    · subst hj; simp [SPI_RW_array, store]
    · rw [if_pos hj]; exact ih j _ _ _ (by omega) (by omega) (by omega)

/-! ## The scripted link -/

theorem pre_append (l1 l2 : List Nat) (s : Nat → Nat) :
    pre (l1 ++ l2) s = pre l1 (pre l2 s) := by
  induction l1 with
  | nil => rfl
  | cons a l ih =>
    funext n
    cases n with
    | zero => rfl
    | succ n => exact congrFun ih n

theorem pollEvents_succ (b n : Nat) :
    pollEvents b (n + 1) = pollEvents b n ++ [Ev.timerStatus true, Ev.rw 0xFF b] := by
  induction n with
  | zero => rfl
  | succ n ih => conv_lhs => rw [pollEvents, ih]
                 rfl

theorem script_array (l : List Nat) : ∀ (s : Nat → Nat) (w : World Script),
    w.hw.miso = pre l s → (∀ b ∈ l, b < 256) →
    SPI_RW_array scriptLink l.length w = (l, Script.eat l s w) := by
  induction l with
  | nil =>
    intro s w h _
    obtain ⟨⟨m, c⟩, e, t⟩ := w
    simp only [pre] at h
    simp [SPI_RW_array, Script.eat, rxEvents, ← h]
  | cons a l ih =>
    intro s w h hb
    obtain ⟨⟨m, c⟩, e, t⟩ := w
    simp only at h
    subst h
    have ha : a % 256 = a := Nat.mod_eq_of_lt (hb a (List.mem_cons_self _ _))
    have := ih s (SPI_RW scriptLink 0xFF ⟨⟨pre (a :: l) s, c⟩, e, t⟩).2 rfl
      (fun b hbl => hb b (List.mem_cons_of_mem _ hbl))
    simp only [List.length_cons, SPI_RW_array, this]
    simp [SPI_RW, scriptLink, pre, ha, Script.eat, rxEvents]

theorem script_array_stream : ∀ (n : Nat) (w : World Script),
    SPI_RW_array scriptLink n w
      = ((List.range n).map (fun i => w.hw.miso i % 256),
         Script.eat ((List.range n).map (fun i => w.hw.miso i % 256))
           (fun k => w.hw.miso (k + n)) w) := by
  intro n
  induction n with
  | zero => intro w; obtain ⟨⟨m, c⟩, e, t⟩ := w; simp [SPI_RW_array, Script.eat, rxEvents]
  | succ n ih =>
    intro w
    obtain ⟨⟨m, c⟩, e, t⟩ := w
    simp only [SPI_RW_array, ih, List.range_succ_eq_map, List.map_cons, List.map_map]
    simp [SPI_RW, scriptLink, Script.eat, rxEvents, Function.comp_def, Nat.add_assoc,
      Nat.add_comm 1]

theorem script_SPI_RW (d : Nat) (m c : Nat → Nat) (e : Nat) (t : List Ev) :
    SPI_RW scriptLink d ⟨⟨m, c⟩, e, t⟩
      = (m 0 % 256, ⟨⟨fun n => m (n + 1), c⟩, e, Ev.rw (d % 256) (m 0 % 256) :: t⟩) := rfl

theorem script_SPI_RW_pre (d a : Nat) (l : List Nat) (s c : Nat → Nat) (e : Nat)
    (t : List Ev) :
    SPI_RW scriptLink d ⟨⟨pre (a :: l) s, c⟩, e, t⟩
      = (a % 256, ⟨⟨pre l s, c⟩, e, Ev.rw (d % 256) (a % 256) :: t⟩) := rfl

theorem script_Timer_Status_pre (a : Nat) (l : List Nat) (m c : Nat → Nat) (e : Nat)
    (t : List Ev) :
    SPI_Timer_Status scriptLink ⟨⟨m, pre (a :: l) c⟩, e, t⟩
      = (decide (a ≤ e), ⟨⟨m, pre l c⟩, e, Ev.timerStatus (decide (a ≤ e)) :: t⟩) := rfl

theorem script_Timer_On_pre (ms a : Nat) (l : List Nat) (m c : Nat → Nat) (e : Nat)
    (t : List Ev) :
    SPI_Timer_On scriptLink ms ⟨⟨m, pre (a :: l) c⟩, e, t⟩
      = ⟨⟨m, pre l c⟩, a + (ms % 65536) * 1000, Ev.timerOn (ms % 65536) :: t⟩ := rfl

theorem script_Timer_Off (m c : Nat → Nat) (e : Nat) (t : List Ev) :
    SPI_Timer_Off scriptLink ⟨⟨m, c⟩, e, t⟩
      = ⟨⟨m, fun n => c (n + 1)⟩, c 0, Ev.timerOff :: t⟩ := rfl

theorem script_Read_token (N : Nat) : ∀ (fuel : Nat) (w : World Script) (tk : Nat)
    (s : Nat → Nat) (ts : List Nat) (c : Nat → Nat),
    w.hw.miso = pre (List.replicate N 0xFF ++ [tk]) s → tk ≠ 0xFF → tk < 256 →
    w.hw.clock = pre ts c → ts.length = N → (∀ t ∈ ts, t ≤ w.spi_timer_expire) →
    N + 1 ≤ fuel →
    Read_token scriptLink fuel w
      = some (tk, { hw := { miso := s, clock := c }, spi_timer_expire := w.spi_timer_expire,
                    trace := Ev.rw 0xFF tk :: (pollEvents 0xFF N ++ w.trace) }) := by
  induction N with
  | zero =>
    intro fuel w tk s ts c hm htk hlt hc hts _ hf
    obtain ⟨⟨m, k⟩, e, t⟩ := w
    obtain ⟨f, rfl⟩ : ∃ f, fuel = f + 1 := ⟨fuel - 1, by omega⟩
    simp only at hm hc
    subst hm hc
    have hnil : ts = [] := List.length_eq_zero.mp hts
    subst hnil
    have h1 : tk % 256 = tk := Nat.mod_eq_of_lt hlt
    simp [Read_token, List.replicate, script_SPI_RW_pre, pre, h1, htk, pollEvents]
  | succ N ih =>
    intro fuel w tk s ts c hm htk hlt hc hts hact hf
    obtain ⟨⟨m, k⟩, e, t⟩ := w
    obtain ⟨f, rfl⟩ : ∃ f, fuel = f + 1 := ⟨fuel - 1, by omega⟩
    simp only at hm hc hact
    subst hm hc
    obtain ⟨t0, ts', rfl⟩ : ∃ t0 ts', ts = t0 :: ts' := by
      cases ts with
      | nil => simp at hts
      | cons a l => exact ⟨a, l, rfl⟩
    have ht0 : t0 ≤ e := hact t0 (List.mem_cons_self _ _)
    have hrec := ih f
      ⟨⟨pre (List.replicate N 0xFF ++ [tk]) s, pre ts' c⟩, e,
        Ev.timerStatus true :: Ev.rw 0xFF 0xFF :: t⟩ tk s ts' c rfl htk hlt rfl
      (by simpa using hts) (fun x hx => hact x (List.mem_cons_of_mem _ hx)) (by omega)
    simp only [Read_token, List.replicate_succ, List.cons_append, script_SPI_RW_pre,
      script_Timer_Status_pre, ht0, decide_True, if_true, Nat.reduceMod]
    rw [hrec, pollEvents_succ]
    simp

/-! ## Single block read -/

theorem script_eat_skip (fuel : Nat) (l : List Nat) (s : Nat → Nat) (w : World Script)
    (hm : w.hw.miso = pre l s) (hb : ∀ b ∈ l, b < 256) (h1 : 1 ≤ l.length)
    (h2 : l.length < 65536) (hf : l.length ≤ fuel) :
    Read_skip scriptLink fuel l.length w = some (Script.eat l s w) := by
  rw [Read_skip_eq scriptLink fuel l.length w h1 h2 hf, SPI_RW_dummy_eq, script_array l s w hm hb]

theorem script_eat_copy (fuel : Nat) (l : List Nat) (s : Nat → Nat) (dat : Mem) (pos : Nat)
    (w : World Script) (hm : w.hw.miso = pre l s) (hb : ∀ b ∈ l, b < 256)
    (h1 : 1 ≤ l.length) (h2 : l.length < 65536) (hf : l.length ≤ fuel) :
    Read_copy scriptLink fuel l.length dat pos w = some (store dat pos l, Script.eat l s w) := by
  rw [Read_copy_eq scriptLink fuel l.length dat pos w h1 h2 hf, script_array l s w hm hb]

/-- C2: on a link that answers CMD17 with 0 and then delivers `N` fill bytes `0xFF` while
the 100 ms timer is active, the token `0xFE`, the 512 payload bytes `P` and two checksum
bytes, `SD_Read` of `cnt ≥ 1` bytes at offset `ofs` with `ofs + cnt ≤ 512` returns `SD_OK`;
the caller memory holds `P[ofs + i]` at every offset `i < cnt` and is unchanged elsewhere;
and all 514 bytes of the block were exchanged (the log holds them in order) before the ten
bytes of the release, after which the link stands right behind the block and the release. -/
theorem SD_Read_partial (fuel : Nat) (dev : SD_DEV) (dat : Mem) (sector ofs cnt : Nat)
    (w w1 : World Script) (N : Nat) (P : List Nat) (c1 c2 : Nat) (rest : Nat → Nat)
    (t0 : Nat) (ts : List Nat) (clk : Nat → Nat)
    (hsec : sector ≤ dev.last_sector) (hcnt : 1 ≤ cnt) (hoc : ofs + cnt ≤ 512)
    (hcmd : __SD_Send_Cmd scriptLink fuel CMD17 ((sector * SD_BLK_SIZE) % 2 ^ 32) w
      = some (0, w1))
    (hmiso : w1.hw.miso = pre (List.replicate N 0xFF ++ 0xFE :: (P ++ [c1, c2])) rest)
    (hP : P.length = 512) (hbytes : ∀ b ∈ P ++ [c1, c2], b < 256)
    (hclock : w1.hw.clock = pre (t0 :: ts) clk) (hts : ts.length = N)
    (hact : ∀ t ∈ ts, t ≤ t0 + 100 * 1000)
    (hfuel : N + 1 ≤ fuel) (hfuel' : 514 ≤ fuel) :
    ∃ (m : Mem) (w2 : World Script),
      SD_Read scriptLink fuel dev dat sector ofs cnt w = some (SD_OK, m, w2) ∧
      (∀ i, i < cnt → m i = P.getD (ofs + i) 0) ∧ (∀ i, cnt ≤ i → m i = dat i) ∧
      w2.hw.miso = (fun n => rest (n + 10)) ∧
      w2.trace = rxEvents ((List.range 10).map (fun i => rest i % 256))
        ++ (rxEvents (P ++ [c1, c2])
        ++ (Ev.timerOff :: Ev.rw 0xFF 0xFE :: (pollEvents 0xFF N
        ++ Ev.timerOn 100 :: w1.trace))) := by
  obtain ⟨⟨m1, k1⟩, e1, t1⟩ := w1
  simp only at hmiso hclock
  subst hmiso hclock
  -- the three parts of the block
  have hsplit : P ++ [c1, c2]
      = P.take ofs ++ ((P.drop ofs).take cnt ++ (P.drop (ofs + cnt) ++ [c1, c2])) := by
    have h2 : (P.drop ofs).drop cnt = P.drop (ofs + cnt) := by
      simp [List.drop_drop, Nat.add_comm]
    have h1 : P = P.take ofs ++ ((P.drop ofs).take cnt ++ (P.drop ofs).drop cnt) := by
      rw [List.take_append_drop, List.take_append_drop]
    conv_lhs => rw [h1]
    rw [h2]; simp only [List.append_assoc]
  have hA : (P.take ofs).length = ofs := by simp [hP]; omega
  have hB : ((P.drop ofs).take cnt).length = cnt := by simp [hP]; omega
  have hC : (P.drop (ofs + cnt) ++ [c1, c2]).length = 514 - ofs - cnt := by simp [hP]; omega
  have hbA : ∀ b ∈ P.take ofs, b < 256 := fun b hb =>
    hbytes b (List.mem_append_left _ (List.mem_of_mem_take hb))
  have hbB : ∀ b ∈ (P.drop ofs).take cnt, b < 256 := fun b hb =>
    hbytes b (List.mem_append_left _ (List.mem_of_mem_drop (List.mem_of_mem_take hb)))
  have hbC : ∀ b ∈ P.drop (ofs + cnt) ++ [c1, c2], b < 256 := by
    intro b hb
    rcases List.mem_append.mp hb with h | h
    · exact hbytes b (List.mem_append_left _ (List.mem_of_mem_drop h))
    · exact hbytes b (List.mem_append_right _ h)
  have hrem : ((((SD_BLK_SIZE : Nat) : Int) + 2 - (ofs : Int) - (cnt : Int)) % 65536).toNat
      = (P.drop (ofs + cnt) ++ [c1, c2]).length := by
    rw [hC]; simp only [SD_BLK_SIZE]; omega
  -- the token wait
  have htok := script_Read_token N fuel
    ⟨⟨pre (List.replicate N 0xFF ++ [0xFE]) (pre (P ++ [c1, c2]) rest), pre ts clk⟩,
      t0 + 100 * 1000, Ev.timerOn 100 :: t1⟩ 0xFE (pre (P ++ [c1, c2]) rest) ts clk rfl
    (by decide) (by decide) rfl hts hact hfuel
  have hpre : pre (List.replicate N 0xFF ++ 0xFE :: (P ++ [c1, c2])) rest
      = pre (List.replicate N 0xFF ++ [0xFE]) (pre (P ++ [c1, c2]) rest) := by
    rw [← pre_append]; simp
  -- the world after the token
  set wt : World Script := ⟨⟨pre (P ++ [c1, c2]) rest, fun n => clk (n + 1)⟩, clk 0,
    Ev.timerOff :: Ev.rw 0xFF 0xFE :: (pollEvents 0xFF N ++ Ev.timerOn 100 :: t1)⟩ with hwt
  have hskip : (if ofs ≠ 0 then Read_skip scriptLink fuel ofs wt else some wt)
      = some (Script.eat (P.take ofs)
          (pre ((P.drop ofs).take cnt ++ (P.drop (ofs + cnt) ++ [c1, c2])) rest) wt) := by
    by_cases h0 : ofs = 0
    · subst h0
      simp only [ne_eq, not_true_eq_false, if_false, List.take_zero, List.drop_zero, zero_add,
        Script.eat, rxEvents, List.map_nil, List.reverse_nil, List.nil_append]
      rw [hwt]
      have : (List.take cnt P ++ (List.drop cnt P ++ [c1, c2])) = P ++ [c1, c2] := by
        rw [← List.append_assoc, List.take_append_drop]
      rw [this]
    · rw [if_pos h0]
      have := script_eat_skip fuel (P.take ofs)
        (pre ((P.drop ofs).take cnt ++ (P.drop (ofs + cnt) ++ [c1, c2])) rest) wt
        (by rw [hwt, ← pre_append, ← hsplit]) hbA (by rw [hA]; omega) (by rw [hA]; omega)
        (by rw [hA]; omega)
      rwa [hA] at this
  set wA : World Script := Script.eat (P.take ofs)
    (pre ((P.drop ofs).take cnt ++ (P.drop (ofs + cnt) ++ [c1, c2])) rest) wt with hwA
  have hcopy := script_eat_copy fuel ((P.drop ofs).take cnt)
    (pre (P.drop (ofs + cnt) ++ [c1, c2]) rest) dat 0 wA
    (by simp only [hwA, Script.eat]; rw [pre_append]) hbB (by rw [hB]; omega)
    (by rw [hB]; omega) (by rw [hB]; omega)
  rw [hB] at hcopy
  set wB : World Script := Script.eat ((P.drop ofs).take cnt)
    (pre (P.drop (ofs + cnt) ++ [c1, c2]) rest) wA with hwB
  have hdisc := script_eat_skip fuel (P.drop (ofs + cnt) ++ [c1, c2]) rest wB
    rfl hbC (by rw [hC]; omega) (by rw [hC]; omega) (by rw [hC]; omega)
  rw [← hrem] at hdisc
  set wC : World Script := Script.eat (P.drop (ofs + cnt) ++ [c1, c2]) rest wB with hwC
  simp only [] at htok
  refine ⟨store dat 0 ((P.drop ofs).take cnt), SPI_Release scriptLink wC, ?_, ?_, ?_, ?_, ?_⟩
  · have hguard : ¬ (sector > dev.last_sector ∨ cnt = 0) := by omega
    simp only [SD_Read, hguard, if_false, hcmd, Option.some_bind, if_true, hpre,
      script_Timer_On_pre, Nat.reduceMod, htok, script_Timer_Off, ← hwt, hskip, hcopy, hdisc]
  · intro i hi
    rw [store_apply, if_pos ⟨Nat.zero_le _, by rw [hB]; omega⟩]
    simp only [Nat.sub_zero]
    rw [List.getD_eq_getElem _ _ (by rw [hB]; exact hi), List.getElem_take,
      List.getElem_drop, List.getD_eq_getElem _ _ (by omega)]
  · intro i hi
    rw [store_apply, if_neg (by rw [hB]; omega)]
  · simp only [SPI_Release, SPI_RW_dummy_eq, script_array_stream, Script.eat, hwC]
  · simp only [SPI_Release, SPI_RW_dummy_eq, script_array_stream, Script.eat, rxEvents, hwt,
      hwA, hwB, hwC]
    rw [hsplit]
    simp

theorem demoBlock_bytes : ∀ b ∈ demoBlock, b < 256 := by
  intro b hb
  simp only [demoBlock, List.mem_map] at hb
  obtain ⟨a, -, rfl⟩ := hb
  omega

/-- C2 at `ofs = 10`, `cnt = 20` on `demoReadWorld`: the caller gets bytes 10 to 29 of the
payload. -/
theorem SD_Read_partial_witness :
    ∃ (m : Mem) (w2 : World Script),
      SD_Read scriptLink 600 ⟨true, 4, 7⟩ (fun _ => 0) 3 10 20 demoReadWorld
        = some (SD_OK, m, w2) ∧
      (∀ i, i < 20 → m i = demoBlock.getD (10 + i) 0) ∧ (∀ i, 20 ≤ i → m i = 0) ∧
      w2.hw.miso = (fun _ => 0xFF) ∧
      w2.trace = rxEvents ((List.range 10).map (fun _ => 0xFF % 256))
        ++ (rxEvents (demoBlock ++ [0x12, 0x34])
        ++ (Ev.timerOff :: Ev.rw 0xFF 0xFE :: (pollEvents 0xFF 2
        ++ Ev.timerOn 100 ::
          [Ev.timerOff, Ev.rw 0xFF 0, Ev.timerOn 5, Ev.rw 1 0xFF, Ev.rw 0 0xFF, Ev.rw 6 0xFF,
            Ev.rw 0 0xFF, Ev.rw 0 0xFF, Ev.rw CMD17 0xFF, Ev.rw 0xFF 0xFF, Ev.cs false,
            Ev.rw 0xFF 0xFF, Ev.cs true]))) :=
  SD_Read_partial 600 ⟨true, 4, 7⟩ (fun _ => 0) 3 10 20 demoReadWorld
    ⟨⟨pre (List.replicate 2 0xFF ++ 0xFE :: (demoBlock ++ [0x12, 0x34])) (fun _ => 0xFF),
        pre [20, 30, 40] (fun n => 10 * (n + 5))⟩, 10,
      [Ev.timerOff, Ev.rw 0xFF 0, Ev.timerOn 5, Ev.rw 1 0xFF, Ev.rw 0 0xFF, Ev.rw 6 0xFF,
        Ev.rw 0 0xFF, Ev.rw 0 0xFF, Ev.rw CMD17 0xFF, Ev.rw 0xFF 0xFF, Ev.cs false,
        Ev.rw 0xFF 0xFF, Ev.cs true]⟩
    2 demoBlock 0x12 0x34 (fun _ => 0xFF) 20 [30, 40] (fun n => 10 * (n + 5))
    (by decide) (by decide) (by decide) rfl rfl (by simp [demoBlock])
    (by
      intro b hb
      rcases List.mem_append.mp hb with h | h
      · exact demoBlock_bytes b h
      · simp only [List.mem_cons, List.mem_singleton, List.not_mem_nil, or_false] at h
        rcases h with rfl | rfl <;> decide)
    rfl rfl (by decide) (by decide) (by decide)

/-! ## Single block write -/

theorem pre_nil (s : Nat → Nat) : pre [] s = s := by
  funext n; rfl

theorem script_Write_Block_data (dat : Mem) (G : List Nat) : ∀ (idx : Nat) (s c : Nat → Nat)
    (e : Nat) (t : List Ev), (∀ b ∈ G, b < 256) →
    Write_Block_data scriptLink dat G.length idx ⟨⟨pre G s, c⟩, e, t⟩
      = ⟨⟨s, c⟩, e,
          txEvents ((List.range G.length).map (fun i => dat (idx + i) % 256)) G ++ t⟩ := by
  induction G with
  | nil => intro idx s c e t _; simp [Write_Block_data, pre, txEvents]
  | cons a G ih =>
    intro idx s c e t hb
    have ha : a % 256 = a := Nat.mod_eq_of_lt (hb a (List.mem_cons_self _ _))
    simp only [List.length_cons, Write_Block_data, script_SPI_RW_pre, ha]
    rw [ih (idx + 1) s c e _ (fun b h => hb b (List.mem_cons_of_mem _ h))]
    have hmap : List.map ((fun i => dat (idx + i) % 256) ∘ Nat.succ) (List.range G.length)
        = List.map (fun i => dat (idx + 1 + i) % 256) (List.range G.length) := by
      apply List.map_congr_left
      intro i _
      simp only [Function.comp_apply, Nat.succ_eq_add_one]
      congr 2
      omega
    simp only [txEvents, List.range_succ_eq_map, List.map_cons, List.map_map,
      List.zipWith_cons_cons, List.reverse_cons, List.append_assoc, List.singleton_append,
      Nat.add_zero, hmap]

theorem script_Write_Block_wait_ok (K : Nat) : ∀ (fuel b : Nat) (s c : Nat → Nat)
    (ts : List Nat) (e : Nat) (t : List Ev), b ≠ 0 → b < 256 → ts.length = K →
    (∀ x ∈ ts, x ≤ e) → K + 1 ≤ fuel →
    Write_Block_wait scriptLink fuel ⟨⟨pre (List.replicate K 0 ++ [b]) s, pre ts c⟩, e, t⟩
      = some (b, ⟨⟨s, c⟩, e, Ev.rw 0xFF b :: (pollEvents 0 K ++ t)⟩) := by
  induction K with
  | zero =>
    intro fuel b s c ts e t hb hlt hts _ hf
    obtain ⟨f, rfl⟩ : ∃ f, fuel = f + 1 := ⟨fuel - 1, by omega⟩
    have hnil : ts = [] := List.length_eq_zero.mp hts
    subst hnil
    have h1 : b % 256 = b := Nat.mod_eq_of_lt hlt
    simp [Write_Block_wait, List.replicate, script_SPI_RW_pre, pre, h1, hb, pollEvents]
  | succ K ih =>
    intro fuel b s c ts e t hb hlt hts hact hf
    obtain ⟨f, rfl⟩ : ∃ f, fuel = f + 1 := ⟨fuel - 1, by omega⟩
    obtain ⟨t0, ts', rfl⟩ : ∃ t0 ts', ts = t0 :: ts' := by
      cases ts with
      | nil => simp at hts
      | cons a l => exact ⟨a, l, rfl⟩
    have ht0 : t0 ≤ e := hact t0 (List.mem_cons_self _ _)
    simp only [Write_Block_wait, List.replicate_succ, List.cons_append, script_SPI_RW_pre,
      script_Timer_Status_pre, ht0, decide_True, if_true, Nat.reduceMod]
    rw [ih f b s c ts' e _ hb hlt (by simpa using hts)
      (fun x hx => hact x (List.mem_cons_of_mem _ hx)) (by omega), pollEvents_succ]
    simp

theorem script_Write_Block_wait_busy (K : Nat) : ∀ (fuel : Nat) (s c : Nat → Nat)
    (ts : List Nat) (tl e : Nat) (t : List Ev), ts.length = K →
    (∀ x ∈ ts, x ≤ e) → e < tl → K + 1 ≤ fuel →
    Write_Block_wait scriptLink fuel
        ⟨⟨pre (List.replicate K 0 ++ [0]) s, pre (ts ++ [tl]) c⟩, e, t⟩
      = some (0, ⟨⟨s, c⟩, e, Ev.timerStatus false :: Ev.rw 0xFF 0 :: (pollEvents 0 K ++ t)⟩) := by
  induction K with
  | zero =>
    intro fuel s c ts tl e t hts _ hlate hf
    obtain ⟨f, rfl⟩ : ∃ f, fuel = f + 1 := ⟨fuel - 1, by omega⟩
    have hnil : ts = [] := List.length_eq_zero.mp hts
    subst hnil
    have h2 : ¬ tl ≤ e := by omega
    simp [Write_Block_wait, List.replicate, script_SPI_RW_pre, script_Timer_Status_pre, pre,
      h2, pollEvents]
  | succ K ih =>
    intro fuel s c ts tl e t hts hact hlate hf
    obtain ⟨f, rfl⟩ : ∃ f, fuel = f + 1 := ⟨fuel - 1, by omega⟩
    obtain ⟨t0, ts', rfl⟩ : ∃ t0 ts', ts = t0 :: ts' := by
      cases ts with
      | nil => simp at hts
      | cons a l => exact ⟨a, l, rfl⟩
    have ht0 : t0 ≤ e := hact t0 (List.mem_cons_self _ _)
    simp only [Write_Block_wait, List.replicate_succ, List.cons_append, script_SPI_RW_pre,
      script_Timer_Status_pre, ht0, decide_True, if_true, Nat.reduceMod]
    rw [ih f s c ts' tl e _ (by simpa using hts)
      (fun x hx => hact x (List.mem_cons_of_mem _ hx)) hlate (by omega), pollEvents_succ]
    simp

/-- The scripted world after the token, the payload and the two placeholder checksum
bytes of `__SD_Write_Block` have been sent, and the data response has been received. -/
theorem script_Write_Block_head (dat : Mem) (g0 : Nat) (G : List Nat) (g1 g2 resp : Nat)
    (s c : Nat → Nat) (e : Nat) (t : List Ev) (hG : G.length = 512)
    (hb : ∀ b ∈ g0 :: G ++ [g1, g2, resp], b < 256) :
    SPI_RW scriptLink 0xFF (SPI_RW scriptLink 0xFF (SPI_RW scriptLink 0xFF
      (Write_Block_data scriptLink dat SD_BLK_SIZE 0
        (SPI_RW scriptLink 0xFE ⟨⟨pre (g0 :: G ++ [g1, g2, resp]) s, c⟩, e, t⟩).2)).2).2
      = (resp, ⟨⟨s, c⟩, e, Ev.rw 0xFF resp :: Ev.rw 0xFF g2 :: Ev.rw 0xFF g1 ::
          (txEvents ((List.range 512).map (fun i => dat i % 256)) G
            ++ Ev.rw 0xFE g0 :: t)⟩) := by
  have h0 : g0 % 256 = g0 := Nat.mod_eq_of_lt (hb g0 (by simp))
  have h1 : g1 % 256 = g1 := Nat.mod_eq_of_lt (hb g1 (by simp))
  have h2 : g2 % 256 = g2 := Nat.mod_eq_of_lt (hb g2 (by simp))
  have h3 : resp % 256 = resp := Nat.mod_eq_of_lt (hb resp (by simp))
  have hGb : ∀ b ∈ G, b < 256 := fun b h => hb b (by simp [h])
  have hdata := script_Write_Block_data dat G 0 (pre [g1, g2, resp] s) c e
    (Ev.rw 0xFE g0 :: t) hGb
  rw [hG] at hdata
  simp only [List.cons_append, script_SPI_RW_pre, pre_append, SD_BLK_SIZE, hdata, h0, h1, h2,
    h3, Nat.reduceMod, Nat.zero_add, pre_nil]

/-- C4: on a link that accepts CMD24 and then, after the token `0xFE`, the 512 payload
bytes and the two placeholder checksum bytes, delivers a byte whose low five bits are not
`0x05`, `SD_Write` returns `SD_REJECT`; the exchange that received that byte is the last
entry of the log, the timer value and the clock are untouched (no timer was armed), and the
link stands right behind that byte (no further byte was exchanged). -/
theorem SD_Write_reject (cfg : Cfg) (fuel : Nat) (dev : SD_DEV) (dat : Mem) (sector : Nat)
    (w w1 : World Script) (g0 : Nat) (G : List Nat) (g1 g2 resp : Nat) (s : Nat → Nat)
    (hsec : sector ≤ dev.last_sector)
    (hcmd : __SD_Send_Cmd scriptLink fuel CMD24 ((sector * SD_BLK_SIZE) % 2 ^ 32) w
      = some (0, w1))
    (hmiso : w1.hw.miso = pre (g0 :: G ++ [g1, g2, resp]) s) (hG : G.length = 512)
    (hbytes : ∀ b ∈ g0 :: G ++ [g1, g2, resp], b < 256) (hresp : resp &&& 0x1F ≠ 0x05) :
    SD_Write scriptLink cfg fuel dev dat sector w
      = some (SD_REJECT,
          { hw := { miso := s, clock := w1.hw.clock },
            spi_timer_expire := w1.spi_timer_expire,
            trace := Ev.rw 0xFF resp :: Ev.rw 0xFF g2 :: Ev.rw 0xFF g1 ::
              (txEvents ((List.range 512).map (fun i => dat i % 256)) G
                ++ Ev.rw 0xFE g0 :: w1.trace) }) := by
  obtain ⟨⟨m1, k1⟩, e1, t1⟩ := w1
  simp only at hmiso
  subst hmiso
  have hguard : ¬ sector > dev.last_sector := by omega
  have hhead := script_Write_Block_head dat g0 G g1 g2 resp s k1 e1 t1 hG hbytes
  simp only [SD_Write, hguard, if_false, hcmd, Option.some_bind, if_true, __SD_Write_Block,
    ne_eq, Nat.reduceEqDiff, not_false_eq_true, hhead, hresp]

/-- C5 (timeout build): on a link that accepts the data block (the low five bits of the
data response are `0x05`) and then delivers `K` zero bytes while the write timer is active,
followed by the byte `b`: if `b` is not zero `__SD_Write_Block` returns `SD_OK`; if `b` is
zero too and the clock reading taken after it is past the write deadline, so that every
byte polled before the deadline elapsed was zero, `__SD_Write_Block` returns `SD_BUSY`, and
so does the `SD_Write` whose CMD24 was accepted on that link. -/
theorem Write_Block_busy_or_ok (cfg : Cfg) (fuel : Nat) (dat : Mem) (w : World Script)
    (g0 : Nat) (G : List Nat) (g1 g2 resp K b : Nat) (s : Nat → Nat)
    (t0 : Nat) (ts : List Nat) (tl : Nat) (c : Nat → Nat)
    (hmiso : w.hw.miso = pre ((g0 :: G ++ [g1, g2, resp]) ++ (List.replicate K 0 ++ [b])) s)
    (hG : G.length = 512) (hbytes : ∀ x ∈ g0 :: G ++ [g1, g2, resp], x < 256)
    (hacc : resp &&& 0x1F = 0x05) (hb : b < 256)
    (hclock : w.hw.clock = pre (t0 :: ts ++ [tl]) c) (hts : ts.length = K)
    (hact : ∀ x ∈ ts, x ≤ t0 + (cfg.SD_IO_WRITE_TIMEOUT_WAIT % 65536) * 1000)
    (hfuel : K + 1 ≤ fuel) :
    (b ≠ 0 → ∃ w', __SD_Write_Block scriptLink cfg fuel dat 0xFE w = some (SD_OK, w')) ∧
    (b = 0 → t0 + (cfg.SD_IO_WRITE_TIMEOUT_WAIT % 65536) * 1000 < tl →
      (∃ w', __SD_Write_Block scriptLink cfg fuel dat 0xFE w = some (SD_BUSY, w')) ∧
      ∀ (dev : SD_DEV) (sector : Nat) (w0 : World Script), sector ≤ dev.last_sector →
        __SD_Send_Cmd scriptLink fuel CMD24 ((sector * SD_BLK_SIZE) % 2 ^ 32) w0 = some (0, w) →
        ∃ w', SD_Write scriptLink cfg fuel dev dat sector w0 = some (SD_BUSY, w')) := by
  obtain ⟨⟨m1, k1⟩, e1, t1⟩ := w
  simp only at hmiso hclock
  subst hmiso hclock
  have hhead := script_Write_Block_head dat g0 G g1 g2 resp
    (pre (List.replicate K 0 ++ [b]) s) (pre (t0 :: ts ++ [tl]) c) e1 t1 hG hbytes
  rw [← pre_append] at hhead
  have hclk : pre (ts ++ [tl]) c = pre ts (pre [tl] c) := pre_append _ _ _
  have hstart : __SD_Write_Block scriptLink cfg fuel dat 0xFE
      ⟨⟨pre ((g0 :: G ++ [g1, g2, resp]) ++ (List.replicate K 0 ++ [b])) s,
        pre (t0 :: ts ++ [tl]) c⟩, e1, t1⟩
      = (Write_Block_wait scriptLink fuel
          ⟨⟨pre (List.replicate K 0 ++ [b]) s, pre (ts ++ [tl]) c⟩,
            t0 + (cfg.SD_IO_WRITE_TIMEOUT_WAIT % 65536) * 1000,
            Ev.timerOn (cfg.SD_IO_WRITE_TIMEOUT_WAIT % 65536) :: Ev.rw 0xFF resp ::
              Ev.rw 0xFF g2 :: Ev.rw 0xFF g1 ::
              (txEvents ((List.range 512).map (fun i => dat i % 256)) G
                ++ Ev.rw 0xFE g0 :: t1)⟩).bind
          (fun r => if r.1 = 0 then some (SD_BUSY, SPI_Timer_Off scriptLink r.2)
            else some (SD_OK, SPI_Timer_Off scriptLink r.2)) := by
    simp only [__SD_Write_Block, ne_eq, Nat.reduceEqDiff, not_false_eq_true, if_true,
      Write_Block_finish]
    rw [hhead]
    simp only [hacc, not_true_eq_false, if_false, List.cons_append, script_Timer_On_pre]
  refine ⟨fun hb0 => ?_, fun hb0 hlate => ?_⟩
  · rw [hstart, hclk, script_Write_Block_wait_ok K fuel b s (pre [tl] c) ts _ _ hb0 hb hts hact
      hfuel]
    simp [hb0]
  · subst hb0
    have hbusy : __SD_Write_Block scriptLink cfg fuel dat 0xFE
        ⟨⟨pre ((g0 :: G ++ [g1, g2, resp]) ++ (List.replicate K 0 ++ [0])) s,
          pre (t0 :: ts ++ [tl]) c⟩, e1, t1⟩
        = some (SD_BUSY, SPI_Timer_Off scriptLink
            ⟨⟨s, c⟩, t0 + (cfg.SD_IO_WRITE_TIMEOUT_WAIT % 65536) * 1000,
              Ev.timerStatus false :: Ev.rw 0xFF 0 :: (pollEvents 0 K ++
                (Ev.timerOn (cfg.SD_IO_WRITE_TIMEOUT_WAIT % 65536) :: Ev.rw 0xFF resp ::
                  Ev.rw 0xFF g2 :: Ev.rw 0xFF g1 ::
                  (txEvents ((List.range 512).map (fun i => dat i % 256)) G
                    ++ Ev.rw 0xFE g0 :: t1)))⟩) := by
      rw [hstart, script_Write_Block_wait_busy K fuel s c ts tl _ _ hts hact hlate hfuel]
      simp
    refine ⟨⟨_, hbusy⟩, fun dev sector w0 hsec hcmd => ?_⟩
    have hguard : ¬ sector > dev.last_sector := by omega
    exact ⟨_, by rw [SD_Write, if_neg hguard, hcmd]; exact hbusy⟩

theorem demo_head_bytes (r : Nat) (hr : r < 256) :
    ∀ x ∈ 0xFF :: List.replicate 512 0xFF ++ [0xFF, 0xFF, r], x < 256 := by
  intro x hx
  simp only [List.mem_cons, List.mem_append, List.mem_replicate, List.mem_singleton,
    List.not_mem_nil, or_false] at hx
  rcases hx with (rfl | ⟨-, rfl⟩) | rfl | rfl | rfl <;> first | decide | exact hr

/-- C4 on `demoRejectWorld`: the data response `0x0B` makes the write of sector 3 end with
`SD_REJECT` right after that byte. -/
theorem SD_Write_reject_witness :
    SD_Write scriptLink stdCfg 5 ⟨true, 4, 7⟩ (fun i => demoBlock.getD i 0) 3 demoRejectWorld
      = some (SD_REJECT,
          { hw := { miso := fun _ => 0xFF, clock := fun n => 10 * (n + 2) },
            spi_timer_expire := 10,
            trace := Ev.rw 0xFF 0x0B :: Ev.rw 0xFF 0xFF :: Ev.rw 0xFF 0xFF ::
              (txEvents ((List.range 512).map (fun i => demoBlock.getD i 0 % 256))
                  (List.replicate 512 0xFF)
                ++ Ev.rw 0xFE 0xFF :: demoFrameLog CMD24) }) :=
  SD_Write_reject stdCfg 5 ⟨true, 4, 7⟩ (fun i => demoBlock.getD i 0) 3 demoRejectWorld
    ⟨⟨pre (0xFF :: List.replicate 512 0xFF ++ [0xFF, 0xFF, 0x0B]) (fun _ => 0xFF),
      fun n => 10 * (n + 2)⟩, 10, demoFrameLog CMD24⟩
    0xFF (List.replicate 512 0xFF) 0xFF 0xFF 0x0B (fun _ => 0xFF)
    (by decide) rfl rfl (List.length_replicate _ _) (demo_head_bytes 0x0B (by decide)) (by decide)

/-- C5 on `demoBusyWorld`: with a third zero byte read after the deadline the block write
ends with `SD_BUSY`, with the byte `0xFF` in its place it ends with `SD_OK`. -/
theorem Write_Block_busy_or_ok_witness :
    (∃ w', __SD_Write_Block scriptLink stdCfg 5 (fun i => demoBlock.getD i 0) 0xFE
        (demoBusyWorld 0) = some (SD_BUSY, w')) ∧
    (∃ w', __SD_Write_Block scriptLink stdCfg 5 (fun i => demoBlock.getD i 0) 0xFE
        (demoBusyWorld 0xFF) = some (SD_OK, w')) :=
  ⟨((Write_Block_busy_or_ok stdCfg 5 (fun i => demoBlock.getD i 0) (demoBusyWorld 0)
      0xFF (List.replicate 512 0xFF) 0xFF 0xFF 0xE5 2 0 (fun _ => 0) 0 [100, 200] 300000
      (fun n => 300000 + n) rfl (List.length_replicate _ _) (demo_head_bytes 0xE5 (by decide)) (by decide)
      (by decide) rfl rfl (by decide) (by decide)).2 rfl (by decide)).1,
   (Write_Block_busy_or_ok stdCfg 5 (fun i => demoBlock.getD i 0) (demoBusyWorld 0xFF)
      0xFF (List.replicate 512 0xFF) 0xFF 0xFF 0xE5 2 0xFF (fun _ => 0) 0 [100, 200] 300000
      (fun n => 300000 + n) rfl (List.length_replicate _ _) (demo_head_bytes 0xE5 (by decide)) (by decide)
      (by decide) rfl rfl (by decide) (by decide)).1 (by decide)⟩

/-! ## The mock card -/

theorem SPI_RW_hw (L : Link σ) (d : Nat) (w : World σ) :
    (SPI_RW L d w).2.hw = (L.spi_write_read_blocking w.hw (d % 256)).2 := rfl

theorem SPI_RW_val (L : Link σ) (d : Nat) (w : World σ) :
    (SPI_RW L d w).1 = (L.spi_write_read_blocking w.hw (d % 256)).1 % 256 := rfl

theorem SPI_Timer_On_hw (L : Link σ) (ms : Nat) (w : World σ) :
    (SPI_Timer_On L ms w).hw = (L.get_absolute_time w.hw).2 := rfl

theorem SPI_Timer_Off_hw (L : Link σ) (w : World σ) :
    (SPI_Timer_Off L w).hw = (L.get_absolute_time w.hw).2 := rfl

theorem SPI_Timer_Status_hw (L : Link σ) (w : World σ) :
    (SPI_Timer_Status L w).2.hw = (L.get_absolute_time w.hw).2 := rfl

theorem SD_Assert_hw (L : Link σ) (w : World σ) :
    (__SD_Assert L w).hw = L.gpio_put w.hw false := rfl

theorem SD_Deassert_hw (L : Link σ) (w : World σ) :
    (__SD_Deassert L w).hw = L.gpio_put w.hw true := rfl

theorem card_exchange_out (reply : Nat → Nat → List Nat) (n : Nat) (f : List Nat) (b : Nat)
    (o : List Nat) (wr : Option (Nat × Option (List Nat))) (bl : Nat → List Nat) (tx : Nat) :
    Card.exchange reply ⟨n, f, b :: o, wr, bl⟩ tx = (b, ⟨n, f, o, wr, bl⟩) := rfl

theorem card_exchange_idle (reply : Nat → Nat → List Nat) (n : Nat) (bl : Nat → List Nat)
    (tx : Nat) (h : tx &&& 0xC0 ≠ 0x40) :
    Card.exchange reply ⟨n, [], [], none, bl⟩ tx = (0xFF, ⟨n, [], [], none, bl⟩) := by
  simp [Card.exchange, h]

theorem card_exchange_first (reply : Nat → Nat → List Nat) (n : Nat) (bl : Nat → List Nat)
    (tx : Nat) (h : tx &&& 0xC0 = 0x40) :
    Card.exchange reply ⟨n, [], [], none, bl⟩ tx = (0xFF, ⟨n, [tx], [], none, bl⟩) := by
  simp [Card.exchange, h]

theorem card_exchange_more (reply : Nat → Nat → List Nat) (n : Nat) (a : Nat) (f : List Nat)
    (bl : Nat → List Nat) (tx : Nat) (h : f.length + 2 ≠ 6) :
    Card.exchange reply ⟨n, a :: f, [], none, bl⟩ tx
      = (0xFF, ⟨n, a :: f ++ [tx], [], none, bl⟩) := by
  have h' : ¬ (f.length + 1 + 1 = 6) := h
  simp [Card.exchange, h']

theorem card_exchange_last (reply : Nat → Nat → List Nat) (n : Nat) (a : Nat) (f : List Nat)
    (bl : Nat → List Nat) (tx : Nat) (h : f.length = 4) :
    Card.exchange reply ⟨n, a :: f, [], none, bl⟩ tx
      = (0xFF, Card.accept reply ⟨n, a :: f, [], none, bl⟩ (a :: f ++ [tx])) := by
  simp [Card.exchange, h]

/-- The card state right after a command frame sent by `Send_Cmd_send`. -/
theorem card_frame_sent (reply : Nat → Nat → List Nat) (tick : Nat) (cmd arg : Nat)
    (w : World Card) (hc : cmd < 256) (hs : cmd &&& 0xC0 = 0x40) :
    (Send_Cmd_send (cardLink reply tick) cmd arg w).hw
      = { Card.accept reply { w.hw with frame := [], out := [], wr := none }
            [cmd, arg >>> 24 % 256, arg >>> 16 % 256, arg >>> 8 % 256, arg % 256,
              Send_Cmd_crc cmd % 256] with now := w.hw.now + tick } := by
  unfold Send_Cmd_send
  obtain ⟨⟨n, f, o, wr, bl⟩, e, t⟩ := w
  have hc' : cmd % 256 = cmd := Nat.mod_eq_of_lt hc
  have hff : (0xFF % 256) &&& 0xC0 ≠ 0x40 := by decide
  simp only [SPI_Timer_On_hw, SPI_RW_hw, SD_Assert_hw, SD_Deassert_hw]
  simp only [cardLink, if_true, Bool.false_eq_true, if_false, hc', Nat.shiftRight_zero]
  rw [card_exchange_idle reply n bl _ hff, card_exchange_idle reply n bl _ hff,
    card_exchange_first reply n bl cmd hs,
    card_exchange_more reply n cmd [] bl _ (by decide)]
  simp only [List.cons_append, List.nil_append]
  rw [card_exchange_more reply n cmd [_] bl _ (by simp)]
  simp only [List.cons_append, List.nil_append]
  rw [card_exchange_more reply n cmd [_, _] bl _ (by simp)]
  simp only [List.cons_append, List.nil_append]
  rw [card_exchange_more reply n cmd [_, _, _] bl _ (by simp)]
  simp only [List.cons_append, List.nil_append]
  rw [card_exchange_last reply n cmd [_, _, _, _] bl _ rfl]
  simp only [List.cons_append, List.nil_append, Card.accept]
  split_ifs <;> rfl

/-! ## Commands answered by the first byte polled -/

theorem Send_Cmd_plain (L : Link σ) (fuel cmd arg : Nat) (w : World σ)
    (hesc : cmd &&& 0x80 = 0) :
    __SD_Send_Cmd L (fuel + 1) cmd arg w = Send_Cmd_frame L fuel cmd arg w := by
  simp [__SD_Send_Cmd, hesc]

theorem Send_Cmd_frame_first (L : Link σ) (fuel cmd arg : Nat) (w : World σ)
    (h : (SPI_RW L 0xFF (Send_Cmd_send L cmd arg w)).1 &&& 0x80 = 0) :
    Send_Cmd_frame L (fuel + 1) cmd arg w
      = some ((SPI_RW L 0xFF (Send_Cmd_send L cmd arg w)).1,
          SPI_Timer_Off L (SPI_RW L 0xFF (Send_Cmd_send L cmd arg w)).2) := by
  simp [Send_Cmd_frame, Send_Cmd_wait, h]

theorem Read_token_first (L : Link σ) (n : Nat) (w : World σ)
    (h : (SPI_RW L 0xFF w).1 ≠ 0xFF) :
    Read_token L (n + 1) w = some ((SPI_RW L 0xFF w).1, (SPI_RW L 0xFF w).2) := by
  simp [Read_token, h]

theorem Write_Block_wait_first (L : Link σ) (n : Nat) (w : World σ)
    (h : (SPI_RW L 0xFF w).1 ≠ 0) :
    Write_Block_wait L (n + 1) w = some ((SPI_RW L 0xFF w).1, (SPI_RW L 0xFF w).2) := by
  simp [Write_Block_wait, h]

/-! ## Frames on the mock card -/

theorem card_send_plain (reply : Nat → Nat → List Nat) (tick cmd arg : Nat) (w : World Card)
    (hc : cmd < 256) (hs : cmd &&& 0xC0 = 0x40) (h17 : cmd ≠ CMD17) (h24 : cmd ≠ CMD24) :
    (Send_Cmd_send (cardLink reply tick) cmd arg w).hw
      = ⟨w.hw.now + tick, [], reply cmd (frameArg arg), none, w.hw.blocks⟩ := by
  rw [card_frame_sent reply tick cmd arg w hc hs]
  simp only [Card.accept, List.getD_cons_zero, h17, h24, if_false]
  rfl

theorem card_send_CMD17 (reply : Nat → Nat → List Nat) (tick arg : Nat) (w : World Card) :
    (Send_Cmd_send (cardLink reply tick) CMD17 arg w).hw
      = ⟨w.hw.now + tick, [], [0, 0xFE] ++ w.hw.blocks (frameArg arg) ++ [0xFF, 0xFF], none,
          w.hw.blocks⟩ := by
  rw [card_frame_sent reply tick CMD17 arg w (by decide) (by decide)]
  simp only [Card.accept, List.getD_cons_zero, if_true]
  rfl

theorem card_send_CMD24 (reply : Nat → Nat → List Nat) (tick arg : Nat) (w : World Card) :
    (Send_Cmd_send (cardLink reply tick) CMD24 arg w).hw
      = ⟨w.hw.now + tick, [], [0], some (frameArg arg, none), w.hw.blocks⟩ := by
  rw [card_frame_sent reply tick CMD24 arg w (by decide) (by decide)]
  have h : CMD24 ≠ CMD17 := by decide
  simp only [Card.accept, List.getD_cons_zero, h, if_false, if_true]
  rfl

theorem card_rw_queued (reply : Nat → Nat → List Nat) (tick d : Nat) (w : World Card)
    (n : Nat) (f : List Nat) (b : Nat) (o : List Nat) (wr : Option (Nat × Option (List Nat)))
    (bl : Nat → List Nat) (h : w.hw = ⟨n, f, b :: o, wr, bl⟩) :
    (SPI_RW (cardLink reply tick) d w).1 = b % 256 ∧
    (SPI_RW (cardLink reply tick) d w).2.hw = ⟨n, f, o, wr, bl⟩ := by
  rw [SPI_RW_val, SPI_RW_hw, h]
  exact ⟨rfl, rfl⟩

theorem card_array (reply : Nat → Nat → List Nat) (tick : Nat) (l : List Nat) :
    ∀ (w : World Card) (n : Nat) (f o : List Nat) (wr : Option (Nat × Option (List Nat)))
      (bl : Nat → List Nat), w.hw = ⟨n, f, l ++ o, wr, bl⟩ → (∀ b ∈ l, b < 256) →
      (SPI_RW_array (cardLink reply tick) l.length w).1 = l ∧
      (SPI_RW_array (cardLink reply tick) l.length w).2.hw = ⟨n, f, o, wr, bl⟩ := by
  induction l with
  | nil => intro w n f o wr bl h _; exact ⟨rfl, h⟩
  | cons a l ih =>
    intro w n f o wr bl h hb
    obtain ⟨h1, h2⟩ := card_rw_queued reply tick 0xFF w n f a (l ++ o) wr bl h
    obtain ⟨h3, h4⟩ := ih (SPI_RW (cardLink reply tick) 0xFF w).2 n f o wr bl h2
      (fun b hbl => hb b (List.mem_cons_of_mem _ hbl))
    have ha : a % 256 = a := Nat.mod_eq_of_lt (hb a (List.mem_cons_self _ _))
    simp only [List.length_cons, SPI_RW_array, h1, h3, h4, ha, and_self]

theorem card_Write_Block_data (reply : Nat → Nat → List Nat) (tick : Nat) (dat : Mem) :
    ∀ (k idx : Nat) (w : World Card) (n : Nat) (f : List Nat) (A : Nat) (acc : List Nat)
      (bl : Nat → List Nat), w.hw = ⟨n, f, [], some (A, some acc), bl⟩ →
      acc.length + k ≤ 513 →
      (Write_Block_data (cardLink reply tick) dat k idx w).hw
        = ⟨n, f, [], some (A, some (acc ++ (List.range k).map (fun i => dat (idx + i) % 256))),
            bl⟩ := by
  intro k
  induction k with
  | zero => intro idx w n f A acc bl h _; simpa [Write_Block_data] using h
  | succ k ih =>
    intro idx w n f A acc bl h hk
    have hne : ¬ (acc.length + 1 = SD_BLK_SIZE + 2) := by simp only [SD_BLK_SIZE]; omega
    have hstep : (SPI_RW (cardLink reply tick) (dat idx) w).2.hw
        = ⟨n, f, [], some (A, some (acc ++ [dat idx % 256])), bl⟩ := by
      rw [SPI_RW_hw, h]
      simp only [cardLink, Card.exchange, hne, if_false]
    rw [Write_Block_data, ih (idx + 1) _ n f A _ bl hstep (by simp; omega)]
    have hmap : List.map ((fun i => dat (idx + i) % 256) ∘ Nat.succ) (List.range k)
        = List.map (fun i => dat (idx + 1 + i) % 256) (List.range k) := by
      apply List.map_congr_left
      intro i _
      simp only [Function.comp_apply, Nat.succ_eq_add_one]
      congr 2
      omega
    simp only [List.range_succ_eq_map, List.map_cons, List.map_map, hmap, Nat.add_zero,
      List.append_assoc, List.singleton_append]

theorem card_Timer_On_hw (reply : Nat → Nat → List Nat) (tick ms : Nat) (w : World Card)
    (n : Nat) (f o : List Nat) (wr : Option (Nat × Option (List Nat))) (bl : Nat → List Nat)
    (h : w.hw = ⟨n, f, o, wr, bl⟩) :
    (SPI_Timer_On (cardLink reply tick) ms w).hw = ⟨n + tick, f, o, wr, bl⟩ := by
  rw [SPI_Timer_On_hw, h]; rfl

theorem card_Timer_Off_hw (reply : Nat → Nat → List Nat) (tick : Nat) (w : World Card)
    (n : Nat) (f o : List Nat) (wr : Option (Nat × Option (List Nat))) (bl : Nat → List Nat)
    (h : w.hw = ⟨n, f, o, wr, bl⟩) :
    (SPI_Timer_Off (cardLink reply tick) w).hw = ⟨n + tick, f, o, wr, bl⟩ := by
  rw [SPI_Timer_Off_hw, h]; rfl

theorem getD_range_map (P : List Nat) (hPb : ∀ b ∈ P, b < 256) :
    (List.range P.length).map (fun i => P.getD i 0 % 256) = P := by
  apply List.ext_getElem
  · simp
  · intro i h1 h2
    simp only [List.getElem_map, List.getElem_range]
    rw [List.getD_eq_getElem _ _ h2]
    exact Nat.mod_eq_of_lt (hPb _ (List.getElem_mem _))

theorem card_Send_CMD24 (reply : Nat → Nat → List Nat) (tick fuel arg : Nat)
    (w : World Card) :
    ∃ wc, __SD_Send_Cmd (cardLink reply tick) (fuel + 2) CMD24 arg w = some (0, wc) ∧
      wc.hw = ⟨w.hw.now + tick + tick, [], [], some (frameArg arg, none), w.hw.blocks⟩ := by
  obtain ⟨ws, hws⟩ : ∃ ws, Send_Cmd_send (cardLink reply tick) CMD24 arg w = ws := ⟨_, rfl⟩
  have hws_hw := card_send_CMD24 reply tick arg w
  rw [hws] at hws_hw
  obtain ⟨hr1, hr2⟩ := card_rw_queued reply tick 0xFF ws _ _ _ _ _ _ hws_hw
  refine ⟨SPI_Timer_Off (cardLink reply tick) (SPI_RW (cardLink reply tick) 0xFF ws).2, ?_,
    card_Timer_Off_hw _ _ _ _ _ _ _ _ hr2⟩
  rw [Send_Cmd_plain _ _ _ _ _ (by decide), Send_Cmd_frame_first _ _ _ _ _ (by rw [hws, hr1]; rfl),
    hws, hr1]

theorem card_Send_CMD17 (reply : Nat → Nat → List Nat) (tick fuel arg : Nat)
    (w : World Card) :
    ∃ wc, __SD_Send_Cmd (cardLink reply tick) (fuel + 2) CMD17 arg w = some (0, wc) ∧
      wc.hw = ⟨w.hw.now + tick + tick, [],
        [0xFE] ++ w.hw.blocks (frameArg arg) ++ [0xFF, 0xFF], none, w.hw.blocks⟩ := by
  obtain ⟨ws, hws⟩ : ∃ ws, Send_Cmd_send (cardLink reply tick) CMD17 arg w = ws := ⟨_, rfl⟩
  have hws_hw := card_send_CMD17 reply tick arg w
  rw [hws] at hws_hw
  obtain ⟨hr1, hr2⟩ := card_rw_queued reply tick 0xFF ws _ _ _ _ _ _ hws_hw
  refine ⟨SPI_Timer_Off (cardLink reply tick) (SPI_RW (cardLink reply tick) 0xFF ws).2, ?_,
    card_Timer_Off_hw _ _ _ _ _ _ _ _ hr2⟩
  rw [Send_Cmd_plain _ _ _ _ _ (by decide), Send_Cmd_frame_first _ _ _ _ _ (by rw [hws, hr1]; rfl),
    hws, hr1]

/-- On the mock card a block sent after an accepted CMD24 is recorded under its address. -/
theorem card_Write_Block (reply : Nat → Nat → List Nat) (tick : Nat) (cfg : Cfg) (fuel : Nat)
    (P : List Nat) (A n : Nat) (bl : Nat → List Nat) (wc : World Card)
    (h : wc.hw = ⟨n, [], [], some (A, none), bl⟩)
    (hP : P.length = 512) (hPb : ∀ b ∈ P, b < 256) :
    ∃ w1, __SD_Write_Block (cardLink reply tick) cfg (fuel + 1) (fun i => P.getD i 0) 0xFE wc
        = some (SD_OK, w1) ∧ w1.hw.blocks A = P := by
  have h254 : (254 : Nat) ≠ 253 := by decide
  simp only [__SD_Write_Block, ne_eq, h254, not_false_eq_true, if_true, Write_Block_finish]
  -- the token
  obtain ⟨wt, hwt⟩ : ∃ wt, (SPI_RW (cardLink reply tick) 0xFE wc).2 = wt := ⟨_, rfl⟩
  rw [hwt]
  have hwt_hw : wt.hw = ⟨n, [], [], some (A, some []), bl⟩ := by
    rw [← hwt, SPI_RW_hw, h]; rfl
  -- the payload
  obtain ⟨wd, hwd⟩ : ∃ wd,
      Write_Block_data (cardLink reply tick) (fun i => P.getD i 0) SD_BLK_SIZE 0 wt = wd :=
    ⟨_, rfl⟩
  rw [hwd]
  have hwd_hw : wd.hw = ⟨n, [], [], some (A, some P), bl⟩ := by
    rw [← hwd, card_Write_Block_data reply tick _ SD_BLK_SIZE 0 wt _ _ A [] bl hwt_hw
      (by simp [SD_BLK_SIZE])]
    have := getD_range_map P hPb
    rw [hP] at this
    simp only [SD_BLK_SIZE, List.nil_append, Nat.zero_add, this]
  -- the two checksum bytes
  obtain ⟨wx1, hwx1⟩ : ∃ wx1, (SPI_RW (cardLink reply tick) 0xFF wd).2 = wx1 := ⟨_, rfl⟩
  rw [hwx1]
  have hwx1_hw : wx1.hw = ⟨n, [], [], some (A, some (P ++ [0xFF])), bl⟩ := by
    rw [← hwx1, SPI_RW_hw, hwd_hw]
    have hne : ¬ (P.length + 1 = SD_BLK_SIZE + 2) := by rw [hP]; decide
    simp only [cardLink, Card.exchange, hne, if_false]
  obtain ⟨wx2, hwx2⟩ : ∃ wx2, (SPI_RW (cardLink reply tick) 0xFF wx1).2 = wx2 := ⟨_, rfl⟩
  rw [hwx2]
  have hwx2_hw : wx2.hw = ⟨n, [], [0xE5, 0xFF], none, Function.update bl A P⟩ := by
    rw [← hwx2, SPI_RW_hw, hwx1_hw]
    have heq : (P ++ [0xFF]).length + 1 = SD_BLK_SIZE + 2 := by simp [hP, SD_BLK_SIZE]
    have htake : List.take SD_BLK_SIZE (P ++ [0xFF] ++ [0xFF % 256]) = P := by
      rw [List.append_assoc]
      exact List.take_left' hP
    simp only [cardLink, Card.exchange, heq, if_true, htake]
  -- the data response
  obtain ⟨hr3, hr4⟩ := card_rw_queued reply tick 0xFF wx2 _ _ _ _ _ _ hwx2_hw
  obtain ⟨wx3, hwx3⟩ : ∃ wx3, SPI_RW (cardLink reply tick) 0xFF wx2 = wx3 := ⟨_, rfl⟩
  rw [hwx3] at hr3 hr4 ⊢
  have h5 : (0xE5 % 256) &&& 0x1F = 0x05 := by decide
  simp only [hr3, h5, not_true_eq_false, if_false]
  -- the busy wait
  obtain ⟨wo, hwo⟩ : ∃ wo,
      SPI_Timer_On (cardLink reply tick) cfg.SD_IO_WRITE_TIMEOUT_WAIT wx3.2 = wo := ⟨_, rfl⟩
  rw [hwo]
  have hwo_hw : wo.hw = ⟨n + tick, [], [0xFF], none, Function.update bl A P⟩ := by
    rw [← hwo]; exact card_Timer_On_hw _ _ _ _ _ _ _ _ _ hr4
  obtain ⟨hr5, hr6⟩ := card_rw_queued reply tick 0xFF wo _ _ _ _ _ _ hwo_hw
  obtain ⟨wx4, hwx4⟩ : ∃ wx4, SPI_RW (cardLink reply tick) 0xFF wo = wx4 := ⟨_, rfl⟩
  have hwait : Write_Block_wait (cardLink reply tick) (fuel + 1) wo = some (wx4.1, wx4.2) := by
    rw [← hwx4]
    exact Write_Block_wait_first _ _ wo (by rw [hr5]; decide)
  rw [hwx4] at hr5 hr6
  have h255 : (0xFF % 256) ≠ 0 := by decide
  refine ⟨SPI_Timer_Off (cardLink reply tick) wx4.2, ?_, ?_⟩
  · simp only [hwait, Option.some_bind, hr5, h255, if_false]
  · rw [card_Timer_Off_hw reply tick _ _ _ _ _ _ hr6]
    simp

/-- On the mock card a block write is accepted and recorded under the frame argument. -/
theorem card_SD_Write (reply : Nat → Nat → List Nat) (tick : Nat) (cfg : Cfg) (fuel : Nat)
    (dev : SD_DEV) (P : List Nat) (S : Nat) (w : World Card)
    (hP : P.length = 512) (hPb : ∀ b ∈ P, b < 256) (hS : S ≤ dev.last_sector)
    (hfuel : 2 ≤ fuel) :
    ∃ w1, SD_Write (cardLink reply tick) cfg fuel dev (fun i => P.getD i 0) S w
        = some (SD_OK, w1) ∧
      w1.hw.blocks (frameArg ((S * SD_BLK_SIZE) % 2 ^ 32)) = P := by
  obtain ⟨f2, rfl⟩ : ∃ f2, fuel = f2 + 2 := ⟨fuel - 2, by omega⟩
  obtain ⟨wc, hcmd, hwc⟩ := card_Send_CMD24 reply tick f2 ((S * SD_BLK_SIZE) % 2 ^ 32) w
  obtain ⟨w1, hw1, hblk⟩ := card_Write_Block reply tick cfg (f2 + 1) P _ _ _ wc hwc hP hPb
  have hguard : ¬ S > dev.last_sector := by omega
  refine ⟨w1, ?_, hblk⟩
  rw [SD_Write, if_neg hguard, hcmd]
  exact hw1

/-- On the mock card a full-length read returns the block recorded under the frame
argument. -/
theorem card_SD_Read (reply : Nat → Nat → List Nat) (tick fuel : Nat) (dev : SD_DEV)
    (P : List Nat) (S : Nat) (dat0 : Mem) (w : World Card)
    (hblk : w.hw.blocks (frameArg ((S * SD_BLK_SIZE) % 2 ^ 32)) = P)
    (hP : P.length = 512) (hPb : ∀ b ∈ P, b < 256) (hS : S ≤ dev.last_sector)
    (hfuel : 512 ≤ fuel) :
    ∃ (m : Mem) (w2 : World Card),
      SD_Read (cardLink reply tick) fuel dev dat0 S 0 512 w = some (SD_OK, m, w2) ∧
      ∀ i, i < 512 → m i = P.getD i 0 := by
  obtain ⟨f2, rfl⟩ : ∃ f2, fuel = f2 + 2 := ⟨fuel - 2, by omega⟩
  obtain ⟨wc, hcmd, hwc⟩ := card_Send_CMD17 reply tick f2 ((S * SD_BLK_SIZE) % 2 ^ 32) w
  rw [hblk] at hwc
  have hguard : ¬ (S > dev.last_sector ∨ 512 = 0) := by omega
  have hrem : ((((SD_BLK_SIZE : Nat) : Int) + 2 - ((0 : Nat) : Int) - ((512 : Nat) : Int))
      % 65536).toNat = 2 := by decide
  unfold SD_Read
  rw [if_neg hguard, hcmd]
  simp only [Option.some_bind, if_true, hrem]
  -- the token
  obtain ⟨wo, hwo⟩ : ∃ wo, SPI_Timer_On (cardLink reply tick) 100 wc = wo := ⟨_, rfl⟩
  rw [hwo]
  have hwo_hw : wo.hw = ⟨w.hw.now + tick + tick + tick, [], [0xFE] ++ P ++ [0xFF, 0xFF], none,
      w.hw.blocks⟩ := by
    rw [← hwo]; exact card_Timer_On_hw _ _ _ _ _ _ _ _ _ hwc
  obtain ⟨hr3, hr4⟩ := card_rw_queued reply tick 0xFF wo _ _ _ _ _ _ hwo_hw
  obtain ⟨wx, hwx⟩ : ∃ wx, SPI_RW (cardLink reply tick) 0xFF wo = wx := ⟨_, rfl⟩
  have htok : Read_token (cardLink reply tick) (f2 + 2) wo = some (wx.1, wx.2) := by
    rw [← hwx]
    exact Read_token_first _ _ wo (by rw [hr3]; decide)
  rw [hwx] at hr3 hr4
  have hFE : (0xFE % 256) = 0xFE := by decide
  simp only [htok, Option.some_bind, hr3, hFE, if_true]
  obtain ⟨wk, hwk⟩ : ∃ wk, SPI_Timer_Off (cardLink reply tick) wx.2 = wk := ⟨_, rfl⟩
  rw [hwk]
  have hwk_hw : wk.hw = ⟨w.hw.now + tick + tick + tick + tick, [], P ++ [0xFF, 0xFF], none,
      w.hw.blocks⟩ := by
    rw [← hwk]; exact card_Timer_Off_hw _ _ _ _ _ _ _ _ hr4
  -- the payload
  obtain ⟨ha1, -⟩ := card_array reply tick P wk _ _ _ _ _ hwk_hw hPb
  rw [hP] at ha1
  have hcopy := Read_copy_eq (cardLink reply tick) (f2 + 2) 512 dat0 0 wk (by decide)
    (by decide) hfuel
  have hskip := Read_skip_eq (cardLink reply tick) (f2 + 2) 2
    (SPI_RW_array (cardLink reply tick) 512 wk).2 (by decide) (by decide) (by omega)
  generalize SPI_RW_array (cardLink reply tick) 512 wk = arr at ha1 hcopy hskip
  refine ⟨store dat0 0 P, SPI_Release (cardLink reply tick)
    (SPI_RW_dummy (cardLink reply tick) 2 arr.2), ?_, ?_⟩
  · rw [if_neg (by decide)]
    simp only [Option.some_bind]
    rw [hcopy]
    simp only [Option.some_bind]
    rw [hskip, ha1]
    rfl
  · intro i hi
    rw [store_apply, if_pos ⟨Nat.zero_le _, by rw [hP]; omega⟩, Nat.sub_zero]

/-- C3: on the mock card, which records the payload of a block write under the address
argument of CMD24 and replays it after the token when CMD17 comes with the same argument,
writing any 512-byte pattern `P` to an in-range sector `S` returns `SD_OK`, and reading
sector `S` back with offset 0 and count 512 returns `SD_OK` with `P` in the caller memory. -/
theorem SD_Write_Read_roundtrip (reply : Nat → Nat → List Nat) (tick : Nat) (cfg : Cfg)
    (fuel : Nat) (dev : SD_DEV) (P : List Nat) (S : Nat) (dat0 : Mem) (w : World Card)
    (hP : P.length = 512) (hPb : ∀ b ∈ P, b < 256) (hS : S ≤ dev.last_sector)
    (hfuel : 512 ≤ fuel) :
    ∃ (w1 w2 : World Card) (m : Mem),
      SD_Write (cardLink reply tick) cfg fuel dev (fun i => P.getD i 0) S w
        = some (SD_OK, w1) ∧
      SD_Read (cardLink reply tick) fuel dev dat0 S 0 512 w1 = some (SD_OK, m, w2) ∧
      ∀ i, i < 512 → m i = P.getD i 0 := by
  obtain ⟨w1, hw1, hblk⟩ := card_SD_Write reply tick cfg fuel dev P S w hP hPb hS (by omega)
  obtain ⟨m, w2, hrd, hm⟩ := card_SD_Read reply tick fuel dev P S dat0 w1 hblk hP hPb hS hfuel
  exact ⟨w1, w2, m, hw1, hrd, hm⟩

/-- C3 for `demoBlock` at sector 3 of a card with eight sectors. -/
theorem SD_Write_Read_roundtrip_witness :
    ∃ (w1 w2 : World Card) (m : Mem),
      SD_Write (cardLink (fun _ _ => [0]) 1) stdCfg 600 ⟨true, 4, 7⟩
          (fun i => demoBlock.getD i 0) 3 Card.world = some (SD_OK, w1) ∧
      SD_Read (cardLink (fun _ _ => [0]) 1) 600 ⟨true, 4, 7⟩ (fun _ => 0) 3 0 512 w1
        = some (SD_OK, m, w2) ∧
      ∀ i, i < 512 → m i = demoBlock.getD i 0 :=
  SD_Write_Read_roundtrip (fun _ _ => [0]) 1 stdCfg 600 ⟨true, 4, 7⟩ demoBlock 3 (fun _ => 0)
    Card.world (by simp [demoBlock]) demoBlock_bytes (by decide) (by decide)

/-! ## Negotiation: SD version 2 -/

theorem Init_reset_idle (L : Link σ) (fuel : Nat)
    (h0 : ∀ w, ∃ w', __SD_Send_Cmd L fuel CMD0 0 w = some (1, w')) :
    ∀ (n : Nat) (w : World σ), ∃ w', Init_reset L fuel (n + 2) 0 w = some w' := by
  intro n w
  have h01 : (0 : Nat) ≠ 1 := by decide
  rw [Init_reset, if_pos h01]
  by_cases ht : (SPI_Timer_Status L w).1 = true
  · obtain ⟨w', hw'⟩ := h0 (SPI_Timer_Status L w).2
    refine ⟨w', ?_⟩
    simp only [ht, if_true, hw', Option.some_bind, Init_reset, ne_eq, not_true_eq_false,
      if_false]
  · exact ⟨(SPI_Timer_Status L w).2, by simp only [ht, if_false, Bool.false_eq_true]⟩

theorem Init_v2_idle_ok (L : Link σ) (fuel : Nat)
    (h41 : ∀ w, ∃ w', __SD_Send_Cmd L fuel ACMD41 (1 <<< 30) w = some (0, w')) :
    ∀ (n : Nat) (w : World σ), ∃ w', Init_v2_idle L fuel (n + 1) w = some w' := by
  intro n w
  rw [Init_v2_idle]
  by_cases ht : (SPI_Timer_Status L w).1 = true
  · obtain ⟨w', hw'⟩ := h41 (SPI_Timer_Status L w).2
    refine ⟨w', ?_⟩
    simp only [ht, if_true]
    rw [hw']
    rfl
  · exact ⟨(SPI_Timer_Status L w).2, by simp only [ht, if_false, Bool.false_eq_true]⟩

theorem or_mod_ne_zero (a b : Nat) (h : a % 256 ≠ 0) : (a ||| b) % 256 ≠ 0 := by
  intro hab
  apply h
  have h1 : (a ||| b) % 2 ^ 8 = 0 := hab
  apply Nat.eq_of_testBit_eq
  intro i
  have h2 := congrArg (fun x => x.testBit i) h1
  simp only [Nat.testBit_mod_two_pow, Nat.testBit_or, Nat.zero_testBit] at h2
  show (a % 2 ^ 8).testBit i = Nat.testBit 0 i
  simp only [Nat.testBit_mod_two_pow, Nat.zero_testBit]
  by_cases hi : i < 8
  · simp only [hi, decide_True, Bool.true_and, Bool.or_eq_false_iff] at h2
    simp [hi, h2.1]
  · simp [hi]

theorem Init_v2_ok (L : Link σ) (cfg : Cfg) (fuel : Nat) (ccs : Bool) (hfuel : 1 ≤ fuel)
    (h41 : ∀ w, ∃ w', __SD_Send_Cmd L fuel ACMD41 (1 <<< 30) w = some (0, w'))
    (h58 : ∀ w, ∃ w', __SD_Send_Cmd L fuel CMD58 0 w = some (0, w') ∧
      ((SPI_RW_array L 4 w').1.getD 0 0 &&& 0x40 ≠ 0 ↔ ccs = true))
    (ct : Nat) (w : World σ)
    (ht : (SPI_RW_array L 4 w).1.getD 2 0 = 0x01 ∧ (SPI_RW_array L 4 w).1.getD 3 0 = 0xAA) :
    ∃ w', Init_v2 L cfg fuel ct w
      = some (if ccs then (cfg.SDCT_SD2 ||| cfg.SDCT_BLOCK) % 256 else cfg.SDCT_SD2 % 256, w') := by
  obtain ⟨f, rfl⟩ : ∃ f, fuel = f + 1 := ⟨fuel - 1, by omega⟩
  obtain ⟨wa, hwa⟩ := Init_v2_idle_ok L (f + 1) h41 f
    (SPI_Timer_On L 1000 (SPI_RW_array L 4 w).2)
  obtain ⟨wb, hwb⟩ := Init_v2_idle_ok L (f + 1) h41 f
    (SPI_Timer_On L 1000 (SPI_Timer_Off L wa))
  obtain ⟨wc, hwc, hbit⟩ := h58 (SPI_Timer_Off L wb)
  refine ⟨(SPI_RW_array L 4 wc).2, ?_⟩
  rw [Init_v2, if_pos ht]
  simp only [hwa, Option.some_bind, hwb, hwc, if_true]
  cases ccs with
  | true =>
    have hb : (SPI_RW_array L 4 wc).1.getD 0 0 &&& 0x40 ≠ 0 := hbit.mpr rfl
    simp only [ne_eq, hb, not_false_eq_true, if_true]
  | false =>
    have hb : ¬ ((SPI_RW_array L 4 wc).1.getD 0 0 &&& 0x40 ≠ 0) := fun h => by
      have := hbit.mp h
      exact Bool.noConfusion this
    simp only [hb, if_false, Bool.false_eq_true]

/-- C6: on a link where CMD0 answers `0x01`, CMD8(0x1AA) answers `0x01` followed by four
bytes whose third is `0x01` and fourth is `0xAA`, ACMD41 with the HCS bit answers 0, CMD58
answers 0 followed by four OCR bytes and `__SD_Sectors` returns, `SD_Init` returns `SD_OK`
with the device mounted and typed `SDCT_SD2 | SDCT_BLOCK` when bit `0x40` of the first OCR
byte is set (`ccs`), and `SDCT_SD2` otherwise. -/
theorem SD_Init_v2 (L : Link σ) (cfg : Cfg) (fuel : Nat) (dev : SD_DEV) (w : World σ)
    (ccs : Bool) (hcfg : cfg.WellFormed) (hfuel : 2 ≤ fuel)
    (h0 : ∀ w, ∃ w', __SD_Send_Cmd L fuel CMD0 0 w = some (1, w'))
    (h8 : ∀ w, ∃ w', __SD_Send_Cmd L fuel CMD8 0x1AA w = some (1, w') ∧
      (SPI_RW_array L 4 w').1.getD 2 0 = 0x01 ∧ (SPI_RW_array L 4 w').1.getD 3 0 = 0xAA)
    (h41 : ∀ w, ∃ w', __SD_Send_Cmd L fuel ACMD41 (1 <<< 30) w = some (0, w'))
    (h58 : ∀ w, ∃ w', __SD_Send_Cmd L fuel CMD58 0 w = some (0, w') ∧
      ((SPI_RW_array L 4 w').1.getD 0 0 &&& 0x40 ≠ 0 ↔ ccs = true))
    (h9 : ∀ dev w, ∃ r w', __SD_Sectors L cfg fuel dev w = some (r, w')) :
    ∃ (dev' : SD_DEV) (w' : World σ),
      SD_Init L cfg fuel dev w = some (SD_OK, dev', w') ∧ dev'.mount = true ∧
      dev'.cardtype = (if ccs then cfg.SDCT_SD2 ||| cfg.SDCT_BLOCK else cfg.SDCT_SD2) := by
  obtain ⟨hT1, hT2, -, -, -, -, hS2, hS2', -, hB'⟩ := hcfg
  obtain ⟨f, rfl⟩ : ∃ f, fuel = f + 2 := ⟨fuel - 2, by omega⟩
  -- the card type the attempt establishes
  obtain ⟨ctv, hctv⟩ : ∃ ctv, ctv
      = (if ccs then (cfg.SDCT_SD2 ||| cfg.SDCT_BLOCK) % 256 else cfg.SDCT_SD2 % 256) := ⟨_, rfl⟩
  have hS2m : cfg.SDCT_SD2 % 256 ≠ 0 := by rw [Nat.mod_eq_of_lt hS2']; omega
  have hne : ctv ≠ 0 := by
    rw [hctv]; cases ccs
    · simpa using hS2m
    · simpa using or_mod_ne_zero _ cfg.SDCT_BLOCK hS2m
  have hval : ctv = (if ccs then cfg.SDCT_SD2 ||| cfg.SDCT_BLOCK else cfg.SDCT_SD2) := by
    rw [hctv]; cases ccs
    · simpa using Nat.mod_eq_of_lt hS2'
    · have : cfg.SDCT_SD2 ||| cfg.SDCT_BLOCK < 2 ^ 8 := Nat.or_lt_two_pow hS2' hB'
      simpa using Nat.mod_eq_of_lt this
  -- one attempt
  have hatt : ∀ (d : SD_DEV) (w : World σ), ∃ w',
      Init_attempt L cfg (f + 2) 0 d w = some (ctv, { d with mount := false }, w') := by
    intro d w
    obtain ⟨wr, hwr⟩ := Init_reset_idle L (f + 2) h0 f
      (SPI_Timer_On L 500 (SPI_RW_dummy L 10 (SPI_RW_dummy L 10
        (SPI_Freq_Low L (SPI_CS_High L (SPI_Init L w))))))
    obtain ⟨w0, hw0⟩ := h0 (SPI_Timer_Off L wr)
    obtain ⟨w8, hw8, ht⟩ := h8 w0
    obtain ⟨wv, hwv⟩ := Init_v2_ok L cfg (f + 2) ccs (by omega) h41 h58 0 w8 ht
    refine ⟨wv, ?_⟩
    rw [← hctv] at hwv
    simp only [Init_attempt, hwr, Option.some_bind, hw0, if_true, hw8, hwv]
  -- the attempt loop
  have hloop : ∀ (d : SD_DEV) (w : World σ), ∃ w',
      Init_loop L cfg (f + 2) (f + 2) 0 0 d w = some (ctv, { d with mount := false }, w') := by
    intro d w
    obtain ⟨w', hw'⟩ := hatt d w
    refine ⟨w', ?_⟩
    have hcond : 0 ≠ cfg.SD_INIT_TRYS ∧ (0 : Nat) = 0 := ⟨by omega, rfl⟩
    rw [Init_loop, if_pos hcond, hw']
    simp only [Option.some_bind, Init_loop]
    rw [if_neg (by simp [hne])]
  obtain ⟨wl, hwl⟩ := hloop dev w
  obtain ⟨s, ws, hs⟩ := h9 { mount := true, cardtype := ctv, last_sector := dev.last_sector } wl
  obtain ⟨wc, hwc, -⟩ := h58 ws
  refine ⟨{ mount := true, cardtype := ctv, last_sector := (s + 2 ^ 32 - 1) % 2 ^ 32 },
    SPI_Release L (__SD_Speed_Transfer L true (SPI_RW_array L 4 wc).2), ?_, rfl, hval⟩
  simp only [SD_Init, hwl, Option.some_bind, ne_eq, hne, not_false_eq_true, if_true, hs, hwc]

/-- On the mock card a command other than CMD17 and CMD24 is answered by the first byte of
its table entry; the rest of the entry stays queued and the timer value is the reading
taken by `SPI_Timer_Off`. -/
theorem card_Send_Cmd_plain (reply : Nat → Nat → List Nat) (tick fuel cmd arg : Nat)
    (w : World Card) (hc : cmd < 256) (hs : cmd &&& 0xC0 = 0x40) (hesc : cmd &&& 0x80 = 0)
    (h17 : cmd ≠ CMD17) (h24 : cmd ≠ CMD24) (r1 : Nat) (rest : List Nat)
    (hrep : reply cmd (frameArg arg) = r1 :: rest) (h1 : r1 < 256) (h2 : r1 &&& 0x80 = 0) :
    ∃ wc, __SD_Send_Cmd (cardLink reply tick) (fuel + 2) cmd arg w = some (r1, wc) ∧
      wc.hw = ⟨w.hw.now + tick + tick, [], rest, none, w.hw.blocks⟩ ∧
      wc.spi_timer_expire = w.hw.now + tick := by
  obtain ⟨ws, hws⟩ : ∃ ws, Send_Cmd_send (cardLink reply tick) cmd arg w = ws := ⟨_, rfl⟩
  have hws_hw := card_send_plain reply tick cmd arg w hc hs h17 h24
  rw [hws, hrep] at hws_hw
  obtain ⟨hr1, hr2⟩ := card_rw_queued reply tick 0xFF ws _ _ _ _ _ _ hws_hw
  rw [Nat.mod_eq_of_lt h1] at hr1
  refine ⟨SPI_Timer_Off (cardLink reply tick) (SPI_RW (cardLink reply tick) 0xFF ws).2, ?_,
    card_Timer_Off_hw _ _ _ _ _ _ _ _ hr2, ?_⟩
  · rw [Send_Cmd_plain _ _ _ _ _ hesc, Send_Cmd_frame_first _ _ _ _ _ (by rw [hws, hr1, h2]),
      hws, hr1]
  · show ((cardLink reply tick).get_absolute_time _).1 = _
    rw [hr2]; rfl

/-- On the mock card an application command is the CMD55 exchange followed by the frame
of the command without its escape bit. -/
theorem card_Send_Cmd_app (reply : Nat → Nat → List Nat) (tick fuel cmd arg : Nat)
    (w : World Card) (hesc : cmd &&& 0x80 ≠ 0) (hc : cmd &&& 0x7F < 256)
    (hs : (cmd &&& 0x7F) &&& 0xC0 = 0x40) (hesc' : (cmd &&& 0x7F) &&& 0x80 = 0)
    (h17 : cmd &&& 0x7F ≠ CMD17) (h24 : cmd &&& 0x7F ≠ CMD24)
    (r55 : Nat) (hrep55 : reply CMD55 (frameArg 0) = [r55]) (h55 : r55 ≤ 1)
    (r1 : Nat) (rest : List Nat)
    (hrep : reply (cmd &&& 0x7F) (frameArg arg) = r1 :: rest) (h1 : r1 < 256)
    (h2 : r1 &&& 0x80 = 0) :
    ∃ wc, __SD_Send_Cmd (cardLink reply tick) (fuel + 3) cmd arg w = some (r1, wc) ∧
      wc.hw = ⟨w.hw.now + tick + tick + tick + tick, [], rest, none, w.hw.blocks⟩ ∧
      wc.spi_timer_expire = w.hw.now + tick + tick + tick := by
  have hr55 : r55 &&& 0x80 = 0 := by
    rcases Nat.le_one_iff_eq_zero_or_eq_one.mp h55 with rfl | rfl <;> rfl
  obtain ⟨wa, hwa, hwa_hw, -⟩ := card_Send_Cmd_plain reply tick fuel CMD55 0 w (by decide)
    (by decide) (by decide) (by decide) (by decide) r55 [] hrep55 (by omega) hr55
  obtain ⟨wb, hwb, hwb_hw, hwb_e⟩ := card_Send_Cmd_plain reply tick (fuel + 1) (cmd &&& 0x7F) arg wa
    hc hs hesc' h17 h24 r1 rest hrep h1 h2
  rw [hwa_hw] at hwb_hw hwb_e
  refine ⟨wb, ?_, hwb_hw, hwb_e⟩
  rw [__SD_Send_Cmd, if_pos hesc, hwa]
  simp only [Option.some_bind, gt_iff_lt]
  rw [if_neg (by omega), ← Send_Cmd_plain _ _ _ _ _ hesc']
  exact hwb

theorem v2Card_CMD0 (tick : Nat) (w : World Card) :
    ∃ w', __SD_Send_Cmd (cardLink v2Reply tick) 5 CMD0 0 w = some (1, w') := by
  obtain ⟨wc, h, -⟩ := card_Send_Cmd_plain v2Reply tick 3 CMD0 0 w (by decide) (by decide)
    (by decide) (by decide) (by decide) 1 [] rfl (by decide) (by decide)
  exact ⟨wc, h⟩

theorem v2Card_CMD8 (tick : Nat) (w : World Card) :
    ∃ w', __SD_Send_Cmd (cardLink v2Reply tick) 5 CMD8 0x1AA w = some (1, w') ∧
      (SPI_RW_array (cardLink v2Reply tick) 4 w').1.getD 2 0 = 0x01 ∧
      (SPI_RW_array (cardLink v2Reply tick) 4 w').1.getD 3 0 = 0xAA := by
  obtain ⟨wc, h, hhw, -⟩ := card_Send_Cmd_plain v2Reply tick 3 CMD8 0x1AA w (by decide)
    (by decide) (by decide) (by decide) (by decide) 1 [0x00, 0x00, 0x01, 0xAA] rfl (by decide)
    (by decide)
  obtain ⟨ha, -⟩ := card_array v2Reply tick [0x00, 0x00, 0x01, 0xAA] wc _ _ [] _ _ hhw
    (by decide)
  exact ⟨wc, h, by rw [show (4 : Nat) = [0x00, 0x00, 0x01, 0xAA].length from rfl, ha]; rfl,
    by rw [show (4 : Nat) = [0x00, 0x00, 0x01, 0xAA].length from rfl, ha]; rfl⟩

theorem v2Card_ACMD41 (tick : Nat) (w : World Card) :
    ∃ w', __SD_Send_Cmd (cardLink v2Reply tick) 5 ACMD41 (1 <<< 30) w = some (0, w') := by
  obtain ⟨wc, h, -⟩ := card_Send_Cmd_app v2Reply tick 2 ACMD41 (1 <<< 30) w (by decide)
    (by decide) (by decide) (by decide) (by decide) (by decide) 1 rfl (by decide) 0 [] rfl
    (by decide) (by decide)
  exact ⟨wc, h⟩

theorem v2Card_CMD58 (tick : Nat) (w : World Card) :
    ∃ w', __SD_Send_Cmd (cardLink v2Reply tick) 5 CMD58 0 w = some (0, w') ∧
      ((SPI_RW_array (cardLink v2Reply tick) 4 w').1.getD 0 0 &&& 0x40 ≠ 0 ↔ true = true) := by
  obtain ⟨wc, h, hhw, -⟩ := card_Send_Cmd_plain v2Reply tick 3 CMD58 0 w (by decide)
    (by decide) (by decide) (by decide) (by decide) 0 [0xC0, 0xFF, 0x80, 0x00] rfl (by decide)
    (by decide)
  obtain ⟨ha, -⟩ := card_array v2Reply tick [0xC0, 0xFF, 0x80, 0x00] wc _ _ [] _ _ hhw
    (by decide)
  refine ⟨wc, h, ?_⟩
  rw [show (4 : Nat) = [0xC0, 0xFF, 0x80, 0x00].length from rfl, ha]
  decide

theorem v2Card_Sectors (tick : Nat) (cfg : Cfg) (dev : SD_DEV) (w : World Card) :
    ∃ r w', __SD_Sectors (cardLink v2Reply tick) cfg 5 dev w = some (r, w') := by
  obtain ⟨wc, h, hhw, -⟩ := card_Send_Cmd_plain v2Reply tick 3 CMD9 0 w (by decide)
    (by decide) (by decide) (by decide) (by decide) 0
    [0xFE, 0x40, 0x0E, 0x00, 0x32, 0x5B, 0x59, 0x00, 0x00, 0x3B, 0x37, 0x7F, 0x80,
      0x0A, 0x40, 0x00, 0x01, 0x12, 0x34] rfl (by decide) (by decide)
  obtain ⟨hr1, -⟩ := card_rw_queued v2Reply tick 0xFF wc _ _ _ _ _ _ hhw
  have hwait : Sectors_wait (cardLink v2Reply tick) 5 wc
      = some (SPI_RW (cardLink v2Reply tick) 0xFF wc).2 := by
    rw [Sectors_wait]
    simp only [hr1]
    rfl
  rw [__SD_Sectors, h]
  simp only [Option.some_bind, if_true, hwait]
  exact ⟨_, _, rfl⟩

/-- C6 on the mock card with the answers `v2Reply`: the OCR byte `0xC0` has the capacity
bit, so the card is mounted as `SDCT_SD2 | SDCT_BLOCK`. -/
theorem SD_Init_v2_witness :
    ∃ (dev' : SD_DEV) (w' : World Card),
      SD_Init (cardLink v2Reply 1) stdCfg 5 ⟨false, 0, 0⟩ Card.world = some (SD_OK, dev', w') ∧
      dev'.mount = true ∧
      dev'.cardtype
        = (if true = true then stdCfg.SDCT_SD2 ||| stdCfg.SDCT_BLOCK else stdCfg.SDCT_SD2) :=
  SD_Init_v2 (cardLink v2Reply 1) stdCfg 5 ⟨false, 0, 0⟩ Card.world true (by decide)
    (by decide) (v2Card_CMD0 1) (v2Card_CMD8 1) (v2Card_ACMD41 1) (v2Card_CMD58 1)
    (v2Card_Sectors 1 stdCfg)

/-! ## What a run transmits -/

theorem Sent.refl (allowed : List Nat) (w : World σ) : Sent allowed w w :=
  ⟨[], rfl, fun _ h => by simp at h⟩

theorem Sent.trans {allowed : List Nat} {w1 w2 w3 : World σ} (h12 : Sent allowed w1 w2)
    (h23 : Sent allowed w2 w3) : Sent allowed w1 w3 := by
  obtain ⟨n1, e1, a1⟩ := h12
  obtain ⟨n2, e2, a2⟩ := h23
  refine ⟨n2 ++ n1, by rw [e2, e1, List.append_assoc], ?_⟩
  intro e he
  rcases List.mem_append.mp he with h | h
  · exact a2 e h
  · exact a1 e h

theorem Sent.step {allowed : List Nat} {w w' : World σ} (e : Ev) (ht : w'.trace = e :: w.trace)
    (he : e.txIn allowed) : Sent allowed w w' :=
  ⟨[e], ht, fun x hx => by rw [List.mem_singleton.mp hx]; exact he⟩

theorem Sent_RW (allowed : List Nat) (L : Link σ) (d : Nat) (w : World σ)
    (h : d % 256 ∈ allowed) : Sent allowed w (SPI_RW L d w).2 :=
  Sent.step (Ev.rw (d % 256) (SPI_RW L d w).1) rfl h

theorem Sent_Timer_On (allowed : List Nat) (L : Link σ) (ms : Nat) (w : World σ) :
    Sent allowed w (SPI_Timer_On L ms w) :=
  Sent.step (Ev.timerOn (ms % 65536)) rfl trivial

theorem Sent_Timer_Off (allowed : List Nat) (L : Link σ) (w : World σ) :
    Sent allowed w (SPI_Timer_Off L w) :=
  Sent.step Ev.timerOff rfl trivial

theorem Sent_Timer_Status (allowed : List Nat) (L : Link σ) (w : World σ) :
    Sent allowed w (SPI_Timer_Status L w).2 :=
  Sent.step (Ev.timerStatus (SPI_Timer_Status L w).1) rfl trivial

theorem Sent_CS_High (allowed : List Nat) (L : Link σ) (w : World σ) :
    Sent allowed w (SPI_CS_High L w) :=
  Sent.step (Ev.cs true) rfl trivial

theorem Sent_CS_Low (allowed : List Nat) (L : Link σ) (w : World σ) :
    Sent allowed w (SPI_CS_Low L w) :=
  Sent.step (Ev.cs false) rfl trivial

theorem Sent_Freq_Low (allowed : List Nat) (L : Link σ) (w : World σ) :
    Sent allowed w (SPI_Freq_Low L w) :=
  Sent.step (Ev.freq (400 * 1000)) rfl trivial

theorem Sent_Init (allowed : List Nat) (L : Link σ) (w : World σ) :
    Sent allowed w (SPI_Init L w) :=
  Sent.step Ev.init rfl trivial

theorem Sent_dummy (allowed : List Nat) (L : Link σ) (h : 0xFF ∈ allowed) :
    ∀ (n : Nat) (w : World σ), Sent allowed w (SPI_RW_dummy L n w) := by
  intro n
  induction n with
  | zero => intro w; exact Sent.refl _ _
  | succ n ih => intro w; exact (Sent_RW allowed L 0xFF w h).trans (ih _)

theorem Sent_wait (allowed : List Nat) (L : Link σ) (h : 0xFF ∈ allowed) :
    ∀ (n : Nat) (w : World σ) (r : Nat) (w' : World σ),
      Send_Cmd_wait L n w = some (r, w') → Sent allowed w w' := by
  intro n
  induction n with
  | zero => intro w r w' hw; simp [Send_Cmd_wait] at hw
  | succ n ih =>
    intro w r w' hw
    simp only [Send_Cmd_wait] at hw
    have h1 := Sent_RW allowed L 0xFF w h
    have h2 := Sent_Timer_Status allowed L (SPI_RW L 0xFF w).2
    split at hw
    · split at hw
      · exact (h1.trans h2).trans (ih _ _ _ hw)
      · simp only [Option.some.injEq, Prod.mk.injEq] at hw
        obtain ⟨-, rfl⟩ := hw
        exact h1.trans h2
    · simp only [Option.some.injEq, Prod.mk.injEq] at hw
      obtain ⟨-, rfl⟩ := hw
      exact h1

theorem Sent_Send_Cmd_plain (allowed : List Nat) (L : Link σ) (fuel cmd arg : Nat)
    (w : World σ) (r : Nat) (w' : World σ) (hesc : cmd &&& 0x80 = 0)
    (h : __SD_Send_Cmd L fuel cmd arg w = some (r, w'))
    (hFF : 0xFF ∈ allowed) (hcmd : cmd % 256 ∈ allowed) (h24 : (arg >>> 24) % 256 ∈ allowed)
    (h16 : (arg >>> 16) % 256 ∈ allowed) (h8 : (arg >>> 8) % 256 ∈ allowed)
    (h0 : (arg >>> 0) % 256 ∈ allowed) (hcrc : Send_Cmd_crc cmd % 256 ∈ allowed) :
    Sent allowed w w' := by
  cases fuel with
  | zero => simp [__SD_Send_Cmd] at h
  | succ f =>
    rw [Send_Cmd_plain L f cmd arg w hesc, Send_Cmd_frame] at h
    simp only [Option.bind_eq_some, Option.some.injEq, Prod.mk.injEq] at h
    obtain ⟨a, ha, -, rfl⟩ := h
    have hsend : Sent allowed w (Send_Cmd_send L cmd arg w) := by
      unfold Send_Cmd_send
      exact (((((((((((Sent_CS_High allowed L w).trans (Sent_RW allowed L _ _ hFF)).trans
        (Sent_CS_Low allowed L _)).trans (Sent_RW allowed L _ _ hFF)).trans
        (Sent_RW allowed L _ _ hcmd)).trans (Sent_RW allowed L _ _ h24)).trans
        (Sent_RW allowed L _ _ h16)).trans (Sent_RW allowed L _ _ h8)).trans
        (Sent_RW allowed L _ _ h0)).trans (Sent_RW allowed L _ _ hcrc)).trans
        (Sent_Timer_On allowed L _ _))
    exact (hsend.trans (Sent_wait allowed L hFF _ _ _ _ ha)).trans (Sent_Timer_Off allowed L _)

theorem Sent_CMD0 (L : Link σ) (fuel : Nat) (w : World σ) (r : Nat) (w' : World σ)
    (h : __SD_Send_Cmd L fuel CMD0 0 w = some (r, w')) : Sent resetBytes w w' :=
  Sent_Send_Cmd_plain resetBytes L fuel CMD0 0 w r w' (by decide) h (by decide) (by decide)
    (by decide) (by decide) (by decide) (by decide) (by decide)

theorem Sent_Init_reset (L : Link σ) (fuel : Nat) :
    ∀ (n r1 : Nat) (w w' : World σ), Init_reset L fuel n r1 w = some w' →
      Sent resetBytes w w' := by
  intro n
  induction n with
  | zero => intro r1 w w' h; simp [Init_reset] at h
  | succ n ih =>
    intro r1 w w' h
    simp only [Init_reset] at h
    split at h
    · split at h
      · simp only [Option.bind_eq_some] at h
        obtain ⟨a, ha, hrec⟩ := h
        exact ((Sent_Timer_Status _ L w).trans (Sent_CMD0 L fuel _ a.1 a.2 ha)).trans
          (ih _ _ _ hrec)
      · simp only [Option.some.injEq] at h
        subst h
        exact Sent_Timer_Status _ L w
    · simp only [Option.some.injEq] at h
      subst h
      exact Sent.refl _ _

/-! ## Negotiation: no idle response -/

theorem Init_attempt_no_idle (L : Link σ) (cfg : Cfg) (fuel : Nat)
    (hno : ∀ w, ∃ r w', __SD_Send_Cmd L fuel CMD0 0 w = some (r, w') ∧ r ≠ 1)
    (hreset : ∀ w, ∃ w', Init_reset L fuel fuel 0 w = some w')
    (dev : SD_DEV) (w : World σ) :
    ∃ w', Init_attempt L cfg fuel 0 dev w = some (0, { dev with mount := false }, w') ∧
      Sent resetBytes w w' := by
  have hFF : 0xFF ∈ resetBytes := by decide
  obtain ⟨wr, hwr⟩ := hreset (SPI_Timer_On L 500 (SPI_RW_dummy L 10 (SPI_RW_dummy L 10
    (SPI_Freq_Low L (SPI_CS_High L (SPI_Init L w))))))
  obtain ⟨r, w0, hw0, hr⟩ := hno (SPI_Timer_Off L wr)
  refine ⟨w0, ?_, ?_⟩
  · simp only [Init_attempt, hwr, Option.some_bind, hw0, hr, if_false]
  · exact ((((((((Sent_Init _ L w).trans (Sent_CS_High _ L _)).trans
      (Sent_Freq_Low _ L _)).trans (Sent_dummy _ L hFF 10 _)).trans
      (Sent_dummy _ L hFF 10 _)).trans (Sent_Timer_On _ L 500 _)).trans
      (Sent_Init_reset L fuel _ _ _ _ hwr)).trans (Sent_Timer_Off _ L _)).trans
      (Sent_CMD0 L fuel _ r w0 hw0)

theorem Init_loop_no_idle (L : Link σ) (cfg : Cfg) (fuel : Nat)
    (hT : cfg.SD_INIT_TRYS < 256)
    (hno : ∀ w, ∃ r w', __SD_Send_Cmd L fuel CMD0 0 w = some (r, w') ∧ r ≠ 1)
    (hreset : ∀ w, ∃ w', Init_reset L fuel fuel 0 w = some w') :
    ∀ (k init_trys n : Nat) (dev : SD_DEV) (w : World σ),
      init_trys + k = cfg.SD_INIT_TRYS → k < n →
      ∃ w', Init_loop L cfg fuel n init_trys 0 dev w
          = some (0, (if k = 0 then dev else { dev with mount := false }), w') ∧
        Sent resetBytes w w' := by
  intro k
  induction k with
  | zero =>
    intro it n dev w hk hn
    obtain ⟨m, rfl⟩ : ∃ m, n = m + 1 := ⟨n - 1, by omega⟩
    refine ⟨w, ?_, Sent.refl _ _⟩
    have hcond : ¬ (it ≠ cfg.SD_INIT_TRYS ∧ (0 : Nat) = 0) := by
      intro h; exact h.1 (by omega)
    rw [Init_loop, if_neg hcond]
    rfl
  | succ k ih =>
    intro it n dev w hk hn
    obtain ⟨m, rfl⟩ : ∃ m, n = m + 1 := ⟨n - 1, by omega⟩
    obtain ⟨w1, hw1, hs1⟩ := Init_attempt_no_idle L cfg fuel hno hreset dev w
    have hmod : (it + 1) % 256 = it + 1 := Nat.mod_eq_of_lt (by omega)
    obtain ⟨w2, hw2, hs2⟩ := ih (it + 1) m { dev with mount := false } w1 (by omega) (by omega)
    refine ⟨w2, ?_, hs1.trans hs2⟩
    have hcond : it ≠ cfg.SD_INIT_TRYS ∧ (0 : Nat) = 0 := ⟨by omega, rfl⟩
    rw [Init_loop, if_pos hcond, hw1]
    simp only [Option.some_bind, hmod, hw2]
    by_cases hk0 : k = 0
    · simp [hk0]
    · simp [hk0]

/-- C7: on a link where no CMD0 is ever answered `0x01` and each reset wait comes to an
end, `SD_Init` with an attempt budget of at least one returns `SD_NOINIT`; the device has
`mount = FALSE` and its card type and last sector are the ones it had; and the only bytes
transmitted are `0xFF` and the bytes `0x40`, `0x00`, `0x95` of the CMD0 frame, so that no
CMD8 and no later command was sent. -/
theorem SD_Init_no_idle (L : Link σ) (cfg : Cfg) (fuel : Nat) (dev : SD_DEV) (w : World σ)
    (hT1 : 1 ≤ cfg.SD_INIT_TRYS) (hT2 : cfg.SD_INIT_TRYS < 256)
    (hfuel : cfg.SD_INIT_TRYS < fuel)
    (hno : ∀ w, ∃ r w', __SD_Send_Cmd L fuel CMD0 0 w = some (r, w') ∧ r ≠ 1)
    (hreset : ∀ w, ∃ w', Init_reset L fuel fuel 0 w = some w') :
    ∃ w', SD_Init L cfg fuel dev w
        = some (SD_NOINIT,
            { mount := false, cardtype := dev.cardtype, last_sector := dev.last_sector }, w') ∧
      Sent resetBytes w w' := by
  obtain ⟨wl, hwl, hsl⟩ := Init_loop_no_idle L cfg fuel hT2 hno hreset cfg.SD_INIT_TRYS 0 fuel
    dev w (by omega) hfuel
  rw [if_neg (by omega)] at hwl
  refine ⟨SPI_Release L wl, ?_, hsl.trans (Sent_dummy _ L (by decide) 10 wl)⟩
  simp only [SD_Init, hwl, Option.some_bind, ne_eq, not_true_eq_false, if_false]

theorem card_Timer_Status_val (reply : Nat → Nat → List Nat) (tick : Nat) (w : World Card) :
    (SPI_Timer_Status (cardLink reply tick) w).1 = decide (w.hw.now ≤ w.spi_timer_expire) :=
  rfl

theorem deadCard_CMD0 (w : World Card) :
    ∃ r w', __SD_Send_Cmd (cardLink deadReply 1) 5 CMD0 0 w = some (r, w') ∧ r ≠ 1 := by
  obtain ⟨wc, h, -⟩ := card_Send_Cmd_plain deadReply 1 3 CMD0 0 w (by decide) (by decide)
    (by decide) (by decide) (by decide) 4 [] rfl (by decide) (by decide)
  exact ⟨4, wc, h, by decide⟩

theorem deadCard_reset (w : World Card) :
    ∃ w', Init_reset (cardLink deadReply 1) 5 5 0 w = some w' := by
  have h01 : (0 : Nat) ≠ 1 := by decide
  have h41 : (4 : Nat) ≠ 1 := by decide
  rw [Init_reset, if_pos h01]
  by_cases ht : (SPI_Timer_Status (cardLink deadReply 1) w).1 = true
  · obtain ⟨wc, h, hhw, he⟩ := card_Send_Cmd_plain deadReply 1 3 CMD0 0
      (SPI_Timer_Status (cardLink deadReply 1) w).2 (by decide) (by decide)
      (by decide) (by decide) (by decide) 4 [] rfl (by decide) (by decide)
    have hexp : (SPI_Timer_Status (cardLink deadReply 1) wc).1 = false := by
      rw [card_Timer_Status_val, hhw, he]
      simp
    simp only [ht, if_true, h, Option.some_bind]
    rw [Init_reset, if_pos h41]
    simp only [hexp, Bool.false_eq_true, if_false]
    exact ⟨_, rfl⟩
  · simp only [ht, if_false, Bool.false_eq_true]
    exact ⟨_, rfl⟩

/-- C7 on the mock card that answers `0x04` to everything, with three attempts. -/
theorem SD_Init_no_idle_witness :
    ∃ w', SD_Init (cardLink deadReply 1) stdCfg 5 ⟨true, 4, 7⟩ Card.world
        = some (SD_NOINIT, { mount := false, cardtype := 4, last_sector := 7 }, w') ∧
      Sent resetBytes Card.world w' :=
  SD_Init_no_idle (cardLink deadReply 1) stdCfg 5 ⟨true, 4, 7⟩ Card.world (by decide)
    (by decide) (by decide) deadCard_CMD0 deadCard_reset

/-! ## Negotiation: legacy cards -/

theorem legacyCard_CMD0 (r16 tick : Nat) (w : World Card) :
    ∃ w', __SD_Send_Cmd (cardLink (legacyReply r16) tick) 5 CMD0 0 w = some (1, w') := by
  obtain ⟨wc, h, -⟩ := card_Send_Cmd_plain (legacyReply r16) tick 3 CMD0 0 w (by decide)
    (by decide) (by decide) (by decide) (by decide) 1 [] rfl (by decide) (by decide)
  exact ⟨wc, h⟩

theorem legacyCard_CMD8 (r16 tick : Nat) (w : World Card) :
    ∃ r w', __SD_Send_Cmd (cardLink (legacyReply r16) tick) 5 CMD8 0x1AA w = some (r, w') ∧
      r ≠ 1 := by
  obtain ⟨wc, h, -⟩ := card_Send_Cmd_plain (legacyReply r16) tick 3 CMD8 0x1AA w (by decide)
    (by decide) (by decide) (by decide) (by decide) 5 [] rfl (by decide) (by decide)
  exact ⟨5, wc, h, by decide⟩

theorem legacyCard_ACMD41 (r16 tick : Nat) (w : World Card) :
    ∃ w', __SD_Send_Cmd (cardLink (legacyReply r16) tick) 5 ACMD41 0 w = some (0, w') := by
  obtain ⟨wc, h, -⟩ := card_Send_Cmd_app (legacyReply r16) tick 2 ACMD41 0 w (by decide)
    (by decide) (by decide) (by decide) (by decide) (by decide) 1 rfl (by decide) 0 [] rfl
    (by decide) (by decide)
  exact ⟨wc, h⟩

theorem legacyCard_CMD16 (r16 tick : Nat) (h1 : r16 < 256) (h2 : r16 &&& 0x80 = 0)
    (w : World Card) :
    ∃ w', __SD_Send_Cmd (cardLink (legacyReply r16) tick) 5 CMD16 512 w = some (r16, w') := by
  obtain ⟨wc, h, -⟩ := card_Send_Cmd_plain (legacyReply r16) tick 3 CMD16 512 w (by decide)
    (by decide) (by decide) (by decide) (by decide) r16 [] rfl h1 h2
  exact ⟨wc, h⟩

/-- C8 at the failing input: a mock legacy card that answers every command as the claim
requires (CMD0 idle, CMD8 illegal, ACMD41 ready at once, CMD59 and CMD16 ok), with the timer
of `spi_io.c` still active when the idle-clear loop is entered. With a clock that advances
by one microsecond per reading the timer query that follows `SPI_Timer_Off` is always
`FALSE`, and `SD_Init` returns `SD_NOINIT` and leaves the device unmounted; with a clock
that stands still the same card is mounted as `SDCT_SD1`. -/
theorem SD_Init_v1_clock_advance :
    (∀ w, ∃ w', __SD_Send_Cmd (cardLink (legacyReply 0) 1) 5 CMD0 0 w = some (1, w')) ∧
    (∀ w, ∃ r w', __SD_Send_Cmd (cardLink (legacyReply 0) 1) 5 CMD8 0x1AA w = some (r, w') ∧
      r ≠ 1) ∧
    (∀ w, ∃ w', __SD_Send_Cmd (cardLink (legacyReply 0) 1) 5 ACMD41 0 w = some (0, w')) ∧
    (∀ w, (SPI_Timer_Status (cardLink (legacyReply 0) 1)
      (SPI_Timer_On (cardLink (legacyReply 0) 1) 250 w)).1 = true) ∧
    (∀ w, ∃ w', __SD_Send_Cmd (cardLink (legacyReply 0) 1) 5 CMD59 0 w = some (0, w')) ∧
    (∀ w, ∃ w', __SD_Send_Cmd (cardLink (legacyReply 0) 1) 5 CMD16 512 w = some (0, w')) ∧
    (∀ w, (SPI_Timer_Status (cardLink (legacyReply 0) 1)
      (SPI_Timer_Off (cardLink (legacyReply 0) 1) w)).1 = false) ∧
    (∃ w', SD_Init (cardLink (legacyReply 0) 1) stdCfg 5 ⟨false, 0, 0⟩ Card.world
      = some (SD_NOINIT, ⟨false, 0, 0⟩, w')) ∧
    (∃ w', SD_Init (cardLink (legacyReply 0) 0) stdCfg 5 ⟨false, 0, 0⟩ Card.world
      = some (SD_OK, ⟨true, stdCfg.SDCT_SD1, 3967999⟩, w')) := by
  refine ⟨legacyCard_CMD0 0 1, legacyCard_CMD8 0 1, legacyCard_ACMD41 0 1, ?_, ?_,
    legacyCard_CMD16 0 1 (by decide) (by decide), ?_, ⟨_, rfl⟩, ⟨_, rfl⟩⟩
  · intro w
    rw [card_Timer_Status_val]
    obtain ⟨⟨n, f, o, wr, bl⟩, e, t⟩ := w
    show decide (n + 1 ≤ n + 250 % 65536 * 1000) = true
    simp
  · intro w
    obtain ⟨wc, h, -⟩ := card_Send_Cmd_plain (legacyReply 0) 1 3 CMD59 0 w (by decide)
      (by decide) (by decide) (by decide) (by decide) 0 [] rfl (by decide) (by decide)
    exact ⟨wc, h⟩
  · intro w
    rw [card_Timer_Status_val]
    obtain ⟨⟨n, f, o, wr, bl⟩, e, t⟩ := w
    show decide (n + 1 ≤ n) = false
    simp

/-! ## Checksum byte -/

/-- C11 at the failing input `__SD_Send_Cmd(ACMD41, 1UL << 30)`, on the mock card that
answers CMD55 with idle and the application command with 0. The checksum byte is `0x95`
for CMD0, `0x87` for CMD8, `0x65` for CMD55 and `0x01` for CMD17; but the escape bit is
cleared from `cmd` before the checksum is chosen, so the comparison with `ACMD41` is made
on the byte `0x69`, and the frame that follows the CMD55 exchange carries the checksum byte
`0x01`, not `0x77`. The log of the whole call is listed newest first. -/
theorem Send_Cmd_crc_ACMD41 :
    Send_Cmd_crc CMD0 = 0x95 ∧ Send_Cmd_crc CMD8 = 0x87 ∧ Send_Cmd_crc CMD55 = 0x65 ∧
    Send_Cmd_crc CMD17 = 0x01 ∧
    ACMD41 &&& 0x80 ≠ 0 ∧ ACMD41 &&& 0x7F = 0x69 ∧ Send_Cmd_crc (ACMD41 &&& 0x7F) = 0x01 ∧
    ∃ w', __SD_Send_Cmd (cardLink v2Reply 1) 3 ACMD41 (1 <<< 30) Card.world = some (0, w') ∧
      w'.trace =
        [Ev.timerOff, Ev.rw 0xFF 0x00, Ev.timerOn 5,
          Ev.rw 0x01 0xFF, Ev.rw 0x00 0xFF, Ev.rw 0x00 0xFF, Ev.rw 0x00 0xFF, Ev.rw 0x40 0xFF,
          Ev.rw 0x69 0xFF, Ev.rw 0xFF 0xFF, Ev.cs false, Ev.rw 0xFF 0xFF, Ev.cs true,
          Ev.timerOff, Ev.rw 0xFF 0x01, Ev.timerOn 5,
          Ev.rw 0x65 0xFF, Ev.rw 0x00 0xFF, Ev.rw 0x00 0xFF, Ev.rw 0x00 0xFF, Ev.rw 0x00 0xFF,
          Ev.rw CMD55 0xFF, Ev.rw 0xFF 0xFF, Ev.cs false, Ev.rw 0xFF 0xFF, Ev.cs true] :=
  ⟨rfl, rfl, rfl, rfl, by decide, rfl, rfl, _, rfl, rfl⟩

/-! ## Application commands -/

theorem Send_Cmd_crc_byte (cmd : Nat) : Send_Cmd_crc cmd % 256 = Send_Cmd_crc cmd := by
  unfold Send_Cmd_crc; simp only []; split_ifs <;> rfl

theorem Send_Cmd_send_trace (L : Link σ) (cmd arg : Nat) (w : World σ) (hcmd : cmd < 256) :
    ∃ rx, (Send_Cmd_send L cmd arg w).trace
      = frameLog cmd arg (Send_Cmd_crc cmd) rx ++ w.trace := by
  obtain ⟨x0, hx0⟩ : ∃ x, SPI_RW L 0xFF (__SD_Deassert L w) = x := ⟨_, rfl⟩
  obtain ⟨x1, hx1⟩ : ∃ x, SPI_RW L 0xFF (__SD_Assert L x0.2) = x := ⟨_, rfl⟩
  obtain ⟨x2, hx2⟩ : ∃ x, SPI_RW L cmd x1.2 = x := ⟨_, rfl⟩
  obtain ⟨x3, hx3⟩ : ∃ x, SPI_RW L (arg >>> 24) x2.2 = x := ⟨_, rfl⟩
  obtain ⟨x4, hx4⟩ : ∃ x, SPI_RW L (arg >>> 16) x3.2 = x := ⟨_, rfl⟩
  obtain ⟨x5, hx5⟩ : ∃ x, SPI_RW L (arg >>> 8) x4.2 = x := ⟨_, rfl⟩
  obtain ⟨x6, hx6⟩ : ∃ x, SPI_RW L (arg >>> 0) x5.2 = x := ⟨_, rfl⟩
  obtain ⟨x7, hx7⟩ : ∃ x, SPI_RW L (Send_Cmd_crc cmd) x6.2 = x := ⟨_, rfl⟩
  have t0 := SPI_RW_trace L 0xFF (__SD_Deassert L w)
  have t1 := SPI_RW_trace L 0xFF (__SD_Assert L x0.2)
  have t2 := SPI_RW_trace L cmd x1.2
  have t3 := SPI_RW_trace L (arg >>> 24) x2.2
  have t4 := SPI_RW_trace L (arg >>> 16) x3.2
  have t5 := SPI_RW_trace L (arg >>> 8) x4.2
  have t6 := SPI_RW_trace L (arg >>> 0) x5.2
  have t7 := SPI_RW_trace L (Send_Cmd_crc cmd) x6.2
  rw [hx0] at t0; rw [hx1] at t1; rw [hx2] at t2; rw [hx3] at t3; rw [hx4] at t4
  rw [hx5] at t5; rw [hx6] at t6; rw [hx7] at t7
  have hs : Send_Cmd_send L cmd arg w = SPI_Timer_On L 5 x7.2 := by
    rw [← hx7, ← hx6, ← hx5, ← hx4, ← hx3, ← hx2, ← hx1, ← hx0]; rfl
  refine ⟨[x0.1, x1.1, x2.1, x3.1, x4.1, x5.1, x6.1, x7.1], ?_⟩
  have hon : (SPI_Timer_On L 5 x7.2).trace = Ev.timerOn 5 :: x7.2.trace := rfl
  have ha : (__SD_Assert L x0.2).trace = Ev.cs false :: x0.2.trace := rfl
  have hd : (__SD_Deassert L w).trace = Ev.cs true :: w.trace := rfl
  rw [hs, hon, t7, t6, t5, t4, t3, t2, t1, ha, t0, hd, Send_Cmd_crc_byte,
    Nat.mod_eq_of_lt hcmd, Nat.shiftRight_zero]
  rfl

theorem Send_Cmd_frame_trace (L : Link σ) (fuel cmd arg : Nat) (w : World σ) (hcmd : cmd < 256)
    (r : Nat) (w' : World σ) (h : Send_Cmd_frame L fuel cmd arg w = some (r, w')) :
    ∃ rx poll, (∀ e ∈ poll, e.isPoll) ∧
      w'.trace = Ev.timerOff :: (poll ++ (frameLog cmd arg (Send_Cmd_crc cmd) rx ++ w.trace)) := by
  obtain ⟨rx, hrx⟩ := Send_Cmd_send_trace L cmd arg w hcmd
  unfold Send_Cmd_frame at h
  simp only [Option.bind_eq_some] at h
  obtain ⟨a, ha, hr⟩ := h
  simp only [Option.some.injEq, Prod.mk.injEq] at hr
  obtain ⟨-, rfl⟩ := hr
  obtain ⟨poll, hp, hall⟩ := Send_Cmd_wait_trace L fuel _ a.1 a.2 ha
  refine ⟨rx, poll, hall, ?_⟩
  show Ev.timerOff :: a.2.trace = _
  rw [hp, hrx]

/-- C12: for a command byte with the escape bit `0x80`, `__SD_Send_Cmd` is the complete
exchange of CMD55 with argument 0 and, only when that is answered 0 or 1, the frame of the
command byte without its escape bit with the argument `arg`, whose response it returns; a
CMD55 response above 1 is returned at once. The nested call never nests again. Whenever
the call returns, its log is one CMD55 frame with its polls, followed in the second case
by exactly one more frame with its polls. -/
theorem Send_Cmd_escape (L : Link σ) (fuel cmd arg : Nat) (w : World σ)
    (hesc : cmd &&& 0x80 ≠ 0) :
    __SD_Send_Cmd L (fuel + 2) cmd arg w
      = (Send_Cmd_frame L fuel CMD55 0 w).bind (fun r =>
          if r.1 > 1 then some (r.1, r.2)
          else Send_Cmd_frame L (fuel + 1) (cmd &&& 0x7F) arg r.2) ∧
    ∀ (r : Nat) (w' : World σ), __SD_Send_Cmd L (fuel + 2) cmd arg w = some (r, w') →
      ∃ r55 w55 rx1 poll1, Send_Cmd_frame L fuel CMD55 0 w = some (r55, w55) ∧
        (∀ e ∈ poll1, e.isPoll) ∧
        w55.trace = Ev.timerOff :: (poll1 ++ (frameLog CMD55 0 0x65 rx1 ++ w.trace)) ∧
        ((1 < r55 ∧ r = r55 ∧ w' = w55) ∨
          (r55 ≤ 1 ∧ Send_Cmd_frame L (fuel + 1) (cmd &&& 0x7F) arg w55 = some (r, w') ∧
            ∃ rx2 poll2, (∀ e ∈ poll2, e.isPoll) ∧
              w'.trace = Ev.timerOff :: (poll2 ++
                (frameLog (cmd &&& 0x7F) arg (Send_Cmd_crc (cmd &&& 0x7F)) rx2
                  ++ w55.trace)))) := by
  have h55 : CMD55 &&& 0x80 = 0 := by decide
  have key : __SD_Send_Cmd L (fuel + 2) cmd arg w
      = (Send_Cmd_frame L fuel CMD55 0 w).bind (fun r =>
          if r.1 > 1 then some (r.1, r.2)
          else Send_Cmd_frame L (fuel + 1) (cmd &&& 0x7F) arg r.2) := by
    rw [__SD_Send_Cmd, if_pos hesc, Send_Cmd_plain L fuel CMD55 0 w h55]
  refine ⟨key, ?_⟩
  intro r w' h
  rw [key] at h
  simp only [Option.bind_eq_some] at h
  obtain ⟨a, ha, hr⟩ := h
  obtain ⟨rx1, poll1, hall1, ht1⟩ :=
    Send_Cmd_frame_trace L fuel CMD55 0 w (by decide) a.1 a.2 ha
  refine ⟨a.1, a.2, rx1, poll1, ha, hall1, ht1, ?_⟩
  by_cases hgt : a.1 > 1
  · rw [if_pos hgt] at hr
    simp only [Option.some.injEq, Prod.mk.injEq] at hr
    exact Or.inl ⟨hgt, hr.1.symm, hr.2.symm⟩
  · rw [if_neg hgt] at hr
    have hm : cmd &&& 0x7F < 256 := lt_of_le_of_lt Nat.and_le_right (by decide)
    obtain ⟨rx2, poll2, hall2, ht2⟩ :=
      Send_Cmd_frame_trace L (fuel + 1) (cmd &&& 0x7F) arg a.2 hm r w' hr
    exact Or.inr ⟨by omega, hr, rx2, poll2, hall2, ht2⟩

/-- C12 at `ACMD41` with the HCS argument on the mock card that answers CMD55 with idle;
the same call on the card that rejects every command returns the CMD55 response `0x04`. -/
theorem Send_Cmd_escape_witness :
    ACMD41 &&& 0x80 ≠ 0 ∧
    (∃ w', __SD_Send_Cmd (cardLink v2Reply 1) (1 + 2) ACMD41 (1 <<< 30) Card.world
      = some (0, w')) ∧
    (∃ w', __SD_Send_Cmd (cardLink deadReply 1) (1 + 2) ACMD41 (1 <<< 30) Card.world
      = some (4, w')) ∧
    (__SD_Send_Cmd (cardLink v2Reply 1) (1 + 2) ACMD41 (1 <<< 30) Card.world
      = (Send_Cmd_frame (cardLink v2Reply 1) 1 CMD55 0 Card.world).bind (fun r =>
          if r.1 > 1 then some (r.1, r.2)
          else Send_Cmd_frame (cardLink v2Reply 1) (1 + 1) (ACMD41 &&& 0x7F) (1 <<< 30) r.2) ∧
    ∀ (r : Nat) (w' : World Card),
      __SD_Send_Cmd (cardLink v2Reply 1) (1 + 2) ACMD41 (1 <<< 30) Card.world = some (r, w') →
      ∃ r55 w55 rx1 poll1,
        Send_Cmd_frame (cardLink v2Reply 1) 1 CMD55 0 Card.world = some (r55, w55) ∧
        (∀ e ∈ poll1, e.isPoll) ∧
        w55.trace = Ev.timerOff :: (poll1 ++ (frameLog CMD55 0 0x65 rx1 ++ Card.world.trace)) ∧
        ((1 < r55 ∧ r = r55 ∧ w' = w55) ∨
          (r55 ≤ 1 ∧
            Send_Cmd_frame (cardLink v2Reply 1) (1 + 1) (ACMD41 &&& 0x7F) (1 <<< 30) w55
              = some (r, w') ∧
            ∃ rx2 poll2, (∀ e ∈ poll2, e.isPoll) ∧
              w'.trace = Ev.timerOff :: (poll2 ++
                (frameLog (ACMD41 &&& 0x7F) (1 <<< 30) (Send_Cmd_crc (ACMD41 &&& 0x7F)) rx2
                  ++ w55.trace))))) :=
  ⟨by decide, ⟨_, rfl⟩, ⟨_, rfl⟩,
    Send_Cmd_escape (cardLink v2Reply 1) 1 ACMD41 (1 <<< 30) Card.world (by decide)⟩

/-! ## Response polling -/

theorem Send_Cmd_wait_rounds (L : Link σ) : ∀ (k n : Nat) (w : World σ),
    (∀ i, i < k → pollByte L i w &&& 0x80 ≠ 0 ∧ pollActive L i w = true) →
    Send_Cmd_wait L (k + n) w = Send_Cmd_wait L n (pollRounds L k w) := by
  intro k
  induction k with
  | zero => intro n w _; rw [Nat.zero_add]; rfl
  | succ k ih =>
    intro n w h
    obtain ⟨hb, ha⟩ := h 0 (Nat.succ_pos k)
    have hb' : (SPI_RW L 0xFF w).1 &&& 0x80 ≠ 0 := hb
    have ha' : (SPI_Timer_Status L (SPI_RW L 0xFF w).2).1 = true := ha
    rw [show k + 1 + n = (k + n) + 1 by omega, Send_Cmd_wait]
    simp only [hb', ne_eq, not_false_eq_true, if_true, ha']
    exact ih n _ (fun i hi => h (i + 1) (Nat.succ_lt_succ hi))

theorem Send_Cmd_wait_result (L : Link σ) : ∀ (n : Nat) (w : World σ) (r : Nat) (w' : World σ),
    Send_Cmd_wait L n w = some (r, w') →
    ∃ k, k < n ∧
      (∀ i, i < k → pollByte L i w &&& 0x80 ≠ 0 ∧ pollActive L i w = true) ∧
      r = pollByte L k w ∧
      ((r &&& 0x80 = 0 ∧ w' = (SPI_RW L 0xFF (pollRounds L k w)).2) ∨
        (r &&& 0x80 ≠ 0 ∧ pollActive L k w = false ∧
          w' = (SPI_Timer_Status L (SPI_RW L 0xFF (pollRounds L k w)).2).2)) := by
  intro n
  induction n with
  | zero => intro w r w' h; simp [Send_Cmd_wait] at h
  | succ n ih =>
    intro w r w' h
    rw [Send_Cmd_wait] at h
    by_cases hb : (SPI_RW L 0xFF w).1 &&& 0x80 ≠ 0
    · by_cases ha : (SPI_Timer_Status L (SPI_RW L 0xFF w).2).1 = true
      · simp only [hb, ne_eq, not_false_eq_true, if_true, ha] at h
        obtain ⟨k, hk, hall, hr, hw⟩ := ih _ r w' h
        refine ⟨k + 1, Nat.succ_lt_succ hk, ?_, hr, hw⟩
        intro i hi
        cases i with
        | zero => exact ⟨hb, ha⟩
        | succ j => exact hall j (Nat.lt_of_succ_lt_succ hi)
      · simp only [hb, ne_eq, not_false_eq_true, if_true, ha, Bool.false_eq_true, if_false,
          Option.some.injEq, Prod.mk.injEq] at h
        refine ⟨0, Nat.succ_pos n, fun i hi => absurd hi (Nat.not_lt_zero i), h.1.symm, ?_⟩
        refine Or.inr ⟨by rw [← h.1]; exact hb, ?_, h.2.symm⟩
        simpa using ha
    · simp only [hb, if_false, Option.some.injEq, Prod.mk.injEq] at h
      refine ⟨0, Nat.succ_pos n, fun i hi => absurd hi (Nat.not_lt_zero i), h.1.symm, ?_⟩
      refine Or.inl ⟨by rw [← h.1]; simpa using hb, h.2.symm⟩

/-- C13: for a command byte without the escape bit, the response loop of `__SD_Send_Cmd`
starts in the world `Send_Cmd_send L cmd arg w` left by the frame with the 5 ms timer armed.
If the bytes of rounds `0` to `k - 1` had the high bit set with the timer still active, then
a byte of round `k` with the high bit clear is the result, and so is a byte of round `k`
with the high bit set after which the timer query answers `FALSE`. Conversely every result
is the byte of such a round `k` (so at least one byte is read, and the bytes before it are
dropped), and a result with the high bit set was followed by a timer query that answered
`FALSE`. -/
theorem Send_Cmd_response (L : Link σ) (fuel cmd arg : Nat) (w : World σ)
    (hesc : cmd &&& 0x80 = 0) :
    (∀ k, k < fuel →
      (∀ i, i < k → pollByte L i (Send_Cmd_send L cmd arg w) &&& 0x80 ≠ 0 ∧
        pollActive L i (Send_Cmd_send L cmd arg w) = true) →
      (pollByte L k (Send_Cmd_send L cmd arg w) &&& 0x80 = 0 →
        __SD_Send_Cmd L (fuel + 1) cmd arg w
          = some (pollByte L k (Send_Cmd_send L cmd arg w),
              SPI_Timer_Off L (SPI_RW L 0xFF (pollRounds L k (Send_Cmd_send L cmd arg w))).2)) ∧
      (pollByte L k (Send_Cmd_send L cmd arg w) &&& 0x80 ≠ 0 →
        pollActive L k (Send_Cmd_send L cmd arg w) = false →
        __SD_Send_Cmd L (fuel + 1) cmd arg w
          = some (pollByte L k (Send_Cmd_send L cmd arg w),
              SPI_Timer_Off L (SPI_Timer_Status L
                (SPI_RW L 0xFF (pollRounds L k (Send_Cmd_send L cmd arg w))).2).2))) ∧
    (∀ (r : Nat) (w' : World σ), __SD_Send_Cmd L (fuel + 1) cmd arg w = some (r, w') →
      ∃ k, k < fuel ∧
        (∀ i, i < k → pollByte L i (Send_Cmd_send L cmd arg w) &&& 0x80 ≠ 0 ∧
          pollActive L i (Send_Cmd_send L cmd arg w) = true) ∧
        r = pollByte L k (Send_Cmd_send L cmd arg w) ∧
        (r &&& 0x80 = 0 ∨ pollActive L k (Send_Cmd_send L cmd arg w) = false)) := by
  obtain ⟨w0, hw0⟩ : ∃ w0, Send_Cmd_send L cmd arg w = w0 := ⟨_, rfl⟩
  have key : __SD_Send_Cmd L (fuel + 1) cmd arg w
      = (Send_Cmd_wait L fuel w0).bind (fun r => some (r.1, SPI_Timer_Off L r.2)) := by
    rw [Send_Cmd_plain L fuel cmd arg w hesc, ← hw0]; rfl
  rw [hw0, key]
  constructor
  · intro k hk hall
    obtain ⟨m, rfl⟩ : ∃ m, fuel = k + (m + 1) := ⟨fuel - k - 1, by omega⟩
    rw [Send_Cmd_wait_rounds L k (m + 1) w0 hall, Send_Cmd_wait]
    constructor
    · intro hclear
      have hclear' : (SPI_RW L 0xFF (pollRounds L k w0)).1 &&& 0x80 = 0 := hclear
      simp only [hclear', ne_eq, not_true_eq_false, if_false, Option.some_bind]
      rfl
    · intro hset hexp
      have hset' : (SPI_RW L 0xFF (pollRounds L k w0)).1 &&& 0x80 ≠ 0 := hset
      have hexp' : (SPI_Timer_Status L (SPI_RW L 0xFF (pollRounds L k w0)).2).1 = false := hexp
      simp only [hset', ne_eq, not_false_eq_true, if_true, hexp', Bool.false_eq_true, if_false,
        Option.some_bind]
      rfl
  · intro r w' h
    simp only [Option.bind_eq_some] at h
    obtain ⟨a, ha, hr⟩ := h
    simp only [Option.some.injEq, Prod.mk.injEq] at hr
    obtain ⟨k, hk, hall, hrk, hcase⟩ := Send_Cmd_wait_result L fuel w0 a.1 a.2 ha
    refine ⟨k, hk, hall, by rw [← hr.1]; exact hrk, ?_⟩
    rw [← hr.1]
    rcases hcase with h1 | h2
    · exact Or.inl h1.1
    · exact Or.inr h2.2.1

/-- C13 on `demoLateWorld`, where the response `0x05` is the byte of round 2 and the two
bytes before it are dropped, and on `demoSilentWorld`, where the byte `0xFF` of round 5 is
returned because the timer query after it is the first to answer `FALSE`. -/
theorem Send_Cmd_response_witness :
    CMD0 &&& 0x80 = 0 ∧
    (∃ w', __SD_Send_Cmd scriptLink (3 + 1) CMD0 0 demoLateWorld = some (0x05, w')) ∧
    (∃ w', __SD_Send_Cmd scriptLink (6 + 1) CMD0 0 demoSilentWorld = some (0xFF, w')) ∧
    (∀ (r : Nat) (w' : World Script),
      __SD_Send_Cmd scriptLink (6 + 1) CMD0 0 demoSilentWorld = some (r, w') →
      ∃ k, k < 6 ∧
        (∀ i, i < k → pollByte scriptLink i (Send_Cmd_send scriptLink CMD0 0 demoSilentWorld)
            &&& 0x80 ≠ 0 ∧
          pollActive scriptLink i (Send_Cmd_send scriptLink CMD0 0 demoSilentWorld) = true) ∧
        r = pollByte scriptLink k (Send_Cmd_send scriptLink CMD0 0 demoSilentWorld) ∧
        (r &&& 0x80 = 0 ∨
          pollActive scriptLink k (Send_Cmd_send scriptLink CMD0 0 demoSilentWorld) = false)) :=
  ⟨by decide,
    ⟨_, ((Send_Cmd_response scriptLink 3 CMD0 0 demoLateWorld (by decide)).1 2 (by decide)
      (by decide)).1 (by decide)⟩,
    ⟨_, ((Send_Cmd_response scriptLink 6 CMD0 0 demoSilentWorld (by decide)).1 5 (by decide)
      (by decide)).2 (by decide) (by decide)⟩,
    (Send_Cmd_response scriptLink 6 CMD0 0 demoSilentWorld (by decide)).2⟩

/-! ## Liveness probe -/

/-- C14 at the failing input: on `demoSilentWorld` no byte with the high bit clear ever
arrives, the CMD0 of `SD_Status` ends on the expiry of the 5 ms timer with `0xFF`, and
`SD_Status` returns `SD_OK`; on `demoZeroWorld` the card answers `0x00` at once and
`SD_Status` returns `SD_NORESPONSE`. -/
theorem SD_Status_no_response :
    (∃ w', __SD_Send_Cmd scriptLink 7 CMD0 0 demoSilentWorld = some (0xFF, w') ∧
      SD_Status scriptLink 7 demoSilentWorld = some (SD_OK, w')) ∧
    (∃ w', __SD_Send_Cmd scriptLink 7 CMD0 0 demoZeroWorld = some (0x00, w') ∧
      SD_Status scriptLink 7 demoZeroWorld = some (SD_NORESPONSE, w')) :=
  ⟨⟨_, rfl, rfl⟩, ⟨_, rfl, rfl⟩⟩

/-! ## Waits without a deadline -/

theorem card_Sectors_wait_idle (reply : Nat → Nat → List Nat) (tick : Nat) :
    ∀ (n : Nat) (w : World Card) (now : Nat) (bl : Nat → List Nat),
      w.hw = ⟨now, [], [], none, bl⟩ → Sectors_wait (cardLink reply tick) n w = none := by
  intro n
  induction n with
  | zero => intro w now bl _; rfl
  | succ n ih =>
    intro w now bl h
    have hx : (cardLink reply tick).spi_write_read_blocking w.hw (0xFF % 256)
        = (0xFF, ⟨now, [], [], none, bl⟩) := by
      rw [h]; exact card_exchange_idle reply now bl (0xFF % 256) (by decide)
    have hv : (SPI_RW (cardLink reply tick) 0xFF w).1 = 0xFF := by
      rw [SPI_RW_val, hx]; rfl
    have hh : (SPI_RW (cardLink reply tick) 0xFF w).2.hw = ⟨now, [], [], none, bl⟩ := by
      rw [SPI_RW_hw, hx]
    rw [Sectors_wait]
    simp only [hv, if_true]
    exact ih _ now bl hh

/-- On any link, whatever its clock does: while every byte read is `0xFF` the wait of
`__SD_Sectors` for the data token does not end. -/
theorem Sectors_wait_silent (L : Link σ) : ∀ (n : Nat) (w : World σ),
    (∀ k, (SPI_RW L 0xFF (SPI_RW_dummy L k w)).1 = 0xFF) → Sectors_wait L n w = none := by
  intro n
  induction n with
  | zero => intro w _; rfl
  | succ n ih =>
    intro w h
    have h0 : (SPI_RW L 0xFF w).1 = 0xFF := h 0
    rw [Sectors_wait]
    simp only [h0, if_true]
    exact ih _ (fun k => h (k + 1))

theorem Init_loop_v2 (L : Link σ) (cfg : Cfg) (f : Nat) (ccs : Bool)
    (hT : 1 ≤ cfg.SD_INIT_TRYS)
    (h0 : ∀ w, ∃ w', __SD_Send_Cmd L (f + 2) CMD0 0 w = some (1, w'))
    (h8 : ∀ w, ∃ w', __SD_Send_Cmd L (f + 2) CMD8 0x1AA w = some (1, w') ∧
      (SPI_RW_array L 4 w').1.getD 2 0 = 0x01 ∧ (SPI_RW_array L 4 w').1.getD 3 0 = 0xAA)
    (h41 : ∀ w, ∃ w', __SD_Send_Cmd L (f + 2) ACMD41 (1 <<< 30) w = some (0, w'))
    (h58 : ∀ w, ∃ w', __SD_Send_Cmd L (f + 2) CMD58 0 w = some (0, w') ∧
      ((SPI_RW_array L 4 w').1.getD 0 0 &&& 0x40 ≠ 0 ↔ ccs = true))
    (ctv : Nat)
    (hctv : ctv = (if ccs then (cfg.SDCT_SD2 ||| cfg.SDCT_BLOCK) % 256 else cfg.SDCT_SD2 % 256))
    (hne : ctv ≠ 0) (d : SD_DEV) (w : World σ) :
    ∃ w', Init_loop L cfg (f + 2) (f + 2) 0 0 d w
      = some (ctv, { d with mount := false }, w') := by
  obtain ⟨wr, hwr⟩ := Init_reset_idle L (f + 2) h0 f
    (SPI_Timer_On L 500 (SPI_RW_dummy L 10 (SPI_RW_dummy L 10
      (SPI_Freq_Low L (SPI_CS_High L (SPI_Init L w))))))
  obtain ⟨w0, hw0⟩ := h0 (SPI_Timer_Off L wr)
  obtain ⟨w8, hw8, ht⟩ := h8 w0
  obtain ⟨wv, hwv⟩ := Init_v2_ok L cfg (f + 2) ccs (by omega) h41 h58 0 w8 ht
  rw [← hctv] at hwv
  have hatt : Init_attempt L cfg (f + 2) 0 d w = some (ctv, { d with mount := false }, wv) := by
    simp only [Init_attempt, hwr, Option.some_bind, hw0, if_true, hw8, hwv]
  refine ⟨wv, ?_⟩
  have hcond : 0 ≠ cfg.SD_INIT_TRYS ∧ (0 : Nat) = 0 := ⟨by omega, rfl⟩
  rw [Init_loop, if_pos hcond, hatt]
  simp only [Option.some_bind, Init_loop]
  rw [if_neg (by simp [hne])]

/-- C15 at the failing input: the mock card `stuckReply` answers the whole SD version 2
negotiation like `v2Reply` and answers CMD9 with 0, but never sends the data token of the
CSD; its clock advances with every reading, so every armed timer expires. The wait
`while (SPI_RW(0xFF) == 0xFF);` of `__SD_Sectors` arms no timer and never looks at the
clock: on any link it goes on for as long as the bytes read are `0xFF`, and on this card no
amount of fuel lets `SD_Init` return. -/
theorem SD_Init_unbounded_wait :
    (∀ w, ∃ w', __SD_Send_Cmd (cardLink stuckReply 1) 3 CMD9 0 w = some (0, w')) ∧
    (∀ (τ : Type) (L : Link τ) (n : Nat) (w : World τ),
      (∀ k, (SPI_RW L 0xFF (SPI_RW_dummy L k w)).1 = 0xFF) → Sectors_wait L n w = none) ∧
    ∀ fuel, SD_Init (cardLink stuckReply 1) stdCfg fuel ⟨false, 0, 0⟩ Card.world = none := by
  have h9 : ∀ (f : Nat) (w : World Card), ∃ w',
      __SD_Send_Cmd (cardLink stuckReply 1) (f + 2) CMD9 0 w = some (0, w') ∧
      w'.hw = ⟨w.hw.now + 1 + 1, [], [], none, w.hw.blocks⟩ := by
    intro f w
    obtain ⟨wc, h, hhw, -⟩ := card_Send_Cmd_plain stuckReply 1 f CMD9 0 w (by decide)
      (by decide) (by decide) (by decide) (by decide) 0 [] rfl (by decide) (by decide)
    exact ⟨wc, h, hhw⟩
  refine ⟨fun w => ?_, ?_, ?_⟩
  · obtain ⟨wc, h, -⟩ := h9 1 w
    exact ⟨wc, h⟩
  · intro τ L n w h
    exact Sectors_wait_silent L n w h
  · intro fuel
    match fuel with
    | 0 => rfl
    | 1 => rfl
    | 2 => rfl
    | f + 3 =>
      have h0 : ∀ w, ∃ w', __SD_Send_Cmd (cardLink stuckReply 1) (f + 1 + 2) CMD0 0 w
          = some (1, w') := by
        intro w
        obtain ⟨wc, h, -⟩ := card_Send_Cmd_plain stuckReply 1 (f + 1) CMD0 0 w (by decide)
          (by decide) (by decide) (by decide) (by decide) 1 [] rfl (by decide) (by decide)
        exact ⟨wc, h⟩
      have h8 : ∀ w, ∃ w', __SD_Send_Cmd (cardLink stuckReply 1) (f + 1 + 2) CMD8 0x1AA w
          = some (1, w') ∧
          (SPI_RW_array (cardLink stuckReply 1) 4 w').1.getD 2 0 = 0x01 ∧
          (SPI_RW_array (cardLink stuckReply 1) 4 w').1.getD 3 0 = 0xAA := by
        intro w
        obtain ⟨wc, h, hhw, -⟩ := card_Send_Cmd_plain stuckReply 1 (f + 1) CMD8 0x1AA w
          (by decide) (by decide) (by decide) (by decide) (by decide) 1
          [0x00, 0x00, 0x01, 0xAA] rfl (by decide) (by decide)
        obtain ⟨ha, -⟩ := card_array stuckReply 1 [0x00, 0x00, 0x01, 0xAA] wc _ _ [] _ _ hhw
          (by decide)
        exact ⟨wc, h,
          by rw [show (4 : Nat) = [0x00, 0x00, 0x01, 0xAA].length from rfl, ha]; rfl,
          by rw [show (4 : Nat) = [0x00, 0x00, 0x01, 0xAA].length from rfl, ha]; rfl⟩
      have h41 : ∀ w, ∃ w', __SD_Send_Cmd (cardLink stuckReply 1) (f + 1 + 2) ACMD41
          (1 <<< 30) w = some (0, w') := by
        intro w
        obtain ⟨wc, h, -⟩ := card_Send_Cmd_app stuckReply 1 f ACMD41 (1 <<< 30) w (by decide)
          (by decide) (by decide) (by decide) (by decide) (by decide) 1 rfl (by decide) 0 []
          rfl (by decide) (by decide)
        exact ⟨wc, h⟩
      have h58 : ∀ w, ∃ w', __SD_Send_Cmd (cardLink stuckReply 1) (f + 1 + 2) CMD58 0 w
          = some (0, w') ∧
          ((SPI_RW_array (cardLink stuckReply 1) 4 w').1.getD 0 0 &&& 0x40 ≠ 0
            ↔ true = true) := by
        intro w
        obtain ⟨wc, h, hhw, -⟩ := card_Send_Cmd_plain stuckReply 1 (f + 1) CMD58 0 w
          (by decide) (by decide) (by decide) (by decide) (by decide) 0
          [0xC0, 0xFF, 0x80, 0x00] rfl (by decide) (by decide)
        obtain ⟨ha, -⟩ := card_array stuckReply 1 [0xC0, 0xFF, 0x80, 0x00] wc _ _ [] _ _ hhw
          (by decide)
        refine ⟨wc, h, ?_⟩
        rw [show (4 : Nat) = [0xC0, 0xFF, 0x80, 0x00].length from rfl, ha]
        decide
      obtain ⟨wl, hwl⟩ := Init_loop_v2 (cardLink stuckReply 1) stdCfg (f + 1) true
        (by decide) h0 h8 h41 h58 12 (by decide) (by decide) ⟨false, 0, 0⟩ Card.world
      obtain ⟨wc, hwc, hhw⟩ := h9 (f + 1) wl
      have hwait := card_Sectors_wait_idle stuckReply 1 (f + 3) wc _ _ hhw
      have hsec : __SD_Sectors (cardLink stuckReply 1) stdCfg (f + 3)
          ⟨true, 12, 0⟩ wl = none := by
        rw [__SD_Sectors, hwc]
        simp only [Option.some_bind, if_true, hwait, Option.none_bind]
      rw [SD_Init, hwl]
      simp only [Option.some_bind, ne_eq, OfNat.ofNat_ne_zero, not_false_eq_true, if_true]
      exact (congrArg (fun o => Option.bind o _) hsec).trans rfl

/-! ## Capacity -/

theorem Sectors_fields_C_SIZE_word (cfg : Cfg) (cardtype : Nat) (csd : List Nat) :
    (Sectors_fields cfg cardtype csd).C_SIZE < 65536 := by
  unfold Sectors_fields
  simp only []
  split_ifs
  · show _ ||| _ < 2 ^ 16
    exact Nat.or_lt_two_pow (Nat.mod_lt _ (by decide))
      (lt_of_le_of_lt Nat.and_le_right (by decide))
  · exact Nat.mod_lt _ (by decide)
  · exact Nat.mod_lt _ (by decide)
  · decide

/-- C16 at the failing input: a block-addressed SD version 2 card whose CSD `sdxcCSD` holds
`C_SIZE = 0x01DBD7`. The specification gives `(0x01DBD7 + 1) * 1024 = 124739584` sectors;
`__SD_Sectors` keeps `C_SIZE` in a `WORD`, loses the six top bits and returns
`(0xDBD7 + 1) * 1024 = 57630720`, and `SD_Init` stores 57630719 in `last_sector`. Whatever
the CSD, the `C_SIZE` of `__SD_Sectors` stays below 65536. -/
theorem Sectors_v2_block_truncated :
    (∀ (cfg : Cfg) (cardtype : Nat) (csd : List Nat),
      (Sectors_fields cfg cardtype csd).C_SIZE < 65536) ∧
    Sectors_v2_spec sdxcCSD = 124739584 ∧
    (∃ w', __SD_Sectors (cardLink (withCSD sdxcCSD v2Reply) 1) stdCfg 3
        ⟨true, stdCfg.SDCT_SD2 ||| stdCfg.SDCT_BLOCK, 0⟩ Card.world = some (57630720, w')) ∧
    (∃ w', SD_Init (cardLink (withCSD sdxcCSD v2Reply) 1) stdCfg 5 ⟨false, 0, 0⟩ Card.world
      = some (SD_OK, ⟨true, stdCfg.SDCT_SD2 ||| stdCfg.SDCT_BLOCK, 57630719⟩, w')) :=
  ⟨Sectors_fields_C_SIZE_word, rfl, ⟨_, rfl⟩, ⟨_, rfl⟩⟩

/-- C17 at the failing input: an SD version 1 card whose CSD is `legacyCSD`. The three
fields are extracted as the specification says (`C_SIZE = 3874`, `C_SIZE_MULT = 7`,
`READ_BL_LEN = 9`), which gives 1984000 sectors, but the last assignment of `__SD_Sectors`
is `ss = (C_SIZE + 1) * 1024` and the call returns 3968000. A CSD that differs only in
`READ_BL_LEN` (byte 5 is `0x5A`) or only in `C_SIZE_MULT` (byte 10 is `0x4F`) has a
different sector count in the specification and the same one in `__SD_Sectors`. -/
theorem Sectors_v1_fields_unused :
    Sectors_fields stdCfg stdCfg.SDCT_SD1 legacyCSD
      = { ss := 0, C_SIZE := 3874, C_SIZE_MULT := 7, READ_BL_LEN := 9 } ∧
    Sectors_v1_spec legacyCSD = 1984000 ∧
    (∃ w', __SD_Sectors (cardLink (withCSD legacyCSD deadReply) 1) stdCfg 3
        ⟨true, stdCfg.SDCT_SD1, 0⟩ Card.world = some (3968000, w')) ∧
    Sectors_v1_spec (legacyCSD.set 5 0x5A) = 3968000 ∧
    (∃ w', __SD_Sectors (cardLink (withCSD (legacyCSD.set 5 0x5A) deadReply) 1) stdCfg 3
        ⟨true, stdCfg.SDCT_SD1, 0⟩ Card.world = some (3968000, w')) ∧
    Sectors_v1_spec (legacyCSD.set 10 0x4F) = 992000 ∧
    (∃ w', __SD_Sectors (cardLink (withCSD (legacyCSD.set 10 0x4F) deadReply) 1) stdCfg 3
        ⟨true, stdCfg.SDCT_SD1, 0⟩ Card.world = some (3968000, w')) :=
  ⟨rfl, rfl, ⟨_, rfl⟩, rfl, ⟨_, rfl⟩, rfl, ⟨_, rfl⟩⟩

/-! ## Bytes exchanged by a block read -/

theorem SPI_RW_dummy_succ (L : Link σ) (n : Nat) (w : World σ) :
    SPI_RW_dummy L (n + 1) w = SPI_RW_dummy L n (SPI_RW L 0xFF w).2 := rfl

theorem rwCount_SPI_RW (L : Link σ) (d : Nat) (w : World σ) :
    rwCount (SPI_RW L d w).2.trace = rwCount w.trace + 1 := rfl

theorem rwCount_dummy (L : Link σ) : ∀ (n : Nat) (w : World σ),
    rwCount (SPI_RW_dummy L n w).trace = rwCount w.trace + n := by
  intro n
  induction n with
  | zero => intro w; rfl
  | succ n ih => intro w; rw [SPI_RW_dummy_succ, ih, rwCount_SPI_RW]; omega

theorem rwCount_array (L : Link σ) (n : Nat) (w : World σ) :
    rwCount (SPI_RW_array L n w).2.trace = rwCount w.trace + n := by
  rw [← SPI_RW_dummy_eq, rwCount_dummy]

theorem rwCount_read_tail (L : Link σ) (ofs cnt d : Nat) (w : World σ) :
    rwCount (SPI_RW_dummy L d (SPI_RW_array L cnt (SPI_RW_dummy L ofs
      (SPI_Timer_Off L w))).2).trace = rwCount w.trace + (ofs + cnt + d) := by
  have hoff : rwCount (SPI_Timer_Off L w).trace = rwCount w.trace := rfl
  rw [rwCount_dummy, rwCount_array, rwCount_dummy, hoff]
  omega

/-- The skip loop entered with the counter at zero wraps around: 65536 bytes. -/
theorem Read_skip_zero (L : Link σ) (fuel : Nat) (w : World σ) (hfuel : 65536 ≤ fuel) :
    Read_skip L fuel 0 w = some (SPI_RW_dummy L (65535 + 1) w) := by
  obtain ⟨n, rfl⟩ : ∃ n, fuel = n + 1 := ⟨fuel - 1, by omega⟩
  have hk : (0 + 65535) % 65536 = 65535 := by decide
  have hne : (65535 : Nat) ≠ 0 := by decide
  rw [Read_skip]
  simp only [hk]
  rw [if_pos hne, SPI_RW_dummy_succ]
  exact Read_skip_eq L n 65535 _ (by decide) (by decide) (by omega)

/-- What `SD_Read` does once the command was accepted and the token `0xFE` was read: `ofs`
bytes skipped, `cnt` bytes copied, and then `514 - ofs - cnt` bytes dropped, or 65536 of
them when that difference is zero. -/
theorem SD_Read_after_token (L : Link σ) (fuel : Nat) (dev : SD_DEV) (dat : Mem)
    (sector ofs cnt : Nat) (w w1 w2 : World σ)
    (hsec : sector ≤ dev.last_sector) (hcnt : 1 ≤ cnt) (hsum : ofs + cnt ≤ 514)
    (hfuel : 65536 ≤ fuel)
    (hcmd : __SD_Send_Cmd L fuel CMD17 ((sector * SD_BLK_SIZE) % 2 ^ 32) w = some (0, w1))
    (htok : Read_token L fuel (SPI_Timer_On L 100 w1) = some (0xFE, w2)) :
    SD_Read L fuel dev dat sector ofs cnt w
      = some (SD_OK,
          store dat 0 (SPI_RW_array L cnt (SPI_RW_dummy L ofs (SPI_Timer_Off L w2))).1,
          SPI_Release L (SPI_RW_dummy L (if ofs + cnt = 514 then 65535 + 1 else 514 - ofs - cnt)
            (SPI_RW_array L cnt (SPI_RW_dummy L ofs (SPI_Timer_Off L w2))).2)) := by
  obtain ⟨wt, hwt⟩ : ∃ wt, SPI_Timer_Off L w2 = wt := ⟨_, rfl⟩
  have hguard : ¬ (sector > dev.last_sector ∨ cnt = 0) := by omega
  have hskip : (if ofs ≠ 0 then Read_skip L fuel ofs wt else some wt)
      = some (SPI_RW_dummy L ofs wt) := by
    by_cases h0 : ofs = 0
    · subst h0; rw [if_neg (by simp)]; rfl
    · rw [if_pos h0]; exact Read_skip_eq L fuel ofs wt (by omega) (by omega) (by omega)
  obtain ⟨ws, hws⟩ : ∃ ws, SPI_RW_dummy L ofs wt = ws := ⟨_, rfl⟩
  have hcopy := Read_copy_eq L fuel cnt dat 0 ws hcnt (by omega) (by omega)
  obtain ⟨arr, harr⟩ : ∃ arr, SPI_RW_array L cnt ws = arr := ⟨_, rfl⟩
  rw [harr] at hcopy
  have hdrop : Read_skip L fuel
      ((((SD_BLK_SIZE : Nat) : Int) + 2 - (ofs : Int) - (cnt : Int)) % 65536).toNat arr.2
      = some (SPI_RW_dummy L (if ofs + cnt = 514 then 65535 + 1 else 514 - ofs - cnt) arr.2) := by
    by_cases h514 : ofs + cnt = 514
    · have hrem : ((((SD_BLK_SIZE : Nat) : Int) + 2 - (ofs : Int) - (cnt : Int))
          % 65536).toNat = 0 := by simp only [SD_BLK_SIZE]; omega
      rw [hrem, if_pos h514]
      exact Read_skip_zero L fuel arr.2 hfuel
    · have hrem : ((((SD_BLK_SIZE : Nat) : Int) + 2 - (ofs : Int) - (cnt : Int))
          % 65536).toNat = 514 - ofs - cnt := by simp only [SD_BLK_SIZE]; omega
      rw [hrem, if_neg h514]
      exact Read_skip_eq L fuel _ arr.2 (by omega) (by omega) (by omega)
  unfold SD_Read
  rw [if_neg hguard, hcmd]
  simp only [Option.some_bind, if_true]
  rw [htok]
  simp only [Option.some_bind, if_true]
  rw [hwt, hskip]
  simp only [Option.some_bind]
  rw [hws, hcopy]
  simp only [Option.some_bind]
  rw [hdrop, harr]
  rfl

/-- C18 at the failing input `ofs = 2`, `cnt = 512` (so `ofs + cnt = 514`), reading sector
3 of the mock card: after the token, `SD_Read` skips 2 bytes, copies 512 and then, because
the `WORD` counter `remaining` starts at zero and is decremented before it is tested, drops
65536 bytes instead of none: 66050 bytes are exchanged between the token and the release.
At `ofs = 1`, `cnt = 512` one byte is dropped and 514 bytes are exchanged. -/
theorem SD_Read_remaining_wraps :
    (∃ (w1 w2 wr : World Card) (m : Mem),
      __SD_Send_Cmd (cardLink deadReply 1) 65536 CMD17 ((3 * SD_BLK_SIZE) % 2 ^ 32) Card.world
        = some (0, w1) ∧
      Read_token (cardLink deadReply 1) 65536 (SPI_Timer_On (cardLink deadReply 1) 100 w1)
        = some (0xFE, w2) ∧
      SD_Read (cardLink deadReply 1) 65536 ⟨true, 12, 7⟩ (fun _ => 0) 3 2 512 Card.world
        = some (SD_OK, m, SPI_Release (cardLink deadReply 1) wr) ∧
      rwCount wr.trace = rwCount w2.trace + (2 + 512 + 65536)) ∧
    (∃ (w1 w2 wr : World Card) (m : Mem),
      __SD_Send_Cmd (cardLink deadReply 1) 65536 CMD17 ((3 * SD_BLK_SIZE) % 2 ^ 32) Card.world
        = some (0, w1) ∧
      Read_token (cardLink deadReply 1) 65536 (SPI_Timer_On (cardLink deadReply 1) 100 w1)
        = some (0xFE, w2) ∧
      SD_Read (cardLink deadReply 1) 65536 ⟨true, 12, 7⟩ (fun _ => 0) 3 1 512 Card.world
        = some (SD_OK, m, SPI_Release (cardLink deadReply 1) wr) ∧
      rwCount wr.trace = rwCount w2.trace + (1 + 512 + 1)) := by
  obtain ⟨w1, hcmd, hw1⟩ := card_Send_CMD17 deadReply 1 65534 ((3 * SD_BLK_SIZE) % 2 ^ 32)
    Card.world
  obtain ⟨wo, hwo⟩ : ∃ wo, SPI_Timer_On (cardLink deadReply 1) 100 w1 = wo := ⟨_, rfl⟩
  have hwo_hw := card_Timer_On_hw deadReply 1 100 w1 _ _ _ _ _ hw1
  rw [hwo] at hwo_hw
  obtain ⟨hr3, -⟩ := card_rw_queued deadReply 1 0xFF wo _ _ _ _ _ _ hwo_hw
  have htok : Read_token (cardLink deadReply 1) (65535 + 1) wo
      = some (0xFE, (SPI_RW (cardLink deadReply 1) 0xFF wo).2) := by
    rw [Read_token_first _ _ wo (by rw [hr3]; decide), hr3]
  rw [← hwo] at htok
  constructor
  · refine ⟨w1, _, _, _, hcmd, htok, SD_Read_after_token (cardLink deadReply 1) 65536
      ⟨true, 12, 7⟩ (fun _ => 0) 3 2 512 Card.world w1 _ (by decide) (by decide) (by decide)
      (by decide) hcmd htok, ?_⟩
    rw [if_pos (by decide)]
    exact rwCount_read_tail (cardLink deadReply 1) 2 512 (65535 + 1) _
  · refine ⟨w1, _, _, _, hcmd, htok, SD_Read_after_token (cardLink deadReply 1) 65536
      ⟨true, 12, 7⟩ (fun _ => 0) 3 1 512 Card.world w1 _ (by decide) (by decide) (by decide)
      (by decide) hcmd htok, ?_⟩
    rw [if_neg (by decide)]
    exact rwCount_read_tail (cardLink deadReply 1) 1 512 (514 - 1 - 512) _

/-! ## Failed reads -/

/-- C19: for a request that passes the parameter check, if CMD17 is answered by a non-zero
byte, or if it is answered 0 and the token wait ends on a byte other than `0xFE`, `SD_Read`
returns `SD_ERROR` with the caller memory as it was. The link it hands back is the one
left by the command (in the second case by the token wait and `SPI_Timer_Off`) followed by
the ten exchanges of `SPI_Release` and nothing else, so no payload byte was read. -/
theorem SD_Read_failure (L : Link σ) (fuel : Nat) (dev : SD_DEV) (dat : Mem)
    (sector ofs cnt : Nat) (w : World σ) (hsec : sector ≤ dev.last_sector) (hcnt : 1 ≤ cnt) :
    (∀ (c : Nat) (w1 : World σ),
      __SD_Send_Cmd L fuel CMD17 ((sector * SD_BLK_SIZE) % 2 ^ 32) w = some (c, w1) → c ≠ 0 →
      SD_Read L fuel dev dat sector ofs cnt w = some (SD_ERROR, dat, SPI_Release L w1) ∧
      rwCount (SPI_Release L w1).trace = rwCount w1.trace + 10) ∧
    (∀ (w1 : World σ) (t : Nat) (w2 : World σ),
      __SD_Send_Cmd L fuel CMD17 ((sector * SD_BLK_SIZE) % 2 ^ 32) w = some (0, w1) →
      Read_token L fuel (SPI_Timer_On L 100 w1) = some (t, w2) → t ≠ 0xFE →
      SD_Read L fuel dev dat sector ofs cnt w
        = some (SD_ERROR, dat, SPI_Release L (SPI_Timer_Off L w2)) ∧
      rwCount (SPI_Release L (SPI_Timer_Off L w2)).trace = rwCount w2.trace + 10) := by
  have hguard : ¬ (sector > dev.last_sector ∨ cnt = 0) := by omega
  constructor
  · intro c w1 hcmd hc
    refine ⟨?_, rwCount_dummy L 10 w1⟩
    unfold SD_Read
    rw [if_neg hguard, hcmd]
    simp only [Option.some_bind, hc, if_false]
  · intro w1 t w2 hcmd htok ht
    refine ⟨?_, rwCount_dummy L 10 (SPI_Timer_Off L w2)⟩
    unfold SD_Read
    rw [if_neg hguard, hcmd]
    simp only [Option.some_bind, if_true]
    rw [htok]
    simp only [Option.some_bind, ht, if_false]

/-- C19 for `ofs = 10`, `cnt = 20` at sector 3: on `demoRefusedWorld` CMD17 is answered
`0x04`; on `demoNoTokenWorld` the token wait ends by the 100 ms deadline on `0xFF`; on
`demoErrorTokenWorld` it ends on the byte `0x0B`. Each time the result is `SD_ERROR` and
the caller memory is unchanged. -/
theorem SD_Read_failure_witness :
    (3 ≤ (⟨true, 12, 7⟩ : SD_DEV).last_sector ∧ 1 ≤ 20) ∧
    (∃ w', SD_Read scriptLink 5 ⟨true, 12, 7⟩ (fun _ => 0) 3 10 20 demoRefusedWorld
      = some (SD_ERROR, fun _ => 0, w')) ∧
    (∃ w', SD_Read scriptLink 5 ⟨true, 12, 7⟩ (fun _ => 0) 3 10 20 demoNoTokenWorld
      = some (SD_ERROR, fun _ => 0, w')) ∧
    (∃ w', SD_Read scriptLink 5 ⟨true, 12, 7⟩ (fun _ => 0) 3 10 20 demoErrorTokenWorld
      = some (SD_ERROR, fun _ => 0, w')) :=
  ⟨⟨by decide, by decide⟩,
    ⟨_, ((SD_Read_failure scriptLink 5 ⟨true, 12, 7⟩ (fun _ => 0) 3 10 20 demoRefusedWorld
      (by decide) (by decide)).1 4 _ rfl (by decide)).1⟩,
    ⟨_, ((SD_Read_failure scriptLink 5 ⟨true, 12, 7⟩ (fun _ => 0) 3 10 20 demoNoTokenWorld
      (by decide) (by decide)).2 _ 0xFF _ rfl rfl (by decide)).1⟩,
    ⟨_, ((SD_Read_failure scriptLink 5 ⟨true, 12, 7⟩ (fun _ => 0) 3 10 20 demoErrorTokenWorld
      (by decide) (by decide)).2 _ 0x0B _ rfl rfl (by decide)).1⟩⟩

/-! ## The log only grows -/

theorem suffix_RW (L : Link σ) (d : Nat) (w : World σ) :
    w.trace <:+ (SPI_RW L d w).2.trace := List.suffix_cons _ _

theorem suffix_dummy (L : Link σ) : ∀ (n : Nat) (w : World σ),
    w.trace <:+ (SPI_RW_dummy L n w).trace := by
  intro n
  induction n with
  | zero => intro w; exact List.suffix_refl _
  | succ n ih => intro w; exact (suffix_RW L 0xFF w).trans (ih _)

theorem suffix_Read_token (L : Link σ) : ∀ (n : Nat) (w : World σ) (t : Nat) (w' : World σ),
    Read_token L n w = some (t, w') → w.trace <:+ w'.trace := by
  intro n
  induction n with
  | zero => intro w t w' h; simp [Read_token] at h
  | succ n ih =>
    intro w t w' h
    rw [Read_token] at h
    have hs : w.trace <:+ (SPI_Timer_Status L (SPI_RW L 0xFF w).2).2.trace :=
      (suffix_RW L 0xFF w).trans (List.suffix_cons _ _)
    split at h
    · dsimp only at h
      split at h
      · exact hs.trans (ih _ _ _ h)
      · simp only [Option.some.injEq, Prod.mk.injEq] at h
        rw [← h.2]; exact hs
    · simp only [Option.some.injEq, Prod.mk.injEq] at h
      rw [← h.2]; exact suffix_RW L 0xFF w

theorem suffix_Read_skip (L : Link σ) : ∀ (n k : Nat) (w w' : World σ),
    Read_skip L n k w = some w' → w.trace <:+ w'.trace := by
  intro n
  induction n with
  | zero => intro k w w' h; simp [Read_skip] at h
  | succ n ih =>
    intro k w w' h
    rw [Read_skip] at h
    split at h
    · exact (suffix_RW L 0xFF w).trans (ih _ _ _ h)
    · simp only [Option.some.injEq] at h
      rw [← h]; exact suffix_RW L 0xFF w

theorem suffix_Read_copy (L : Link σ) : ∀ (n cnt : Nat) (dat : Mem) (pos : Nat)
    (w : World σ) (m : Mem) (w' : World σ),
    Read_copy L n cnt dat pos w = some (m, w') → w.trace <:+ w'.trace := by
  intro n
  induction n with
  | zero => intro cnt dat pos w m w' h; simp [Read_copy] at h
  | succ n ih =>
    intro cnt dat pos w m w' h
    rw [Read_copy] at h
    split at h
    · exact (suffix_RW L 0xFF w).trans (ih _ _ _ _ _ _ h)
    · simp only [Option.some.injEq, Prod.mk.injEq] at h
      rw [← h.2]; exact suffix_RW L 0xFF w

theorem suffix_Write_Block_data (L : Link σ) (dat : Mem) : ∀ (n idx : Nat) (w : World σ),
    w.trace <:+ (Write_Block_data L dat n idx w).trace := by
  intro n
  induction n with
  | zero => intro idx w; exact List.suffix_refl _
  | succ n ih => intro idx w; exact (suffix_RW L _ w).trans (ih _ _)

theorem suffix_Write_Block_wait (L : Link σ) : ∀ (n : Nat) (w : World σ) (t : Nat)
    (w' : World σ), Write_Block_wait L n w = some (t, w') → w.trace <:+ w'.trace := by
  intro n
  induction n with
  | zero => intro w t w' h; simp [Write_Block_wait] at h
  | succ n ih =>
    intro w t w' h
    rw [Write_Block_wait] at h
    have hs : w.trace <:+ (SPI_Timer_Status L (SPI_RW L 0xFF w).2).2.trace :=
      (suffix_RW L 0xFF w).trans (List.suffix_cons _ _)
    split at h
    · dsimp only at h
      split at h
      · exact hs.trans (ih _ _ _ h)
      · simp only [Option.some.injEq, Prod.mk.injEq] at h
        rw [← h.2]; exact hs
    · simp only [Option.some.injEq, Prod.mk.injEq] at h
      rw [← h.2]; exact suffix_RW L 0xFF w

theorem suffix_Write_Block_finish (L : Link σ) (cfg : Cfg) (fuel : Nat) (w : World σ)
    (r : SDRESULTS) (w' : World σ) (h : Write_Block_finish L cfg fuel w = some (r, w')) :
    w.trace <:+ w'.trace := by
  unfold Write_Block_finish at h
  simp only [Option.bind_eq_some] at h
  obtain ⟨a, ha, hr⟩ := h
  have h1 := suffix_Write_Block_wait L fuel _ a.1 a.2 ha
  have h0 : w.trace <:+ (SPI_Timer_On L cfg.SD_IO_WRITE_TIMEOUT_WAIT w).trace :=
    List.suffix_cons _ _
  have h2 : a.2.trace <:+ (SPI_Timer_Off L a.2).trace := List.suffix_cons _ _
  have hw : w' = SPI_Timer_Off L a.2 := by
    split at hr <;> simp only [Option.some.injEq, Prod.mk.injEq] at hr <;> exact hr.2.symm
  rw [hw]
  exact (h0.trans h1).trans h2

theorem suffix_Write_Block (L : Link σ) (cfg : Cfg) (fuel : Nat) (dat : Mem) (token : Nat)
    (w : World σ) (r : SDRESULTS) (w' : World σ)
    (h : __SD_Write_Block L cfg fuel dat token w = some (r, w')) : w.trace <:+ w'.trace := by
  unfold __SD_Write_Block at h
  have h0 := suffix_RW L token w
  split at h
  · have h1 := suffix_Write_Block_data L dat SD_BLK_SIZE 0 (SPI_RW L token w).2
    have h2 := suffix_RW L 0xFF (Write_Block_data L dat SD_BLK_SIZE 0 (SPI_RW L token w).2)
    have h3 := suffix_RW L 0xFF (SPI_RW L 0xFF
      (Write_Block_data L dat SD_BLK_SIZE 0 (SPI_RW L token w).2)).2
    have h4 := suffix_RW L 0xFF (SPI_RW L 0xFF (SPI_RW L 0xFF
      (Write_Block_data L dat SD_BLK_SIZE 0 (SPI_RW L token w).2)).2).2
    have h04 := (((h0.trans h1).trans h2).trans h3).trans h4
    dsimp only at h
    split at h
    · simp only [Option.some.injEq, Prod.mk.injEq] at h
      rw [← h.2]; exact h04
    · exact h04.trans (suffix_Write_Block_finish L cfg fuel _ r w' h)
  · exact h0.trans (suffix_Write_Block_finish L cfg fuel _ r w' h)

/-! ## The address argument -/

theorem frame_suffix_Send_Cmd (L : Link σ) (fuel cmd arg : Nat) (w : World σ)
    (hcmd : cmd < 256) (hesc : cmd &&& 0x80 = 0) (r : Nat) (w' : World σ)
    (h : __SD_Send_Cmd L fuel cmd arg w = some (r, w')) :
    ∃ rx, (frameLog cmd arg (Send_Cmd_crc cmd) rx ++ w.trace) <:+ w'.trace := by
  cases fuel with
  | zero => simp [__SD_Send_Cmd] at h
  | succ f =>
    rw [Send_Cmd_plain L f cmd arg w hesc] at h
    obtain ⟨rx, poll, -, ht⟩ := Send_Cmd_frame_trace L f cmd arg w hcmd r w' h
    refine ⟨rx, Ev.timerOff :: poll, ?_⟩
    rw [ht]; rfl

theorem wrap_sector (s : Nat) :
    ((s + 2 ^ 23) * SD_BLK_SIZE) % 2 ^ 32 = (s * SD_BLK_SIZE) % 2 ^ 32 := by
  simp only [SD_BLK_SIZE]
  omega

/-- C20: for every device and every sector that passes the parameter check, `SD_Read` and
`SD_Write` do not look at `dev.cardtype`, and the frame they send first is CMD17 (CMD24 for
a write) with the argument `sector * 512` reduced modulo `2^32` and the checksum byte
`0x01`, whatever the card type. The run depends on the device and the sector through that
argument only: any device and in-range sector with the same argument give the same run,
command frame included; in particular `sector` and `sector + 2^23`, when both are in
range. -/
theorem SD_Read_Write_address (L : Link σ) (cfg : Cfg) (fuel : Nat) (dev : SD_DEV) (dat : Mem)
    (sector ofs cnt : Nat) (w : World σ) (hsec : sector ≤ dev.last_sector) :
    (∀ ct, SD_Read L fuel { dev with cardtype := ct } dat sector ofs cnt w
      = SD_Read L fuel dev dat sector ofs cnt w) ∧
    (∀ ct, SD_Write L cfg fuel { dev with cardtype := ct } dat sector w
      = SD_Write L cfg fuel dev dat sector w) ∧
    (1 ≤ cnt → ∀ (res : SDRESULTS) (m : Mem) (w' : World σ),
      SD_Read L fuel dev dat sector ofs cnt w = some (res, m, w') →
      ∃ rx, (frameLog CMD17 ((sector * SD_BLK_SIZE) % 2 ^ 32) 0x01 rx ++ w.trace)
        <:+ w'.trace) ∧
    (∀ (res : SDRESULTS) (w' : World σ),
      SD_Write L cfg fuel dev dat sector w = some (res, w') →
      ∃ rx, (frameLog CMD24 ((sector * SD_BLK_SIZE) % 2 ^ 32) 0x01 rx ++ w.trace)
        <:+ w'.trace) ∧
    (∀ (d : SD_DEV) (s : Nat), s ≤ d.last_sector →
      (s * SD_BLK_SIZE) % 2 ^ 32 = (sector * SD_BLK_SIZE) % 2 ^ 32 →
      SD_Read L fuel d dat s ofs cnt w = SD_Read L fuel dev dat sector ofs cnt w ∧
      SD_Write L cfg fuel d dat s w = SD_Write L cfg fuel dev dat sector w) ∧
    (sector + 2 ^ 23 ≤ dev.last_sector →
      SD_Read L fuel dev dat (sector + 2 ^ 23) ofs cnt w
        = SD_Read L fuel dev dat sector ofs cnt w ∧
      SD_Write L cfg fuel dev dat (sector + 2 ^ 23) w
        = SD_Write L cfg fuel dev dat sector w) := by
  have hg3 : ¬ (sector > dev.last_sector) := by omega
  have hsame : ∀ (d : SD_DEV) (s : Nat), s ≤ d.last_sector →
      (s * SD_BLK_SIZE) % 2 ^ 32 = (sector * SD_BLK_SIZE) % 2 ^ 32 →
      SD_Read L fuel d dat s ofs cnt w = SD_Read L fuel dev dat sector ofs cnt w ∧
      SD_Write L cfg fuel d dat s w = SD_Write L cfg fuel dev dat sector w := by
    intro d s hs harg
    have hgs : ¬ (s > d.last_sector) := by omega
    constructor
    · unfold SD_Read
      by_cases hc : cnt = 0
      · rw [if_pos (Or.inr hc), if_pos (Or.inr hc)]
      · rw [if_neg (by omega), if_neg (by omega), harg]
    · unfold SD_Write
      rw [if_neg hgs, if_neg hg3, harg]
  refine ⟨fun ct => rfl, fun ct => rfl, ?_, ?_, hsame,
    fun h23 => hsame dev (sector + 2 ^ 23) h23 (wrap_sector sector)⟩
  · intro hcnt res m w' h
    have hg1 : ¬ (sector > dev.last_sector ∨ cnt = 0) := by omega
    unfold SD_Read at h
    rw [if_neg hg1] at h
    simp only [Option.bind_eq_some] at h
    obtain ⟨c, hc, h⟩ := h
    obtain ⟨rx, hrx⟩ :=
      frame_suffix_Send_Cmd L fuel CMD17 _ w (by decide) (by decide) c.1 c.2 hc
    refine ⟨rx, hrx.trans ?_⟩
    split at h
    · simp only [Option.bind_eq_some] at h
      obtain ⟨t, ht, h⟩ := h
      have h1 : c.2.trace <:+ (SPI_Timer_Off L t.2).trace :=
        ((List.suffix_cons _ _).trans (suffix_Read_token L fuel _ t.1 t.2 ht)).trans
          (List.suffix_cons _ _)
      split at h
      · simp only [Option.bind_eq_some] at h
        obtain ⟨wa, ha, mb, hb, wd, hd, h⟩ := h
        simp only [Option.some.injEq, Prod.mk.injEq] at h
        have h2 : (SPI_Timer_Off L t.2).trace <:+ wa.trace := by
          split at ha
          · exact suffix_Read_skip L fuel _ _ _ ha
          · simp only [Option.some.injEq] at ha
            rw [← ha]
        have h3 := suffix_Read_copy L fuel _ _ _ _ _ _ hb
        have h4 := suffix_Read_skip L fuel _ _ _ hd
        rw [← h.2.2]
        exact (((h1.trans h2).trans h3).trans h4).trans (suffix_dummy L 10 wd)
      · simp only [Option.some.injEq, Prod.mk.injEq] at h
        rw [← h.2.2]
        exact h1.trans (suffix_dummy L 10 _)
    · simp only [Option.some.injEq, Prod.mk.injEq] at h
      rw [← h.2.2]
      exact suffix_dummy L 10 c.2
  · intro res w' h
    unfold SD_Write at h
    rw [if_neg hg3] at h
    simp only [Option.bind_eq_some] at h
    obtain ⟨c, hc, h⟩ := h
    obtain ⟨rx, hrx⟩ :=
      frame_suffix_Send_Cmd L fuel CMD24 _ w (by decide) (by decide) c.1 c.2 hc
    refine ⟨rx, hrx.trans ?_⟩
    split at h
    · exact suffix_Write_Block L cfg fuel dat 0xFE c.2 res w' h
    · simp only [Option.some.injEq, Prod.mk.injEq] at h
      rw [← h.2]

/-- C20 at sector 3 on `demoRefusedWorld`, for a small device (last sector 7, card type
`SDCT_SD2 | SDCT_BLOCK`), where the frames carry the argument `0x600`, and for a device
whose last sector is `2^24`, where the reads of sectors 3 and `3 + 2^23` are the same run
and so are the writes. -/
theorem SD_Read_Write_address_witness :
    (3 ≤ (⟨true, 12, 7⟩ : SD_DEV).last_sector ∧ 1 ≤ 20 ∧
      3 ≤ (⟨true, 12, 2 ^ 24⟩ : SD_DEV).last_sector ∧
      3 + 2 ^ 23 ≤ (⟨true, 12, 2 ^ 24⟩ : SD_DEV).last_sector) ∧
    (3 * SD_BLK_SIZE) % 2 ^ 32 = 0x600 ∧
    (∃ w', SD_Read scriptLink 5 ⟨true, 12, 7⟩ (fun _ => 0) 3 10 20 demoRefusedWorld
      = some (SD_ERROR, fun _ => 0, w')) ∧
    (∃ w', SD_Write scriptLink stdCfg 5 ⟨true, 12, 7⟩ (fun _ => 0) 3 demoRefusedWorld
      = some (SD_ERROR, w')) ∧
    (∀ ct, SD_Read scriptLink 5 { (⟨true, 12, 7⟩ : SD_DEV) with cardtype := ct }
        (fun _ => 0) 3 10 20 demoRefusedWorld
      = SD_Read scriptLink 5 ⟨true, 12, 7⟩ (fun _ => 0) 3 10 20 demoRefusedWorld) ∧
    (∀ ct, SD_Write scriptLink stdCfg 5 { (⟨true, 12, 7⟩ : SD_DEV) with cardtype := ct }
        (fun _ => 0) 3 demoRefusedWorld
      = SD_Write scriptLink stdCfg 5 ⟨true, 12, 7⟩ (fun _ => 0) 3 demoRefusedWorld) ∧
    (∀ (res : SDRESULTS) (m : Mem) (w' : World Script),
      SD_Read scriptLink 5 ⟨true, 12, 7⟩ (fun _ => 0) 3 10 20 demoRefusedWorld
        = some (res, m, w') →
      ∃ rx, (frameLog CMD17 ((3 * SD_BLK_SIZE) % 2 ^ 32) 0x01 rx ++ demoRefusedWorld.trace)
        <:+ w'.trace) ∧
    (∀ (res : SDRESULTS) (w' : World Script),
      SD_Write scriptLink stdCfg 5 ⟨true, 12, 7⟩ (fun _ => 0) 3 demoRefusedWorld
        = some (res, w') →
      ∃ rx, (frameLog CMD24 ((3 * SD_BLK_SIZE) % 2 ^ 32) 0x01 rx ++ demoRefusedWorld.trace)
        <:+ w'.trace) ∧
    SD_Read scriptLink 5 ⟨true, 12, 2 ^ 24⟩ (fun _ => 0) (3 + 2 ^ 23) 10 20 demoRefusedWorld
      = SD_Read scriptLink 5 ⟨true, 12, 2 ^ 24⟩ (fun _ => 0) 3 10 20 demoRefusedWorld ∧
    SD_Write scriptLink stdCfg 5 ⟨true, 12, 2 ^ 24⟩ (fun _ => 0) (3 + 2 ^ 23) demoRefusedWorld
      = SD_Write scriptLink stdCfg 5 ⟨true, 12, 2 ^ 24⟩ (fun _ => 0) 3 demoRefusedWorld :=
  have T := SD_Read_Write_address scriptLink stdCfg 5 ⟨true, 12, 7⟩ (fun _ => 0) 3 10 20
    demoRefusedWorld (by decide)
  have U := SD_Read_Write_address scriptLink stdCfg 5 ⟨true, 12, 2 ^ 24⟩ (fun _ => 0) 3 10 20
    demoRefusedWorld (by decide)
  ⟨⟨by decide, by decide, by decide, by decide⟩, by decide, ⟨_, rfl⟩, ⟨_, rfl⟩, T.1, T.2.1,
    T.2.2.1 (by decide), T.2.2.2.1, (U.2.2.2.2.2 (by decide)).1, (U.2.2.2.2.2 (by decide)).2⟩

/-! ## A refused capacity query -/

theorem Write_Block_finish_result (L : Link σ) (cfg : Cfg) (fuel : Nat) (w : World σ)
    (r : SDRESULTS) (w' : World σ) (h : Write_Block_finish L cfg fuel w = some (r, w')) :
    r = SD_BUSY ∨ r = SD_OK := by
  unfold Write_Block_finish at h
  simp only [Option.bind_eq_some] at h
  obtain ⟨a, -, hr⟩ := h
  split at hr <;> simp only [Option.some.injEq, Prod.mk.injEq] at hr
  · exact Or.inl hr.1.symm
  · exact Or.inr hr.1.symm

theorem Write_Block_result (L : Link σ) (cfg : Cfg) (fuel : Nat) (dat : Mem) (token : Nat)
    (w : World σ) (r : SDRESULTS) (w' : World σ)
    (h : __SD_Write_Block L cfg fuel dat token w = some (r, w')) :
    r = SD_REJECT ∨ r = SD_BUSY ∨ r = SD_OK := by
  unfold __SD_Write_Block at h
  split at h
  · dsimp only at h
    split at h
    · simp only [Option.some.injEq, Prod.mk.injEq] at h
      exact Or.inl h.1.symm
    · exact Or.inr (Write_Block_finish_result L cfg fuel _ r w' h)
  · exact Or.inr (Write_Block_finish_result L cfg fuel _ r w' h)

theorem SD_Write_no_PARERR (L : Link σ) (cfg : Cfg) (fuel : Nat) (dev : SD_DEV) (dat : Mem)
    (sector : Nat) (w : World σ) (hsec : sector ≤ dev.last_sector) (w' : World σ) :
    SD_Write L cfg fuel dev dat sector w ≠ some (SD_PARERR, w') := by
  intro h
  unfold SD_Write at h
  rw [if_neg (by omega)] at h
  simp only [Option.bind_eq_some] at h
  obtain ⟨c, -, h⟩ := h
  split at h
  · rcases Write_Block_result L cfg fuel dat 0xFE c.2 _ w' h with h1 | h1 | h1 <;>
      exact SDRESULTS.noConfusion h1
  · simp only [Option.some.injEq, Prod.mk.injEq] at h
    exact SDRESULTS.noConfusion h.1

theorem SD_Read_no_PARERR (L : Link σ) (fuel : Nat) (dev : SD_DEV) (dat : Mem)
    (sector ofs cnt : Nat) (w : World σ) (hsec : sector ≤ dev.last_sector) (hcnt : 1 ≤ cnt)
    (m : Mem) (w' : World σ) :
    SD_Read L fuel dev dat sector ofs cnt w ≠ some (SD_PARERR, m, w') := by
  intro h
  unfold SD_Read at h
  rw [if_neg (by omega)] at h
  simp only [Option.bind_eq_some] at h
  obtain ⟨c, -, h⟩ := h
  split at h
  · simp only [Option.bind_eq_some] at h
    obtain ⟨t, -, h⟩ := h
    split at h
    · simp only [Option.bind_eq_some] at h
      obtain ⟨wa, -, mb, -, wd, -, h⟩ := h
      simp only [Option.some.injEq, Prod.mk.injEq] at h
      exact SDRESULTS.noConfusion h.1
    · simp only [Option.some.injEq, Prod.mk.injEq] at h
      exact SDRESULTS.noConfusion h.1
  · simp only [Option.some.injEq, Prod.mk.injEq] at h
    exact SDRESULTS.noConfusion h.1

/-- C21: on any link, when the attempt loop of `SD_Init` ends with a card type `ct ≠ 0`,
CMD9 is then answered by a non-zero byte and the CMD58 that follows returns, `__SD_Sectors`
returns 0 and `SD_Init` returns `SD_OK` with the device mounted, typed `ct`, and
`last_sector = 0xFFFFFFFF` (zero minus one in a `DWORD`). With that device no sector number
below `2^32` makes `SD_Read` (called with a non-zero count) or `SD_Write` return
`SD_PARERR`, on any link state and with any fuel. -/
theorem SD_Init_sectors_refused (L : Link σ) (cfg : Cfg) (fuel : Nat) (dev dev1 : SD_DEV)
    (w w1 w2 w3 : World σ) (ct r r3 : Nat)
    (hloop : Init_loop L cfg fuel fuel 0 0 dev w = some (ct, dev1, w1)) (hct : ct ≠ 0)
    (h9 : __SD_Send_Cmd L fuel CMD9 0 w1 = some (r, w2)) (hr : r ≠ 0)
    (h58 : __SD_Send_Cmd L fuel CMD58 0 w2 = some (r3, w3)) :
    __SD_Sectors L cfg fuel ⟨true, ct, dev1.last_sector⟩ w1 = some (0, w2) ∧
    (∃ w', SD_Init L cfg fuel dev w = some (SD_OK, ⟨true, ct, 0xFFFFFFFF⟩, w')) ∧
    ∀ (fuel' : Nat) (dat : Mem) (sector ofs cnt : Nat) (wx : World σ), sector < 2 ^ 32 →
      (1 ≤ cnt → ∀ (m : Mem) (w'' : World σ),
        SD_Read L fuel' ⟨true, ct, 0xFFFFFFFF⟩ dat sector ofs cnt wx
          ≠ some (SD_PARERR, m, w'')) ∧
      (∀ (w'' : World σ),
        SD_Write L cfg fuel' ⟨true, ct, 0xFFFFFFFF⟩ dat sector wx ≠ some (SD_PARERR, w'')) := by
  have hsec : __SD_Sectors L cfg fuel ⟨true, ct, dev1.last_sector⟩ w1 = some (0, w2) := by
    rw [__SD_Sectors, h9]
    simp only [Option.some_bind, hr, if_false]
  refine ⟨hsec, ?_, ?_⟩
  · refine ⟨SPI_Release L (__SD_Speed_Transfer L true
      (if r3 = 0 then (SPI_RW_array L 4 w3).2 else w3)), ?_⟩
    rw [SD_Init, hloop]
    simp only [Option.some_bind, ne_eq, hct, not_false_eq_true, if_true]
    rw [hsec]
    simp only [Option.some_bind]
    rw [h58]
    rfl
  · intro fuel' dat sector ofs cnt wx hs
    have hle : sector ≤ (⟨true, ct, 0xFFFFFFFF⟩ : SD_DEV).last_sector := by
      show sector ≤ 0xFFFFFFFF
      omega
    exact ⟨fun hcnt m w'' => SD_Read_no_PARERR L fuel' _ dat sector ofs cnt wx hle hcnt m w'',
      fun w'' => SD_Write_no_PARERR L cfg fuel' _ dat sector wx hle w''⟩

/-- C21 on the mock card `noCSDReply`, which negotiates as an SD version 2 card and
answers CMD9 with `0x04`: `SD_Init` mounts it with `last_sector = 0xFFFFFFFF`. -/
theorem SD_Init_sectors_refused_witness :
    (∃ dev1 w1 w2 w3,
      Init_loop (cardLink noCSDReply 1) stdCfg 5 5 0 0 ⟨false, 0, 0⟩ Card.world
        = some (12, dev1, w1) ∧ (12 : Nat) ≠ 0 ∧
      __SD_Send_Cmd (cardLink noCSDReply 1) 5 CMD9 0 w1 = some (4, w2) ∧ (4 : Nat) ≠ 0 ∧
      __SD_Send_Cmd (cardLink noCSDReply 1) 5 CMD58 0 w2 = some (0, w3) ∧
      __SD_Sectors (cardLink noCSDReply 1) stdCfg 5 ⟨true, 12, dev1.last_sector⟩ w1
        = some (0, w2)) ∧
    (∃ w', SD_Init (cardLink noCSDReply 1) stdCfg 5 ⟨false, 0, 0⟩ Card.world
      = some (SD_OK, ⟨true, 12, 0xFFFFFFFF⟩, w')) ∧
    (∀ (fuel' : Nat) (dat : Mem) (sector ofs cnt : Nat) (wx : World Card), sector < 2 ^ 32 →
      (1 ≤ cnt → ∀ (m : Mem) (w'' : World Card),
        SD_Read (cardLink noCSDReply 1) fuel' ⟨true, 12, 0xFFFFFFFF⟩ dat sector ofs cnt wx
          ≠ some (SD_PARERR, m, w'')) ∧
      (∀ (w'' : World Card),
        SD_Write (cardLink noCSDReply 1) stdCfg fuel' ⟨true, 12, 0xFFFFFFFF⟩ dat sector wx
          ≠ some (SD_PARERR, w''))) :=
  have T := SD_Init_sectors_refused (cardLink noCSDReply 1) stdCfg 5 ⟨false, 0, 0⟩ _
    Card.world _ _ _ 12 4 0 rfl (by decide) rfl (by decide) rfl
  ⟨⟨_, _, _, _, rfl, by decide, rfl, by decide, rfl, T.1⟩, T.2.1, T.2.2⟩

/-! ## Classification of a card that stays idle -/

/-- The SD version 2 branch classifies the card from the OCR alone: however the two
ACMD41 windows ended, a CMD58 answered 0 yields an SD version 2 card type. -/
theorem Init_v2_unchecked (L : Link σ) (cfg : Cfg) (fuel ct : Nat) (w wa wb wc : World σ)
    (hecho : (SPI_RW_array L 4 w).1.getD 2 0 = 0x01 ∧ (SPI_RW_array L 4 w).1.getD 3 0 = 0xAA)
    (ha : Init_v2_idle L fuel fuel (SPI_Timer_On L 1000 (SPI_RW_array L 4 w).2) = some wa)
    (hb : Init_v2_idle L fuel fuel (SPI_Timer_On L 1000 (SPI_Timer_Off L wa)) = some wb)
    (h58 : __SD_Send_Cmd L fuel CMD58 0 (SPI_Timer_Off L wb) = some (0, wc)) :
    Init_v2 L cfg fuel ct w
      = some (if (SPI_RW_array L 4 wc).1.getD 0 0 &&& 0x40 ≠ 0
          then (cfg.SDCT_SD2 ||| cfg.SDCT_BLOCK) % 256 else cfg.SDCT_SD2 % 256,
        (SPI_RW_array L 4 wc).2) := by
  rw [Init_v2, if_pos hecho]
  simp only [ha, Option.some_bind, hb, h58, if_true]

/-- C22: the mock card `idleReply`, with a clock that advances by one microsecond per
reading, is such a link. From every state it answers CMD0 with `0x01`, CMD8(0x1AA) with
`0x01` and an echo that ends in `0x01 0xAA`, every ACMD41 with the HCS bit with `0x01`
(never 0), and CMD58 with 0. `SD_Init` sends that ACMD41 once in each of the two windows
(two frames with the command byte `0x69` in the log), never sees the card leave the idle
state, and returns `SD_OK` with the device mounted and typed `SDCT_SD2 | SDCT_BLOCK`. On
any link the SD version 2 branch yields an SD version 2 card type once both windows have
ended and CMD58 is answered 0, whatever the ACMD41 responses were. -/
theorem SD_Init_v2_never_ready :
    (∀ w, ∃ w', __SD_Send_Cmd (cardLink idleReply 1) 5 CMD0 0 w = some (1, w')) ∧
    (∀ w, ∃ w', __SD_Send_Cmd (cardLink idleReply 1) 5 CMD8 0x1AA w = some (1, w') ∧
      (SPI_RW_array (cardLink idleReply 1) 4 w').1.getD 2 0 = 0x01 ∧
      (SPI_RW_array (cardLink idleReply 1) 4 w').1.getD 3 0 = 0xAA) ∧
    (∀ w, ∃ w', __SD_Send_Cmd (cardLink idleReply 1) 5 ACMD41 (1 <<< 30) w = some (1, w')) ∧
    (∀ w, ∃ w', __SD_Send_Cmd (cardLink idleReply 1) 5 CMD58 0 w = some (0, w')) ∧
    (∀ (τ : Type) (L : Link τ) (cfg : Cfg) (fuel ct : Nat) (w wa wb wc : World τ),
      (SPI_RW_array L 4 w).1.getD 2 0 = 0x01 ∧ (SPI_RW_array L 4 w).1.getD 3 0 = 0xAA →
      Init_v2_idle L fuel fuel (SPI_Timer_On L 1000 (SPI_RW_array L 4 w).2) = some wa →
      Init_v2_idle L fuel fuel (SPI_Timer_On L 1000 (SPI_Timer_Off L wa)) = some wb →
      __SD_Send_Cmd L fuel CMD58 0 (SPI_Timer_Off L wb) = some (0, wc) →
      Init_v2 L cfg fuel ct w
        = some (if (SPI_RW_array L 4 wc).1.getD 0 0 &&& 0x40 ≠ 0
            then (cfg.SDCT_SD2 ||| cfg.SDCT_BLOCK) % 256 else cfg.SDCT_SD2 % 256,
          (SPI_RW_array L 4 wc).2)) ∧
    ∃ w', SD_Init (cardLink idleReply 1) stdCfg 5 ⟨false, 0, 0⟩ Card.world
        = some (SD_OK, ⟨true, stdCfg.SDCT_SD2 ||| stdCfg.SDCT_BLOCK, 15523839⟩, w') ∧
      (w'.trace.filter (fun e => decide (e = Ev.rw (ACMD41 &&& 0x7F) 0xFF))).length = 2 := by
  refine ⟨?_, ?_, ?_, ?_,
    fun τ L cfg fuel ct w wa wb wc => Init_v2_unchecked L cfg fuel ct w wa wb wc,
    ⟨_, rfl, by decide⟩⟩
  · intro w
    obtain ⟨wc, h, -⟩ := card_Send_Cmd_plain idleReply 1 3 CMD0 0 w (by decide) (by decide)
      (by decide) (by decide) (by decide) 1 [] rfl (by decide) (by decide)
    exact ⟨wc, h⟩
  · intro w
    obtain ⟨wc, h, hhw, -⟩ := card_Send_Cmd_plain idleReply 1 3 CMD8 0x1AA w (by decide)
      (by decide) (by decide) (by decide) (by decide) 1 [0x00, 0x00, 0x01, 0xAA] rfl
      (by decide) (by decide)
    obtain ⟨ha, -⟩ := card_array idleReply 1 [0x00, 0x00, 0x01, 0xAA] wc _ _ [] _ _ hhw
      (by decide)
    exact ⟨wc, h, by rw [show (4 : Nat) = [0x00, 0x00, 0x01, 0xAA].length from rfl, ha]; rfl,
      by rw [show (4 : Nat) = [0x00, 0x00, 0x01, 0xAA].length from rfl, ha]; rfl⟩
  · intro w
    obtain ⟨wc, h, -⟩ := card_Send_Cmd_app idleReply 1 2 ACMD41 (1 <<< 30) w (by decide)
      (by decide) (by decide) (by decide) (by decide) (by decide) 1 rfl (by decide) 1 [] rfl
      (by decide) (by decide)
    exact ⟨wc, h⟩
  · intro w
    obtain ⟨wc, h, -⟩ := card_Send_Cmd_plain idleReply 1 3 CMD58 0 w (by decide) (by decide)
      (by decide) (by decide) (by decide) 0 [0xC0, 0xFF, 0x80, 0x00] rfl (by decide)
      (by decide)
    exact ⟨wc, h⟩

end UlibSD
